import Mathlib

/-!
# RADIUS CoA / Disconnect processing (`proto_radius_coa.c`)

A shallow embedding of `mod_process` and `mod_instantiate` from
`src/modules/proto_radius/proto_radius_coa.c`, followed by theorems about
the request state machine, the reply code mapping, the NAK fallback and the
compilation of the processing sections.

Conventions of the embedding:

* `unsigned int` / `uint32` values are natural numbers; the two additions of
  the source (`packet->code + 1`, `packet->code + 2`) are taken modulo `2^32`.
* The interpreter (`unlang_push_section`, `unlang_interpret_continue`,
  `unlang_signal`), the dictionary and the configuration tree are external to
  the file.  The interpreter is a pair of functions of the request; every call
  made to it is appended to `REQUEST.unlang_calls`, so later calls may answer
  differently.  It may write the master state, the reply code and the reply
  pairs of a request, and nothing else.
* Diagnostic output (`RDEBUG`, `REDEBUG`, `radlog_request`, ...) and the
  `rad_assert` checks are not modelled, with one exception: the warning of
  line 170 reads `dv->alias` without testing `dv`, so every pass through that
  branch appends the looked-up `dv` to `REQUEST.nak_fallbacks`.
* The label loop `rerun_nak` is bounded by a fuel argument counting the
  `unlang_interpret_continue` calls of the SEND phase; `none` means that the
  fuel ran out.
-/

namespace ProtoRadiusCoa

/-! ## Data model -/

/-- Modelled from the spec: the `rlm_rcode_t` enumeration is declared in a header
that is not part of the sources; the named codes are the ones the source
switches on, `unrecognised n` stands for any other value of the type. -/
inductive rlm_rcode_t
  | RLM_MODULE_REJECT
  | RLM_MODULE_FAIL
  | RLM_MODULE_OK
  | RLM_MODULE_HANDLED
  | RLM_MODULE_INVALID
  | RLM_MODULE_USERLOCK
  | RLM_MODULE_NOTFOUND
  | RLM_MODULE_NOOP
  | RLM_MODULE_UPDATED
  | RLM_MODULE_YIELD
  | unrecognised (n : Nat)
  deriving DecidableEq, Repr

/-- Modelled from the spec: `fr_io_action_t`; `FR_IO_ACTION_RUN` or any other
(signal) value. -/
inductive fr_io_action_t
  | FR_IO_ACTION_RUN
  | other (n : Nat)
  deriving DecidableEq, Repr

/-- Modelled from the spec: `fr_io_final_t`, the four values returned by
`mod_process`. -/
inductive fr_io_final_t
  | FR_IO_FAIL
  | FR_IO_DONE
  | FR_IO_REPLY
  | FR_IO_YIELD
  deriving DecidableEq, Repr

/-- Modelled from the spec: the values of `request->request_state`; `other n` is
any value that is none of the three the source switches on. -/
inductive request_state_t
  | REQUEST_INIT
  | REQUEST_RECV
  | REQUEST_SEND
  | other (n : Nat)
  deriving DecidableEq, Repr

/-- Modelled from the spec: the values of `request->master_state`. -/
inductive master_state_t
  | REQUEST_ACTIVE
  | REQUEST_STOP_PROCESSING
  | REQUEST_COUNTED
  deriving DecidableEq, Repr

/-- The modulus of `unsigned int` / `uint32_t` arithmetic. -/
def UINT32_MOD : Nat := 2 ^ 32

/-- Modelled from the spec: `AF_UNSPEC` of the socket headers. -/
def AF_UNSPEC : Nat := 0

/-- The fields of `VALUE_PAIR` read by the source: the attribute (vendor and
number) and the `vp_uint32` value. -/
structure VALUE_PAIR where
  vendor : Nat
  attr : Nat
  vp_uint32 : Nat
  deriving DecidableEq, Repr

/-- The fields of `fr_dict_enum_t` read by the source (`alias_` is the field
`alias`, a reserved word here). -/
structure fr_dict_enum_t where
  alias_ : String
  value : Nat
  deriving DecidableEq, Repr

/-- A configuration section `name1 name2 { ... }` with the file it came from. -/
structure CONF_SECTION where
  name1 : String
  name2 : String
  filename : String
  deriving DecidableEq, Repr

/-- The address family and address of an `fr_ipaddr_t`. -/
structure fr_ipaddr_t where
  af : Nat
  addr : Nat
  deriving DecidableEq, Repr

/-- One call made to the interpreter. -/
inductive unlang_call
  | push (cs : CONF_SECTION) (dflt : rlm_rcode_t)
  | interpret
  | signal (action : fr_io_action_t)
  deriving DecidableEq, Repr

/-- The fields of `REQUEST` (with `request->packet`, `request->reply` and
`request->client` flattened) that `mod_process` reads or writes, the trace of
the calls made to the interpreter, and the record of the passes through the
fallback branch of lines 165-182. -/
structure REQUEST where
  request_state : request_state_t
  master_state : master_state_t
  component : String
  packet_code : Nat
  reply_code : Nat
  reply_vps : List VALUE_PAIR
  reply_src_ipaddr : fr_ipaddr_t
  client_src_ipaddr : fr_ipaddr_t
  parent : Bool
  server_cs : List CONF_SECTION
  unlang_calls : List unlang_call
  nak_fallbacks : List (Option fr_dict_enum_t)
  deriving DecidableEq, Repr

/-- What a call of the interpreter may write into the request. -/
structure interp_writes where
  master_state : master_state_t
  reply_code : Nat
  reply_vps : List VALUE_PAIR

/-- Everything `mod_process` uses that is defined outside the source file: the
enumerated values of the `Packet-Type` attribute (`da`, which the source
asserts to exist), the constants `FR_PACKET_TYPE` and
`FR_CODE_DO_NOT_RESPOND`, the build flag `WITH_UDPFROMTO`, and the
interpreter: `unlang_interpret_continue` gives the result code and what it
wrote, `unlang_signal` what it wrote. -/
structure Services where
  da : List fr_dict_enum_t
  FR_PACKET_TYPE : Nat
  FR_CODE_DO_NOT_RESPOND : Nat
  WITH_UDPFROMTO : Bool
  unlang_interpret_continue : REQUEST → rlm_rcode_t × interp_writes
  unlang_signal : REQUEST → fr_io_action_t → interp_writes

/-! ## External lookups -/

/-- Modelled from the spec: `fr_dict_enum_by_value` is not under src/; it maps a
numeric value of the attribute to its enumeration entry (alias), if any. -/
def fr_dict_enum_by_value (da : List fr_dict_enum_t) (value : Nat) : Option fr_dict_enum_t :=
  da.find? (fun dv => dv.value == value)

/-- Modelled from the spec: `cf_section_find` is not under src/; it finds the
section `name1 name2` of a configuration scope, if it is configured. -/
def cf_section_find (cs : List CONF_SECTION) (name1 name2 : String) : Option CONF_SECTION :=
  cs.find? (fun c => c.name1 == name1 && c.name2 == name2)

/-- Modelled from the spec: `fr_pair_find_by_num` is not under src/; called with
`TAG_ANY` it returns the first pair of the list with the given vendor and
attribute number. -/
def fr_pair_find_by_num (vps : List VALUE_PAIR) (vendor attr : Nat) : Option VALUE_PAIR :=
  vps.find? (fun vp => vp.vendor == vendor && vp.attr == attr)

/-- The call `unlang_push_section(request, unlang, RLM_MODULE_NOOP)`. -/
def unlang_push_section (s : REQUEST) (unlang : CONF_SECTION) (dflt : rlm_rcode_t) : REQUEST :=
  { s with unlang_calls := s.unlang_calls ++ [unlang_call.push unlang dflt] }

/-- The call `rcode = unlang_interpret_continue(request)`: the result code and
the request as the interpreter leaves it. -/
def interpret (env : Services) (s : REQUEST) : rlm_rcode_t × REQUEST :=
  let e := env.unlang_interpret_continue s
  (e.1,
   { s with
     master_state := e.2.master_state
     reply_code := e.2.reply_code
     reply_vps := e.2.reply_vps
     unlang_calls := s.unlang_calls ++ [unlang_call.interpret] })

/-- The call `unlang_signal(request, action)`. -/
def signal (env : Services) (s : REQUEST) (action : fr_io_action_t) : REQUEST :=
  let e := env.unlang_signal s action
  { s with
    master_state := e.master_state
    reply_code := e.reply_code
    reply_vps := e.reply_vps
    unlang_calls := s.unlang_calls ++ [unlang_call.signal action] }

/-! ## `mod_process` -/

/-- Lines 90-109: the switch on the result of the receive section. -/
def recv_rcode (s : REQUEST) (rcode : rlm_rcode_t) : REQUEST :=
  match rcode with
  | .RLM_MODULE_NOOP | .RLM_MODULE_NOTFOUND | .RLM_MODULE_OK | .RLM_MODULE_UPDATED =>
    { s with reply_code := (s.packet_code + 1) % UINT32_MOD }
  | .RLM_MODULE_HANDLED => s
  | _ => { s with reply_code := (s.packet_code + 2) % UINT32_MOD }

/-- Lines 114-115: a `Packet-Type` pair in the reply replaces the reply code. -/
def reply_override (env : Services) (s : REQUEST) : REQUEST :=
  match fr_pair_find_by_num s.reply_vps 0 env.FR_PACKET_TYPE with
  | some vp => { s with reply_code := vp.vp_uint32 }
  | none => s

/-- Lines 120-122: the section `send <alias of the reply code>`, if the reply
code has an alias and the section is configured. -/
def find_send (env : Services) (s : REQUEST) : Option CONF_SECTION :=
  match fr_dict_enum_by_value env.da s.reply_code with
  | none => none
  | some dv => cf_section_find s.server_cs "send" dv.alias_

/-- Lines 132-137, the label `rerun_nak`: push the send section and enter the
SEND state. -/
def rerun_nak (s : REQUEST) (unlang : CONF_SECTION) : REQUEST :=
  { unlang_push_section s unlang rlm_rcode_t.RLM_MODULE_NOOP with
    request_state := request_state_t.REQUEST_SEND }

/-- Lines 197-235, the label `send_reply`. -/
def send_reply (env : Services) (s : REQUEST) : fr_io_final_t × REQUEST :=
  if s.reply_code = env.FR_CODE_DO_NOT_RESPOND then (fr_io_final_t.FR_IO_DONE, s)
  else if s.parent then (fr_io_final_t.FR_IO_DONE, s)
  else if env.WITH_UDPFROMTO && s.client_src_ipaddr.af != AF_UNSPEC then
    (fr_io_final_t.FR_IO_REPLY, { s with reply_src_ipaddr := s.client_src_ipaddr })
  else (fr_io_final_t.FR_IO_REPLY, s)

/-- Where the switch of lines 149-195 goes next. -/
inductive send_next
  | goto_rerun_nak (unlang : CONF_SECTION)
  | goto_send_reply
  deriving DecidableEq, Repr

/-- Lines 166-172: the enumeration entry of the reply code is looked up for the
warning, which reads its alias, and the reply code becomes the NAK. -/
def nak_fallback (env : Services) (s : REQUEST) : REQUEST :=
  { s with
    nak_fallbacks := s.nak_fallbacks ++ [fr_dict_enum_by_value env.da s.reply_code]
    reply_code := (s.packet_code + 2) % UINT32_MOD }

/-- Lines 149-195: the switch on the result of a send section. -/
def send_rcode (env : Services) (s : REQUEST) (rcode : rlm_rcode_t) : send_next × REQUEST :=
  match rcode with
  | .RLM_MODULE_HANDLED | .RLM_MODULE_NOOP | .RLM_MODULE_NOTFOUND | .RLM_MODULE_OK
  | .RLM_MODULE_UPDATED => (send_next.goto_send_reply, s)
  | _ =>
    if s.reply_code = (s.packet_code + 1) % UINT32_MOD then
      let s1 := nak_fallback env s
      match fr_dict_enum_by_value env.da s1.reply_code with
      | none => (send_next.goto_send_reply, s1)
      | some dv2 =>
        match cf_section_find s1.server_cs "send" dv2.alias_ with
        | some unlang => (send_next.goto_rerun_nak unlang, s1)
        | none => (send_next.goto_send_reply, s1)
    else (send_next.goto_send_reply, s)

/-- Lines 140-195, `case REQUEST_SEND`, with the jump back to `rerun_nak`. -/
def case_REQUEST_SEND (env : Services) : Nat → REQUEST → Option (fr_io_final_t × REQUEST)
  | 0, _ => none
  | fuel + 1, s =>
    let r := interpret env s
    if r.2.master_state = master_state_t.REQUEST_STOP_PROCESSING then
      some (fr_io_final_t.FR_IO_DONE, r.2)
    else if r.1 = rlm_rcode_t.RLM_MODULE_YIELD then some (fr_io_final_t.FR_IO_YIELD, r.2)
    else
      match send_rcode env r.2 r.1 with
      | (send_next.goto_rerun_nak unlang, s2) => case_REQUEST_SEND env fuel (rerun_nak s2 unlang)
      | (send_next.goto_send_reply, s2) => some (send_reply env s2)

/-- Lines 117-139: look the send section of the reply code up; without one go
to `send_reply`, with one fall through `rerun_nak` into `case REQUEST_SEND`. -/
def select_send (env : Services) (fuel : Nat) (s : REQUEST) :
    Option (fr_io_final_t × REQUEST) :=
  match find_send env s with
  | none => some (send_reply env s)
  | some unlang => case_REQUEST_SEND env fuel (rerun_nak s unlang)

/-- Lines 81-124, `case REQUEST_RECV`, falling through to the SEND state. -/
def case_REQUEST_RECV (env : Services) (fuel : Nat) (s : REQUEST) :
    Option (fr_io_final_t × REQUEST) :=
  let r := interpret env s
  if r.2.master_state = master_state_t.REQUEST_STOP_PROCESSING then
    some (fr_io_final_t.FR_IO_DONE, r.2)
  else if r.1 = rlm_rcode_t.RLM_MODULE_YIELD then some (fr_io_final_t.FR_IO_YIELD, r.2)
  else select_send env fuel (reply_override env (recv_rcode r.2 r.1))

/-- Lines 51-78, `case REQUEST_INIT`, falling through to the RECV state. -/
def case_REQUEST_INIT (env : Services) (fuel : Nat) (s : REQUEST) :
    Option (fr_io_final_t × REQUEST) :=
  let s0 := { s with component := "radius" }
  match fr_dict_enum_by_value env.da s0.packet_code with
  | none => some (fr_io_final_t.FR_IO_FAIL, s0)
  | some dv =>
    match cf_section_find s0.server_cs "recv" dv.alias_ with
    | none => some (fr_io_final_t.FR_IO_FAIL, s0)
    | some unlang =>
      case_REQUEST_RECV env fuel
        { unlang_push_section s0 unlang rlm_rcode_t.RLM_MODULE_NOOP with
          request_state := request_state_t.REQUEST_RECV }

/-- The function `mod_process(request, action)`: the value returned and the
request as it is left. -/
def mod_process (env : Services) (fuel : Nat) (s : REQUEST) (action : fr_io_action_t) :
    Option (fr_io_final_t × REQUEST) :=
  if action ≠ fr_io_action_t.FR_IO_ACTION_RUN then
    some (fr_io_final_t.FR_IO_DONE, signal env s action)
  else
    match s.request_state with
    | .REQUEST_INIT => case_REQUEST_INIT env fuel s
    | .REQUEST_RECV => case_REQUEST_RECV env fuel s
    | .REQUEST_SEND => case_REQUEST_SEND env fuel s
    | .other _ => some (fr_io_final_t.FR_IO_FAIL, s)

/-- The I/O framework calling `mod_process` on one request with a sequence of
actions, one call after the other; the request after the last call. -/
def drive (env : Services) (fuel : Nat) : REQUEST → List fr_io_action_t → Option REQUEST
  | s, [] => some s
  | s, action :: rest =>
    match mod_process env fuel s action with
    | none => none
    | some r => drive env fuel r.2 rest

/-- The I/O framework resuming one request: `mod_process` is called with RUN, and
again as long as it returns YIELD, at most `k` more times. -/
def run_to_final (env : Services) (fuel : Nat) : Nat → REQUEST → Option (fr_io_final_t × REQUEST)
  | 0, s => mod_process env fuel s fr_io_action_t.FR_IO_ACTION_RUN
  | k + 1, s =>
    match mod_process env fuel s fr_io_action_t.FR_IO_ACTION_RUN with
    | some (fr_io_final_t.FR_IO_YIELD, s') => run_to_final env fuel k s'
    | r => r

/-- What the send phase leaves of a reply code `v` and a fallback record `fb` in
a request with packet code `c`: both as they were, or, after one pass through
the fallback branch, which requires `v = c + 1`, the reply code `c + 2`. -/
def send_phase_post (fb : List (Option fr_dict_enum_t)) (c v : Nat) (s' : REQUEST) : Prop :=
  (s'.nak_fallbacks = fb ∧ s'.reply_code = v) ∨
  (s'.nak_fallbacks.length = fb.length + 1 ∧ v = (c + 1) % UINT32_MOD ∧
    s'.reply_code = (c + 2) % UINT32_MOD)

/-- The number of `unlang_push_section` calls in a trace of interpreter calls. -/
def pushes (calls : List unlang_call) : Nat :=
  calls.countP (fun c => match c with
    | unlang_call.push _ _ => true
    | _ => false)

/-- The number of `unlang_interpret_continue` calls in a trace. -/
def interprets (calls : List unlang_call) : Nat :=
  calls.countP (fun c => match c with
    | unlang_call.interpret => true
    | _ => false)

/-- The request at line 116 of a RUN call in the RECV state: after the
interpreter returned, the result was mapped and the override was applied. -/
def after_recv (env : Services) (s : REQUEST) : REQUEST :=
  reply_override env (recv_rcode (interpret env s).2 (interpret env s).1)

/-- The failure set of result codes: every value other than HANDLED, NOOP,
NOTFOUND, OK and UPDATED. -/
def failure_set (r : rlm_rcode_t) : Prop :=
  r ≠ rlm_rcode_t.RLM_MODULE_HANDLED ∧ r ≠ rlm_rcode_t.RLM_MODULE_NOOP ∧
  r ≠ rlm_rcode_t.RLM_MODULE_NOTFOUND ∧ r ≠ rlm_rcode_t.RLM_MODULE_OK ∧
  r ≠ rlm_rcode_t.RLM_MODULE_UPDATED

instance : DecidablePred failure_set := fun r => by
  unfold failure_set
  infer_instance

/-- Lines 56-78 when the recv section is found: the component is named, the
section pushed and the RECV state entered. -/
def recv_pushed (s : REQUEST) (unlang : CONF_SECTION) : REQUEST :=
  { unlang_push_section { s with component := "radius" } unlang rlm_rcode_t.RLM_MODULE_NOOP with
    request_state := request_state_t.REQUEST_RECV }

/-- The inbound packet code has no alias, or no `recv` section is bound to its
alias: the two ways `case REQUEST_INIT` ends with FAIL. -/
def no_recv_section (env : Services) (s : REQUEST) : Bool :=
  match fr_dict_enum_by_value env.da s.packet_code with
  | none => true
  | some dv => (cf_section_find s.server_cs "recv" dv.alias_).isNone

/-- The order of the phases: INIT before RECEIVE before SEND; any other value of
the request state comes after them. -/
def phase_rank : request_state_t → Nat
  | .REQUEST_INIT => 0
  | .REQUEST_RECV => 1
  | .REQUEST_SEND => 2
  | .other _ => 3

/-- The request after `n` calls of `unlang_interpret_continue`, nothing else
being done to it in between. -/
def resumed (env : Services) : Nat → REQUEST → REQUEST
  | 0, s => s
  | n + 1, s => resumed env n (interpret env s).2

/-- The interpreter answers the next `n` calls of `unlang_interpret_continue` on
the request with YIELD, the request not being stopped. -/
def keeps_yielding (env : Services) : Nat → REQUEST → Bool
  | 0, _ => true
  | n + 1, s =>
    decide ((interpret env s).2.master_state ≠ master_state_t.REQUEST_STOP_PROCESSING) &&
    decide ((interpret env s).1 = rlm_rcode_t.RLM_MODULE_YIELD) &&
    keeps_yielding env n (interpret env s).2

/-! ## `mod_instantiate` -/

/-- Modelled from the spec: `rlm_components_t`; the three components the source
passes to `unlang_compile_subsection`. -/
inductive rlm_components_t
  | MOD_RECV_COA
  | MOD_SEND_COA
  | MOD_POST_AUTH
  deriving DecidableEq, Repr

/-- One call `unlang_compile_subsection(server_cs, name1, name2, component)`. -/
structure compile_call where
  name1 : String
  name2 : String
  component : rlm_components_t
  deriving DecidableEq, Repr

/-- Lines 269-275: the two sections common to both families. -/
def mod_instantiate_common (compile : compile_call → Int) (done : List compile_call) :
    Int × List compile_call :=
  let c1 : compile_call := ⟨"send", "Do-Not-Respond", rlm_components_t.MOD_POST_AUTH⟩
  let rcode := compile c1
  let done := done ++ [c1]
  if rcode < 0 then (rcode, done)
  else
    let c2 : compile_call := ⟨"send", "Protocol-Error", rlm_components_t.MOD_POST_AUTH⟩
    let rcode := compile c2
    let done := done ++ [c2]
    if rcode < 0 then (rcode, done)
    else (0, done)

/-- Lines 259-267, the Disconnect family, then lines 269-275. -/
def mod_instantiate_disconnect (compile : compile_call → Int) (done : List compile_call) :
    Int × List compile_call :=
  let c1 : compile_call := ⟨"recv", "Disconnect-Request", rlm_components_t.MOD_RECV_COA⟩
  let rcode := compile c1
  let done := done ++ [c1]
  if rcode < 0 then (rcode, done)
  else if rcode = 1 then
    let c2 : compile_call := ⟨"send", "Disconnect-ACK", rlm_components_t.MOD_SEND_COA⟩
    let rcode := compile c2
    let done := done ++ [c2]
    if rcode < 0 then (rcode, done)
    else
      let c3 : compile_call := ⟨"send", "Disconnect-NAK", rlm_components_t.MOD_SEND_COA⟩
      let rcode := compile c3
      let done := done ++ [c3]
      if rcode < 0 then (rcode, done)
      else mod_instantiate_common compile done
  else mod_instantiate_common compile done

/-- The function `mod_instantiate`: the value returned and the compilations
attempted, in order.  `compile` is `unlang_compile_subsection` on the server's
configuration: negative on error, 0 when the section is absent, 1 when it was
compiled. -/
def mod_instantiate (compile : compile_call → Int) : Int × List compile_call :=
  let c1 : compile_call := ⟨"recv", "CoA-Request", rlm_components_t.MOD_RECV_COA⟩
  let rcode := compile c1
  let done := [c1]
  if rcode < 0 then (rcode, done)
  else if rcode = 1 then
    let c2 : compile_call := ⟨"send", "CoA-ACK", rlm_components_t.MOD_SEND_COA⟩
    let rcode := compile c2
    let done := done ++ [c2]
    if rcode < 0 then (rcode, done)
    else
      let c3 : compile_call := ⟨"send", "CoA-NAK", rlm_components_t.MOD_SEND_COA⟩
      let rcode := compile c3
      let done := done ++ [c3]
      if rcode < 0 then (rcode, done)
      else mod_instantiate_disconnect compile done
  else mod_instantiate_disconnect compile done

/-- The eight calls of `unlang_compile_subsection` in `mod_instantiate`. -/
def recv_coa : compile_call := ⟨"recv", "CoA-Request", rlm_components_t.MOD_RECV_COA⟩

/-- Line 252. -/
def send_coa_ack : compile_call := ⟨"send", "CoA-ACK", rlm_components_t.MOD_SEND_COA⟩

/-- Line 255. -/
def send_coa_nak : compile_call := ⟨"send", "CoA-NAK", rlm_components_t.MOD_SEND_COA⟩

/-- Line 259. -/
def recv_disconnect : compile_call :=
  ⟨"recv", "Disconnect-Request", rlm_components_t.MOD_RECV_COA⟩

/-- Line 262. -/
def send_disconnect_ack : compile_call :=
  ⟨"send", "Disconnect-ACK", rlm_components_t.MOD_SEND_COA⟩

/-- Line 265. -/
def send_disconnect_nak : compile_call :=
  ⟨"send", "Disconnect-NAK", rlm_components_t.MOD_SEND_COA⟩

/-- Line 269. -/
def send_do_not_respond : compile_call :=
  ⟨"send", "Do-Not-Respond", rlm_components_t.MOD_POST_AUTH⟩

/-- Line 272. -/
def send_protocol_error : compile_call :=
  ⟨"send", "Protocol-Error", rlm_components_t.MOD_POST_AUTH⟩

/-! ## The description of `mod_instantiate` as an ordered plan -/

/-- The compilations `mod_instantiate` is described to go through, in order,
when none of them fails: the send sections of a family are in the plan only
if the recv section of the family compiled (returned 1). -/
def instantiate_plan (compile : compile_call → Int) : List compile_call :=
  [recv_coa]
  ++ (if compile recv_coa = 1 then [send_coa_ack, send_coa_nak] else [])
  ++ [recv_disconnect]
  ++ (if compile recv_disconnect = 1 then [send_disconnect_ack, send_disconnect_nak] else [])
  ++ [send_do_not_respond, send_protocol_error]

/-- The calls of a plan that are attempted: all up to and including the first
one with a negative result. -/
def attempted (compile : compile_call → Int) : List compile_call → List compile_call
  | [] => []
  | c :: rest => if compile c < 0 then [c] else c :: attempted compile rest

/-- The first negative result along a plan, 0 when there is none. -/
def first_failure (compile : compile_call → Int) : List compile_call → Int
  | [] => 0
  | c :: rest => if compile c < 0 then compile c else first_failure compile rest

/-! ## Sample configurations -/

/-- A dictionary with the three CoA packet types. -/
def coa_dict : List fr_dict_enum_t :=
  [⟨"CoA-Request", 43⟩, ⟨"CoA-ACK", 44⟩, ⟨"CoA-NAK", 45⟩]

/-- A virtual server with the three CoA sections. -/
def coa_server : List CONF_SECTION :=
  [⟨"recv", "CoA-Request", "default"⟩, ⟨"send", "CoA-ACK", "default"⟩,
   ⟨"send", "CoA-NAK", "default"⟩]

/-- An interpreter that answers its k-th `unlang_interpret_continue` call with
the k-th code of a script (`RLM_MODULE_OK` past its end) and writes nothing
into the request. -/
def scripted (script : List rlm_rcode_t) : Services :=
  { da := coa_dict
    FR_PACKET_TYPE := 1000
    FR_CODE_DO_NOT_RESPOND := 256
    WITH_UDPFROMTO := true
    unlang_interpret_continue := fun s =>
      (script.getD (interprets s.unlang_calls) rlm_rcode_t.RLM_MODULE_OK,
       ⟨s.master_state, s.reply_code, s.reply_vps⟩)
    unlang_signal := fun s _ => ⟨s.master_state, s.reply_code, s.reply_vps⟩ }

/-- An external CoA-Request (code 43) in a given state, with a given reply code
and given reply pairs, for the server `coa_server`. -/
def coa_request (st : request_state_t) (reply_code : Nat) (vps : List VALUE_PAIR) : REQUEST :=
  { request_state := st
    master_state := master_state_t.REQUEST_ACTIVE
    component := ""
    packet_code := 43
    reply_code := reply_code
    reply_vps := vps
    reply_src_ipaddr := ⟨0, 0⟩
    client_src_ipaddr := ⟨0, 0⟩
    parent := false
    server_cs := coa_server
    unlang_calls := []
    nak_fallbacks := [] }

/-- An interpreter that, whenever it is continued, writes the ACK code 44 into
the reply and returns FAIL. -/
def contrary : Services :=
  { da := coa_dict
    FR_PACKET_TYPE := 1000
    FR_CODE_DO_NOT_RESPOND := 256
    WITH_UDPFROMTO := true
    unlang_interpret_continue := fun s =>
      (rlm_rcode_t.RLM_MODULE_FAIL, ⟨s.master_state, 44, s.reply_vps⟩)
    unlang_signal := fun s _ => ⟨s.master_state, s.reply_code, s.reply_vps⟩ }

/-- An interpreter during whose calls the request is stopped: every
`unlang_interpret_continue` returns a given code with the master state
`REQUEST_STOP_PROCESSING`. -/
def stopping (rcode : rlm_rcode_t) : Services :=
  { da := coa_dict
    FR_PACKET_TYPE := 1000
    FR_CODE_DO_NOT_RESPOND := 256
    WITH_UDPFROMTO := true
    unlang_interpret_continue := fun s =>
      (rcode, ⟨master_state_t.REQUEST_STOP_PROCESSING, s.reply_code, s.reply_vps⟩)
    unlang_signal := fun s _ => ⟨s.master_state, s.reply_code, s.reply_vps⟩ }

/-- A configuration oracle with `recv CoA-Request` compiled and every other
section absent. -/
def recv_coa_only (c : compile_call) : Int :=
  if c = recv_coa then 1 else 0

/-! ## Frame lemmas -/

theorem interpret_frame (env : Services) (s : REQUEST) :
    (interpret env s).2.request_state = s.request_state ∧
    (interpret env s).2.packet_code = s.packet_code ∧
    (interpret env s).2.server_cs = s.server_cs ∧
    (interpret env s).2.parent = s.parent ∧
    (interpret env s).2.component = s.component ∧
    (interpret env s).2.nak_fallbacks = s.nak_fallbacks ∧
    (interpret env s).2.unlang_calls = s.unlang_calls ++ [unlang_call.interpret] ∧
    (interpret env s).2.reply_code = (env.unlang_interpret_continue s).2.reply_code := by
  simp [interpret]

theorem signal_frame (env : Services) (s : REQUEST) (a : fr_io_action_t) :
    (signal env s a).request_state = s.request_state ∧
    (signal env s a).packet_code = s.packet_code ∧
    (signal env s a).nak_fallbacks = s.nak_fallbacks ∧
    (signal env s a).unlang_calls = s.unlang_calls ++ [unlang_call.signal a] ∧
    (signal env s a).reply_code = (env.unlang_signal s a).reply_code ∧
    (signal env s a).server_cs = s.server_cs ∧
    (signal env s a).parent = s.parent ∧
    (signal env s a).component = s.component := by
  simp [signal]

theorem recv_rcode_frame (s : REQUEST) (rcode : rlm_rcode_t) :
    (recv_rcode s rcode).reply_vps = s.reply_vps ∧
    (recv_rcode s rcode).packet_code = s.packet_code ∧
    (recv_rcode s rcode).unlang_calls = s.unlang_calls := by
  cases rcode <;> simp [recv_rcode]

theorem send_reply_frame (env : Services) (s : REQUEST) :
    (send_reply env s).2.reply_code = s.reply_code ∧
    (send_reply env s).2.request_state = s.request_state ∧
    (send_reply env s).2.unlang_calls = s.unlang_calls ∧
    (send_reply env s).2.nak_fallbacks = s.nak_fallbacks ∧
    (send_reply env s).2.master_state = s.master_state ∧
    (send_reply env s).2.packet_code = s.packet_code := by
  unfold send_reply
  split_ifs <;> simp

theorem send_reply_final (env : Services) (s : REQUEST) :
    (send_reply env s).1 = fr_io_final_t.FR_IO_REPLY ∨
    (send_reply env s).1 = fr_io_final_t.FR_IO_DONE := by
  unfold send_reply
  split_ifs <;> simp

theorem send_reply_ne_fail (env : Services) (s : REQUEST) :
    (send_reply env s).1 ≠ fr_io_final_t.FR_IO_FAIL := by
  rcases send_reply_final env s with h | h <;> rw [h] <;> decide

theorem after_recv_frame (env : Services) (s : REQUEST) :
    (after_recv env s).request_state = s.request_state ∧
    (after_recv env s).packet_code = s.packet_code ∧
    (after_recv env s).server_cs = s.server_cs ∧
    (after_recv env s).nak_fallbacks = s.nak_fallbacks ∧
    (after_recv env s).master_state = (interpret env s).2.master_state ∧
    (after_recv env s).unlang_calls = s.unlang_calls ++ [unlang_call.interpret] := by
  unfold after_recv reply_override
  split <;> cases (interpret env s).1 <;> simp [recv_rcode, interpret]

theorem after_recv_override (env : Services) (s : REQUEST) (vp : VALUE_PAIR)
    (hvp : fr_pair_find_by_num (interpret env s).2.reply_vps 0 env.FR_PACKET_TYPE = some vp) :
    (after_recv env s).reply_code = vp.vp_uint32 := by
  simp [after_recv, reply_override, (recv_rcode_frame _ _).1, hvp]

theorem nak_fallback_frame (env : Services) (s : REQUEST) :
    (nak_fallback env s).reply_code = (s.packet_code + 2) % UINT32_MOD ∧
    (nak_fallback env s).packet_code = s.packet_code ∧
    (nak_fallback env s).request_state = s.request_state ∧
    (nak_fallback env s).unlang_calls = s.unlang_calls ∧
    (nak_fallback env s).master_state = s.master_state ∧
    (nak_fallback env s).nak_fallbacks
      = s.nak_fallbacks ++ [fr_dict_enum_by_value env.da s.reply_code] := by
  simp [nak_fallback]

theorem rerun_nak_frame (s : REQUEST) (unlang : CONF_SECTION) :
    (rerun_nak s unlang).request_state = request_state_t.REQUEST_SEND ∧
    (rerun_nak s unlang).packet_code = s.packet_code ∧
    (rerun_nak s unlang).reply_code = s.reply_code ∧
    (rerun_nak s unlang).nak_fallbacks = s.nak_fallbacks ∧
    (rerun_nak s unlang).server_cs = s.server_cs ∧
    (rerun_nak s unlang).unlang_calls
      = s.unlang_calls ++ [unlang_call.push unlang rlm_rcode_t.RLM_MODULE_NOOP] := by
  simp [rerun_nak, unlang_push_section]

theorem pushes_interpret (calls : List unlang_call) :
    pushes (calls ++ [unlang_call.interpret]) = pushes calls := by
  simp [pushes, List.countP_append]

theorem pushes_signal (calls : List unlang_call) (a : fr_io_action_t) :
    pushes (calls ++ [unlang_call.signal a]) = pushes calls := by
  simp [pushes, List.countP_append]

theorem pushes_push (calls : List unlang_call) (cs : CONF_SECTION) (d : rlm_rcode_t) :
    pushes (calls ++ [unlang_call.push cs d]) = pushes calls + 1 := by
  simp [pushes, List.countP_append]

/-! ## Unfolding lemmas -/

theorem mod_process_recv (env : Services) (fuel : Nat) (s : REQUEST)
    (hphase : s.request_state = request_state_t.REQUEST_RECV)
    (hstop : (interpret env s).2.master_state ≠ master_state_t.REQUEST_STOP_PROCESSING)
    (hyield : (interpret env s).1 ≠ rlm_rcode_t.RLM_MODULE_YIELD) :
    mod_process env fuel s fr_io_action_t.FR_IO_ACTION_RUN =
      select_send env fuel
        (reply_override env (recv_rcode (interpret env s).2 (interpret env s).1)) := by
  simp [mod_process, hphase, case_REQUEST_RECV, hstop, hyield]

theorem mod_process_init (env : Services) (fuel : Nat) (s : REQUEST) (dv : fr_dict_enum_t)
    (unlang : CONF_SECTION)
    (hphase : s.request_state = request_state_t.REQUEST_INIT)
    (hdv : fr_dict_enum_by_value env.da s.packet_code = some dv)
    (hcs : cf_section_find s.server_cs "recv" dv.alias_ = some unlang) :
    mod_process env fuel s fr_io_action_t.FR_IO_ACTION_RUN =
      mod_process env fuel
        { unlang_push_section { s with component := "radius" } unlang
            rlm_rcode_t.RLM_MODULE_NOOP with
          request_state := request_state_t.REQUEST_RECV }
        fr_io_action_t.FR_IO_ACTION_RUN := by
  simp [mod_process, hphase, case_REQUEST_INIT, hdv, hcs]

theorem mod_process_send (env : Services) (fuel : Nat) (s : REQUEST)
    (hphase : s.request_state = request_state_t.REQUEST_SEND)
    (hstop : (interpret env s).2.master_state ≠ master_state_t.REQUEST_STOP_PROCESSING)
    (hyield : (interpret env s).1 ≠ rlm_rcode_t.RLM_MODULE_YIELD) :
    mod_process env (fuel + 1) s fr_io_action_t.FR_IO_ACTION_RUN =
      match send_rcode env (interpret env s).2 (interpret env s).1 with
      | (send_next.goto_rerun_nak unlang, s2) => case_REQUEST_SEND env fuel (rerun_nak s2 unlang)
      | (send_next.goto_send_reply, s2) => some (send_reply env s2) := by
  simp [mod_process, hphase, case_REQUEST_SEND, hstop, hyield]

theorem case_send_step (env : Services) (n : Nat) (t : REQUEST)
    (hstop : (interpret env t).2.master_state ≠ master_state_t.REQUEST_STOP_PROCESSING)
    (hyield : (interpret env t).1 ≠ rlm_rcode_t.RLM_MODULE_YIELD) :
    case_REQUEST_SEND env (n + 1) t =
      match send_rcode env (interpret env t).2 (interpret env t).1 with
      | (send_next.goto_rerun_nak unlang, s2) => case_REQUEST_SEND env n (rerun_nak s2 unlang)
      | (send_next.goto_send_reply, s2) => some (send_reply env s2) := by
  simp [case_REQUEST_SEND, hstop, hyield]

theorem send_rcode_not_failure (env : Services) (s : REQUEST) (r : rlm_rcode_t)
    (h : ¬ failure_set r) : send_rcode env s r = (send_next.goto_send_reply, s) := by
  cases r <;> simp [failure_set] at h <;> simp [send_rcode]

theorem send_rcode_failure (env : Services) (s : REQUEST) (r : rlm_rcode_t)
    (h : failure_set r) :
    send_rcode env s r =
      if s.reply_code = (s.packet_code + 1) % UINT32_MOD then
        match find_send env (nak_fallback env s) with
        | some unlang => (send_next.goto_rerun_nak unlang, nak_fallback env s)
        | none => (send_next.goto_send_reply, nak_fallback env s)
      else (send_next.goto_send_reply, s) := by
  have key : (if s.reply_code = (s.packet_code + 1) % UINT32_MOD then
        (match fr_dict_enum_by_value env.da (nak_fallback env s).reply_code with
        | none => (send_next.goto_send_reply, nak_fallback env s)
        | some dv2 =>
          match cf_section_find (nak_fallback env s).server_cs "send" dv2.alias_ with
          | some unlang => (send_next.goto_rerun_nak unlang, nak_fallback env s)
          | none => (send_next.goto_send_reply, nak_fallback env s))
      else (send_next.goto_send_reply, s)) =
      if s.reply_code = (s.packet_code + 1) % UINT32_MOD then
        match find_send env (nak_fallback env s) with
        | some unlang => (send_next.goto_rerun_nak unlang, nak_fallback env s)
        | none => (send_next.goto_send_reply, nak_fallback env s)
      else (send_next.goto_send_reply, s) := by
    unfold find_send
    cases fr_dict_enum_by_value env.da (nak_fallback env s).reply_code <;> rfl
  cases r <;> simp [failure_set] at h <;> exact key

theorem ack_ne_nak (c : Nat) : (c + 1) % UINT32_MOD ≠ (c + 2) % UINT32_MOD := by
  unfold UINT32_MOD
  omega

theorem send_rcode_reply_code (env : Services) (s : REQUEST) (r : rlm_rcode_t) :
    (send_rcode env s r).2.reply_code =
      if failure_set r ∧ s.reply_code = (s.packet_code + 1) % UINT32_MOD then
        (s.packet_code + 2) % UINT32_MOD
      else s.reply_code := by
  by_cases h : failure_set r
  · rw [send_rcode_failure env s r h]
    by_cases hg : s.reply_code = (s.packet_code + 1) % UINT32_MOD
    · rw [if_pos hg, if_pos ⟨h, hg⟩]
      split <;> exact (nak_fallback_frame env s).1
    · simp [hg]
  · rw [send_rcode_not_failure env s r h]
    simp [h]

theorem send_rcode_of_nak (env : Services) (s : REQUEST) (r : rlm_rcode_t)
    (h : s.reply_code = (s.packet_code + 2) % UINT32_MOD) :
    send_rcode env s r = (send_next.goto_send_reply, s) := by
  by_cases hf : failure_set r
  · rw [send_rcode_failure env s r hf, if_neg]
    rw [h]
    exact fun hh => ack_ne_nak _ hh.symm
  · exact send_rcode_not_failure env s r hf

/-- A SEND-state call on a request whose reply code is `packet code + 2`, with
an interpreter that leaves the reply code of SEND-state requests alone: one
`unlang_interpret_continue`, no fallback, no push. -/
theorem case_send_of_nak (env : Services)
    (hkeep : ∀ t : REQUEST, t.request_state = request_state_t.REQUEST_SEND →
      (env.unlang_interpret_continue t).2.reply_code = t.reply_code)
    (n : Nat) (t : REQUEST) (ht : t.request_state = request_state_t.REQUEST_SEND)
    (h : t.reply_code = (t.packet_code + 2) % UINT32_MOD) :
    case_REQUEST_SEND env (n + 1) t =
      if (interpret env t).2.master_state = master_state_t.REQUEST_STOP_PROCESSING then
        some (fr_io_final_t.FR_IO_DONE, (interpret env t).2)
      else if (interpret env t).1 = rlm_rcode_t.RLM_MODULE_YIELD then
        some (fr_io_final_t.FR_IO_YIELD, (interpret env t).2)
      else some (send_reply env (interpret env t).2) := by
  have hfr := interpret_frame env t
  have h1 : (interpret env t).2.reply_code
      = ((interpret env t).2.packet_code + 2) % UINT32_MOD := by
    rw [hfr.2.2.2.2.2.2.2, hfr.2.1, hkeep t ht, h]
  simp only [case_REQUEST_SEND]
  rw [send_rcode_of_nak env _ _ h1]

/-! ## Fuel, termination and the fallback record -/

/-- More fuel does not change a result. -/
theorem case_send_mono (env : Services) :
    ∀ (fuel : Nat) (t : REQUEST) (r : fr_io_final_t × REQUEST),
      case_REQUEST_SEND env fuel t = some r → case_REQUEST_SEND env (fuel + 1) t = some r := by
  intro fuel
  induction fuel with
  | zero =>
    intro t r h
    simp [case_REQUEST_SEND] at h
  | succ n ih =>
    intro t r h
    rw [case_REQUEST_SEND] at h ⊢
    by_cases hs : (interpret env t).2.master_state = master_state_t.REQUEST_STOP_PROCESSING
    · simp only [if_pos hs] at h ⊢
      exact h
    · by_cases hy : (interpret env t).1 = rlm_rcode_t.RLM_MODULE_YIELD
      · simp only [if_neg hs, if_pos hy] at h ⊢
        exact h
      · simp only [if_neg hs, if_neg hy] at h ⊢
        generalize send_rcode env (interpret env t).2 (interpret env t).1 = x at h ⊢
        obtain ⟨nx, s2⟩ := x
        cases nx with
        | goto_rerun_nak unlang => exact ih _ _ h
        | goto_send_reply => exact h

theorem case_send_mono_add (env : Services) (k fuel : Nat) (t : REQUEST)
    (r : fr_io_final_t × REQUEST) (h : case_REQUEST_SEND env fuel t = some r) :
    case_REQUEST_SEND env (fuel + k) t = some r := by
  induction k with
  | zero => exact h
  | succ k ih => exact case_send_mono env (fuel + k) t r ih

/-- A SEND-state run on a request whose reply code is `packet code + 2`: the
result does not depend on the fuel, the reply code and the fallback record
stay, one `unlang_interpret_continue` call is made. -/
theorem case_send_nak_total (env : Services)
    (hkeep : ∀ t : REQUEST, t.request_state = request_state_t.REQUEST_SEND →
      (env.unlang_interpret_continue t).2.reply_code = t.reply_code)
    (t : REQUEST) (ht : t.request_state = request_state_t.REQUEST_SEND)
    (h : t.reply_code = (t.packet_code + 2) % UINT32_MOD) :
    ∃ f s', (∀ n, case_REQUEST_SEND env (n + 1) t = some (f, s')) ∧
      s'.reply_code = t.reply_code ∧ s'.nak_fallbacks = t.nak_fallbacks ∧
      s'.unlang_calls = t.unlang_calls ++ [unlang_call.interpret] ∧
      s'.request_state = request_state_t.REQUEST_SEND ∧ s'.packet_code = t.packet_code ∧
      f ≠ fr_io_final_t.FR_IO_FAIL := by
  have hfr := interpret_frame env t
  have hsr := send_reply_frame env (interpret env t).2
  have hrc : (interpret env t).2.reply_code = t.reply_code := by
    rw [hfr.2.2.2.2.2.2.2, hkeep t ht]
  by_cases hs : (interpret env t).2.master_state = master_state_t.REQUEST_STOP_PROCESSING
  · exact ⟨fr_io_final_t.FR_IO_DONE, (interpret env t).2,
      fun n => by rw [case_send_of_nak env hkeep n t ht h, if_pos hs],
      hrc, hfr.2.2.2.2.2.1, hfr.2.2.2.2.2.2.1, hfr.1.trans ht, hfr.2.1, by decide⟩
  · by_cases hy : (interpret env t).1 = rlm_rcode_t.RLM_MODULE_YIELD
    · exact ⟨fr_io_final_t.FR_IO_YIELD, (interpret env t).2,
        fun n => by rw [case_send_of_nak env hkeep n t ht h, if_neg hs, if_pos hy],
        hrc, hfr.2.2.2.2.2.1, hfr.2.2.2.2.2.2.1, hfr.1.trans ht, hfr.2.1, by decide⟩
    · exact ⟨(send_reply env (interpret env t).2).1, (send_reply env (interpret env t).2).2,
        fun n => by rw [case_send_of_nak env hkeep n t ht h, if_neg hs, if_neg hy],
        hsr.1.trans hrc, hsr.2.2.2.1.trans hfr.2.2.2.2.2.1,
        hsr.2.2.1.trans hfr.2.2.2.2.2.2.1, hsr.2.1.trans (hfr.1.trans ht),
        hsr.2.2.2.2.2.trans hfr.2.1, send_reply_ne_fail env _⟩

/-- A SEND-state run with an interpreter that leaves the reply code of
SEND-state requests alone: with fuel 2 or more it returns, the same whatever
the fuel, after at most one push; either the fallback record and the reply
code are as before, or the reply code was `packet code + 1`, is now
`packet code + 2`, and the fallback branch was passed once. -/
theorem case_send_total (env : Services)
    (hkeep : ∀ t : REQUEST, t.request_state = request_state_t.REQUEST_SEND →
      (env.unlang_interpret_continue t).2.reply_code = t.reply_code)
    (t : REQUEST) (ht : t.request_state = request_state_t.REQUEST_SEND) :
    ∃ f s', (∀ n, case_REQUEST_SEND env (n + 2) t = some (f, s')) ∧
      f ≠ fr_io_final_t.FR_IO_FAIL ∧
      s'.request_state = request_state_t.REQUEST_SEND ∧ s'.packet_code = t.packet_code ∧
      pushes s'.unlang_calls ≤ pushes t.unlang_calls + 1 ∧
      ((s'.nak_fallbacks = t.nak_fallbacks ∧ s'.reply_code = t.reply_code) ∨
        (s'.nak_fallbacks.length = t.nak_fallbacks.length + 1 ∧
          t.reply_code = (t.packet_code + 1) % UINT32_MOD ∧
          s'.reply_code = (t.packet_code + 2) % UINT32_MOD)) := by
  have hfr := interpret_frame env t
  have hsr := send_reply_frame env (interpret env t).2
  have hrc : (interpret env t).2.reply_code = t.reply_code := by
    rw [hfr.2.2.2.2.2.2.2, hkeep t ht]
  have hp : pushes (interpret env t).2.unlang_calls = pushes t.unlang_calls := by
    rw [hfr.2.2.2.2.2.2.1, pushes_interpret]
  by_cases hs : (interpret env t).2.master_state = master_state_t.REQUEST_STOP_PROCESSING
  · exact ⟨fr_io_final_t.FR_IO_DONE, (interpret env t).2,
      fun n => by simp only [case_REQUEST_SEND, if_pos hs], by decide,
      hfr.1.trans ht, hfr.2.1, by omega, Or.inl ⟨hfr.2.2.2.2.2.1, hrc⟩⟩
  by_cases hy : (interpret env t).1 = rlm_rcode_t.RLM_MODULE_YIELD
  · exact ⟨fr_io_final_t.FR_IO_YIELD, (interpret env t).2,
      fun n => by simp only [case_REQUEST_SEND, if_neg hs, if_pos hy], by decide,
      hfr.1.trans ht, hfr.2.1, by omega, Or.inl ⟨hfr.2.2.2.2.2.1, hrc⟩⟩
  by_cases hfb : failure_set (interpret env t).1 ∧
      (interpret env t).2.reply_code = ((interpret env t).2.packet_code + 1) % UINT32_MOD
  · have hnf := nak_fallback_frame env (interpret env t).2
    have hsn := send_reply_frame env (nak_fallback env (interpret env t).2)
    have hguard : t.reply_code = (t.packet_code + 1) % UINT32_MOD := by
      rw [← hrc, hfb.2, hfr.2.1]
    cases hfn : find_send env (nak_fallback env (interpret env t).2) with
    | none =>
      refine ⟨(send_reply env (nak_fallback env (interpret env t).2)).1,
        (send_reply env (nak_fallback env (interpret env t).2)).2, fun n => ?_,
        send_reply_ne_fail env _, ?_, ?_, ?_, Or.inr ⟨?_, hguard, ?_⟩⟩
      · rw [case_send_step env (n + 1) t hs hy, send_rcode_failure env _ _ hfb.1,
          if_pos hfb.2, hfn]
      · rw [hsn.2.1, hnf.2.2.1, hfr.1, ht]
      · rw [hsn.2.2.2.2.2, hnf.2.1, hfr.2.1]
      · rw [hsn.2.2.1, hnf.2.2.2.1, hp]
        omega
      · rw [hsn.2.2.2.1, hnf.2.2.2.2.2, hfr.2.2.2.2.2.1]
        simp
      · rw [hsn.1, hnf.1, hfr.2.1]
    | some u2 =>
      have htf := rerun_nak_frame (nak_fallback env (interpret env t).2) u2
      obtain ⟨f, s', hrun, h1, h2, h3, h4, h5, h6⟩ :=
        case_send_nak_total env hkeep (rerun_nak (nak_fallback env (interpret env t).2) u2)
          htf.1 (by rw [htf.2.2.1, htf.2.1, hnf.1, hnf.2.1])
      refine ⟨f, s', fun n => ?_, h6, h4, ?_, ?_, Or.inr ⟨?_, hguard, ?_⟩⟩
      · rw [case_send_step env (n + 1) t hs hy, send_rcode_failure env _ _ hfb.1,
          if_pos hfb.2, hfn]
        exact hrun n
      · rw [h5, htf.2.1, hnf.2.1, hfr.2.1]
      · rw [h3, pushes_interpret, htf.2.2.2.2.2, pushes_push, hnf.2.2.2.1, hp]
      · rw [h2, htf.2.2.2.1, hnf.2.2.2.2.2, hfr.2.2.2.2.2.1]
        simp
      · rw [h1, htf.2.2.1, hnf.1, hfr.2.1]
  · have hsend : send_rcode env (interpret env t).2 (interpret env t).1
        = (send_next.goto_send_reply, (interpret env t).2) := by
      by_cases hf : failure_set (interpret env t).1
      · rw [send_rcode_failure env _ _ hf, if_neg]
        exact fun hh => hfb ⟨hf, hh⟩
      · exact send_rcode_not_failure env _ _ hf
    refine ⟨(send_reply env (interpret env t).2).1, (send_reply env (interpret env t).2).2,
      fun n => ?_, send_reply_ne_fail env _, ?_, ?_, ?_, Or.inl ⟨?_, ?_⟩⟩
    · rw [case_send_step env (n + 1) t hs hy, hsend]
    · rw [hsr.2.1, hfr.1, ht]
    · rw [hsr.2.2.2.2.2, hfr.2.1]
    · rw [hsr.2.2.1, hp]
      omega
    · rw [hsr.2.2.2.1, hfr.2.2.2.2.2.1]
    · rw [hsr.1, hrc]

/-- The same for a run that starts in the RECV state. -/
theorem case_recv_total (env : Services)
    (hkeep : ∀ t : REQUEST, t.request_state = request_state_t.REQUEST_SEND →
      (env.unlang_interpret_continue t).2.reply_code = t.reply_code)
    (s : REQUEST) :
    ∃ f s', (∀ n, case_REQUEST_RECV env (n + 2) s = some (f, s')) ∧
      f ≠ fr_io_final_t.FR_IO_FAIL ∧
      s'.packet_code = s.packet_code ∧
      pushes s'.unlang_calls ≤ pushes s.unlang_calls + 2 ∧
      (s'.nak_fallbacks = s.nak_fallbacks ∨
        (s'.nak_fallbacks.length = s.nak_fallbacks.length + 1 ∧
          s'.request_state = request_state_t.REQUEST_SEND ∧
          s'.reply_code = (s.packet_code + 2) % UINT32_MOD)) := by
  have hfr := interpret_frame env s
  have har := after_recv_frame env s
  have hp : pushes (interpret env s).2.unlang_calls = pushes s.unlang_calls := by
    rw [hfr.2.2.2.2.2.2.1, pushes_interpret]
  by_cases hs : (interpret env s).2.master_state = master_state_t.REQUEST_STOP_PROCESSING
  · exact ⟨fr_io_final_t.FR_IO_DONE, (interpret env s).2,
      fun n => by simp only [case_REQUEST_RECV, if_pos hs], by decide,
      hfr.2.1, by omega, Or.inl hfr.2.2.2.2.2.1⟩
  by_cases hy : (interpret env s).1 = rlm_rcode_t.RLM_MODULE_YIELD
  · exact ⟨fr_io_final_t.FR_IO_YIELD, (interpret env s).2,
      fun n => by simp only [case_REQUEST_RECV, if_neg hs, if_pos hy], by decide,
      hfr.2.1, by omega, Or.inl hfr.2.2.2.2.2.1⟩
  have hstep : ∀ n, case_REQUEST_RECV env n s = select_send env n (after_recv env s) := by
    intro n
    simp only [case_REQUEST_RECV, if_neg hs, if_neg hy, after_recv]
  cases hfs : find_send env (after_recv env s) with
  | none =>
    have hsr := send_reply_frame env (after_recv env s)
    refine ⟨(send_reply env (after_recv env s)).1, (send_reply env (after_recv env s)).2,
      fun n => ?_, send_reply_ne_fail env _, ?_, ?_, Or.inl ?_⟩
    · rw [hstep, select_send, hfs]
    · rw [hsr.2.2.2.2.2, har.2.1]
    · rw [hsr.2.2.1, har.2.2.2.2.2, pushes_interpret]
      omega
    · rw [hsr.2.2.2.1, har.2.2.2.1]
  | some u =>
    have htf := rerun_nak_frame (after_recv env s) u
    obtain ⟨f, s', hrun, h0, h1, h2, h3, h4⟩ :=
      case_send_total env hkeep (rerun_nak (after_recv env s) u) htf.1
    refine ⟨f, s', fun n => ?_, h0, ?_, ?_, ?_⟩
    · rw [hstep, select_send, hfs]
      exact hrun n
    · rw [h2, htf.2.1, har.2.1]
    · rw [htf.2.2.2.2.2, pushes_push, har.2.2.2.2.2, pushes_interpret] at h3
      omega
    · rw [htf.2.2.2.1, har.2.2.2.1, htf.2.1, har.2.1] at h4
      rcases h4 with ⟨h4, _⟩ | ⟨h4, _, h5⟩
      · exact Or.inl h4
      · exact Or.inr ⟨h4, h1, h5⟩

/-- Every call of `mod_process` with fuel 2 or more returns, the same whatever
the fuel, after at most three pushes and at most one pass through the
fallback, when the interpreter leaves the reply code of SEND-state requests
alone. -/
theorem mod_process_total (env : Services)
    (hkeep : ∀ t : REQUEST, t.request_state = request_state_t.REQUEST_SEND →
      (env.unlang_interpret_continue t).2.reply_code = t.reply_code)
    (s : REQUEST) (a : fr_io_action_t) :
    ∃ f s', (∀ n, mod_process env (n + 2) s a = some (f, s')) ∧
      s'.packet_code = s.packet_code ∧
      pushes s'.unlang_calls ≤ pushes s.unlang_calls + 3 ∧
      (s'.nak_fallbacks = s.nak_fallbacks ∨
        (s'.nak_fallbacks.length = s.nak_fallbacks.length + 1 ∧
          s'.request_state = request_state_t.REQUEST_SEND ∧
          s'.reply_code = (s.packet_code + 2) % UINT32_MOD)) := by
  by_cases ha : a = fr_io_action_t.FR_IO_ACTION_RUN
  · subst ha
    cases hph : s.request_state with
    | REQUEST_INIT =>
      cases hdv : fr_dict_enum_by_value env.da s.packet_code with
      | none =>
        refine ⟨fr_io_final_t.FR_IO_FAIL, { s with component := "radius" }, fun n => ?_,
          rfl, by simp, Or.inl rfl⟩
        simp [mod_process, hph, case_REQUEST_INIT, hdv]
      | some dv =>
        cases hcs : cf_section_find s.server_cs "recv" dv.alias_ with
        | none =>
          refine ⟨fr_io_final_t.FR_IO_FAIL, { s with component := "radius" }, fun n => ?_,
            rfl, by simp, Or.inl rfl⟩
          simp [mod_process, hph, case_REQUEST_INIT, hdv, hcs]
        | some unlang =>
          obtain ⟨f, s', hrun, _, h1, h2, h3⟩ := case_recv_total env hkeep
            { unlang_push_section { s with component := "radius" } unlang
                rlm_rcode_t.RLM_MODULE_NOOP with
              request_state := request_state_t.REQUEST_RECV }
          refine ⟨f, s', fun n => ?_, h1, ?_, h3⟩
          · simp only [mod_process, hph, case_REQUEST_INIT, hdv, hcs]
            simpa using hrun n
          · simp only [unlang_push_section, pushes_push] at h2
            omega
    | REQUEST_RECV =>
      obtain ⟨f, s', hrun, _, h1, h2, h3⟩ := case_recv_total env hkeep s
      refine ⟨f, s', fun n => ?_, h1, by omega, h3⟩
      simpa [mod_process, hph] using hrun n
    | REQUEST_SEND =>
      obtain ⟨f, s', hrun, _, h1, h2, h3, h4⟩ := case_send_total env hkeep s hph
      refine ⟨f, s', fun n => ?_, h2, by omega, ?_⟩
      · simpa [mod_process, hph] using hrun n
      · rcases h4 with ⟨h4, _⟩ | ⟨h4, _, h5⟩
        · exact Or.inl h4
        · exact Or.inr ⟨h4, h1, h5⟩
    | other k =>
      exact ⟨fr_io_final_t.FR_IO_FAIL, s, fun n => by simp [mod_process, hph], rfl,
        by omega, Or.inl rfl⟩
  · have hsf := signal_frame env s a
    refine ⟨fr_io_final_t.FR_IO_DONE, signal env s a, fun n => by simp [mod_process, ha],
      hsf.2.1, ?_, Or.inl hsf.2.2.1⟩
    rw [hsf.2.2.2.1, pushes_signal]
    omega

/-- A call on a SEND-state request whose reply code is `packet code + 2` keeps
the state, the reply code and the fallback record, when neither
`unlang_interpret_continue` nor `unlang_signal` writes the reply code. -/
theorem mod_process_nak_stable (env : Services)
    (hkeep : ∀ t : REQUEST, t.request_state = request_state_t.REQUEST_SEND →
      (env.unlang_interpret_continue t).2.reply_code = t.reply_code)
    (hsig : ∀ (t : REQUEST) (a : fr_io_action_t), (env.unlang_signal t a).reply_code = t.reply_code)
    (s : REQUEST) (a : fr_io_action_t)
    (hs : s.request_state = request_state_t.REQUEST_SEND)
    (h : s.reply_code = (s.packet_code + 2) % UINT32_MOD) :
    ∃ f s', (∀ n, mod_process env (n + 1) s a = some (f, s')) ∧
      s'.request_state = request_state_t.REQUEST_SEND ∧
      s'.reply_code = (s'.packet_code + 2) % UINT32_MOD ∧
      s'.nak_fallbacks = s.nak_fallbacks := by
  by_cases ha : a = fr_io_action_t.FR_IO_ACTION_RUN
  · subst ha
    obtain ⟨f, s', hrun, h1, h2, _, h4, h5, _⟩ := case_send_nak_total env hkeep s hs h
    refine ⟨f, s', fun n => ?_, h4, by rw [h1, h5, h], h2⟩
    simpa [mod_process, hs] using hrun n
  · have hsf := signal_frame env s a
    refine ⟨fr_io_final_t.FR_IO_DONE, signal env s a, fun n => by simp [mod_process, ha],
      hsf.1.trans hs, ?_, hsf.2.2.1⟩
    rw [hsf.2.2.2.2.1, hsig, hsf.2.1, h]

theorem drive_nak_stable (env : Services)
    (hkeep : ∀ t : REQUEST, t.request_state = request_state_t.REQUEST_SEND →
      (env.unlang_interpret_continue t).2.reply_code = t.reply_code)
    (hsig : ∀ (t : REQUEST) (a : fr_io_action_t), (env.unlang_signal t a).reply_code = t.reply_code)
    (actions : List fr_io_action_t) :
    ∀ s : REQUEST, s.request_state = request_state_t.REQUEST_SEND →
      s.reply_code = (s.packet_code + 2) % UINT32_MOD →
      ∃ s', (∀ n, drive env (n + 1) s actions = some s') ∧
        s'.nak_fallbacks = s.nak_fallbacks := by
  induction actions with
  | nil => exact fun s _ _ => ⟨s, fun _ => rfl, rfl⟩
  | cons a rest ih =>
    intro s hs h
    obtain ⟨f, s1, hrun, h1, h2, h3⟩ := mod_process_nak_stable env hkeep hsig s a hs h
    obtain ⟨s', hd, h4⟩ := ih s1 h1 h2
    refine ⟨s', fun n => ?_, h4.trans h3⟩
    simp only [drive, hrun n]
    exact hd n

/-- Over any sequence of calls the fallback branch is passed at most once, when
neither `unlang_interpret_continue` (on SEND-state requests) nor
`unlang_signal` writes the reply code. -/
theorem drive_total (env : Services)
    (hkeep : ∀ t : REQUEST, t.request_state = request_state_t.REQUEST_SEND →
      (env.unlang_interpret_continue t).2.reply_code = t.reply_code)
    (hsig : ∀ (t : REQUEST) (a : fr_io_action_t), (env.unlang_signal t a).reply_code = t.reply_code)
    (actions : List fr_io_action_t) :
    ∀ s : REQUEST, ∃ s', (∀ n, drive env (n + 2) s actions = some s') ∧
      (s'.nak_fallbacks = s.nak_fallbacks ∨
        s'.nak_fallbacks.length = s.nak_fallbacks.length + 1) := by
  induction actions with
  | nil => exact fun s => ⟨s, fun _ => rfl, Or.inl rfl⟩
  | cons a rest ih =>
    intro s
    obtain ⟨f, s1, hrun, h1, _, h3⟩ := mod_process_total env hkeep s a
    rcases h3 with h3 | ⟨h3, h4, h5⟩
    · obtain ⟨s', hd, h6⟩ := ih s1
      refine ⟨s', fun n => ?_, ?_⟩
      · simp only [drive, hrun n]
        exact hd n
      · rw [h3] at h6
        exact h6
    · obtain ⟨s', hd, h6⟩ := drive_nak_stable env hkeep hsig rest s1 h4 (by rw [h5, h1])
      refine ⟨s', fun n => ?_, Or.inr (by rw [h6, h3])⟩
      simp only [drive, hrun n]
      exact hd (n + 1)

theorem send_phase_post_trans (fb : List (Option fr_dict_enum_t)) (c v : Nat)
    (s1 s' : REQUEST) (h1 : send_phase_post fb c v s1)
    (h2 : send_phase_post s1.nak_fallbacks c s1.reply_code s') :
    send_phase_post fb c v s' := by
  unfold send_phase_post at *
  rcases h1 with ⟨a1, a2⟩ | ⟨a1, a2, a3⟩
  · rcases h2 with ⟨b1, b2⟩ | ⟨b1, b2, b3⟩
    · exact Or.inl ⟨b1.trans a1, b2.trans a2⟩
    · exact Or.inr ⟨by rw [b1, a1], a2 ▸ b2, b3⟩
  · rcases h2 with ⟨b1, b2⟩ | ⟨_, b2, _⟩
    · exact Or.inr ⟨by rw [b1, a1], a2, b2.trans a3⟩
    · exact absurd (a3.symm.trans b2).symm (ack_ne_nak c)

/-- The result of a SEND-state run, whatever the fuel it was obtained with. -/
theorem case_send_post (env : Services)
    (hkeep : ∀ t : REQUEST, t.request_state = request_state_t.REQUEST_SEND →
      (env.unlang_interpret_continue t).2.reply_code = t.reply_code)
    (t : REQUEST) (ht : t.request_state = request_state_t.REQUEST_SEND)
    (fuel : Nat) (f : fr_io_final_t) (s' : REQUEST)
    (h : case_REQUEST_SEND env fuel t = some (f, s')) :
    f ≠ fr_io_final_t.FR_IO_FAIL ∧ s'.request_state = request_state_t.REQUEST_SEND ∧
    s'.packet_code = t.packet_code ∧
    send_phase_post t.nak_fallbacks t.packet_code t.reply_code s' := by
  obtain ⟨f0, s0, hrun, h0, h1, h2, _, h4⟩ := case_send_total env hkeep t ht
  have h' := case_send_mono_add env 2 fuel t _ h
  rw [hrun fuel] at h'
  obtain ⟨rfl, rfl⟩ := Prod.mk.inj (Option.some.inj h')
  exact ⟨h0, h1, h2, h4⟩

/-- The same over the calls of a resumed request that is in the SEND state. -/
theorem send_run_post (env : Services)
    (hkeep : ∀ t : REQUEST, t.request_state = request_state_t.REQUEST_SEND →
      (env.unlang_interpret_continue t).2.reply_code = t.reply_code)
    (fuel : Nat) (k : Nat) :
    ∀ (t : REQUEST) (f : fr_io_final_t) (s' : REQUEST),
      t.request_state = request_state_t.REQUEST_SEND →
      run_to_final env fuel k t = some (f, s') →
      f ≠ fr_io_final_t.FR_IO_FAIL ∧ s'.request_state = request_state_t.REQUEST_SEND ∧
      s'.packet_code = t.packet_code ∧
      send_phase_post t.nak_fallbacks t.packet_code t.reply_code s' := by
  have hcall : ∀ t : REQUEST, t.request_state = request_state_t.REQUEST_SEND →
      mod_process env fuel t fr_io_action_t.FR_IO_ACTION_RUN = case_REQUEST_SEND env fuel t := by
    intro t ht
    simp [mod_process, ht]
  induction k with
  | zero =>
    intro t f s' ht h
    rw [run_to_final, hcall t ht] at h
    exact case_send_post env hkeep t ht fuel f s' h
  | succ k ih =>
    intro t f s' ht h
    rw [run_to_final, hcall t ht] at h
    cases hm : case_REQUEST_SEND env fuel t with
    | none =>
      rw [hm] at h
      cases h
    | some r =>
      obtain ⟨f1, s1⟩ := r
      obtain ⟨p0, p1, p2, p3⟩ := case_send_post env hkeep t ht fuel f1 s1 hm
      rw [hm] at h
      by_cases hy : f1 = fr_io_final_t.FR_IO_YIELD
      · subst hy
        obtain ⟨q0, q1, q2, q3⟩ := ih s1 f s' p1 h
        rw [p2] at q3
        exact ⟨q0, q1, q2.trans p2, send_phase_post_trans _ _ _ s1 s' p3 q3⟩
      · have h' : some (f1, s1) = some (f, s') := by
          cases f1 <;> first | exact absurd rfl hy | exact h
        obtain ⟨rfl, rfl⟩ := Prod.mk.inj (Option.some.inj h')
        exact ⟨p0, p1, p2, p3⟩

/-- The call in which the receive section completes with a Packet-Type pair in
the reply. -/
theorem recv_call_post (env : Services) (s : REQUEST) (vp : VALUE_PAIR)
    (hphase : s.request_state = request_state_t.REQUEST_RECV)
    (hstop : (interpret env s).2.master_state ≠ master_state_t.REQUEST_STOP_PROCESSING)
    (hyield : (interpret env s).1 ≠ rlm_rcode_t.RLM_MODULE_YIELD)
    (hvp : fr_pair_find_by_num (interpret env s).2.reply_vps 0 env.FR_PACKET_TYPE = some vp)
    (hkeep : ∀ t : REQUEST, t.request_state = request_state_t.REQUEST_SEND →
      (env.unlang_interpret_continue t).2.reply_code = t.reply_code)
    (fuel : Nat) (f : fr_io_final_t) (s' : REQUEST)
    (h : mod_process env fuel s fr_io_action_t.FR_IO_ACTION_RUN = some (f, s')) :
    f ≠ fr_io_final_t.FR_IO_FAIL ∧ s'.packet_code = s.packet_code ∧
    (f = fr_io_final_t.FR_IO_YIELD → s'.request_state = request_state_t.REQUEST_SEND) ∧
    send_phase_post s.nak_fallbacks s.packet_code vp.vp_uint32 s' := by
  have hfr := after_recv_frame env s
  have hcode := after_recv_override env s vp hvp
  rw [mod_process_recv env fuel s hphase hstop hyield] at h
  change select_send env fuel (after_recv env s) = some (f, s') at h
  unfold select_send at h
  cases hfs : find_send env (after_recv env s) with
  | none =>
    rw [hfs] at h
    have he : send_reply env (after_recv env s) = (f, s') := Option.some.inj h
    have h1 : (send_reply env (after_recv env s)).1 = f := congrArg Prod.fst he
    have h2 : (send_reply env (after_recv env s)).2 = s' := congrArg Prod.snd he
    have hsr := send_reply_frame env (after_recv env s)
    refine ⟨h1 ▸ send_reply_ne_fail env _, ?_, ?_, Or.inl ⟨?_, ?_⟩⟩
    · rw [← h2, hsr.2.2.2.2.2, hfr.2.1]
    · intro hy
      rcases send_reply_final env (after_recv env s) with hh | hh <;>
        rw [h1, hy] at hh <;> cases hh
    · rw [← h2, hsr.2.2.2.1, hfr.2.2.2.1]
    · rw [← h2, hsr.1, hcode]
  | some u =>
    rw [hfs] at h
    dsimp only at h
    have htf := rerun_nak_frame (after_recv env s) u
    obtain ⟨p0, p1, p2, p3⟩ := case_send_post env hkeep _ htf.1 fuel f s' h
    rw [htf.2.2.2.1, htf.2.1, htf.2.2.1, hfr.2.2.2.1, hfr.2.1, hcode] at p3
    exact ⟨p0, by rw [p2, htf.2.1, hfr.2.1], fun _ => p1, p3⟩

/-- A RUN call in the RECV state whose receive section completes with a
Packet-Type pair `vp` in the reply and that ends finalized (REPLY or DONE, the
request not stopped): the reply code at the end, by the result of the send
section that the call ran. -/
theorem recv_call_final_code (env : Services) (fuel : Nat) (s s' : REQUEST) (vp : VALUE_PAIR)
    (f : fr_io_final_t)
    (hphase : s.request_state = request_state_t.REQUEST_RECV)
    (hstop : (interpret env s).2.master_state ≠ master_state_t.REQUEST_STOP_PROCESSING)
    (hyield : (interpret env s).1 ≠ rlm_rcode_t.RLM_MODULE_YIELD)
    (hvp : fr_pair_find_by_num (interpret env s).2.reply_vps 0 env.FR_PACKET_TYPE = some vp)
    (hkeep : ∀ t : REQUEST, t.request_state = request_state_t.REQUEST_SEND →
      (env.unlang_interpret_continue t).2.reply_code = t.reply_code)
    (hrun : mod_process env fuel s fr_io_action_t.FR_IO_ACTION_RUN = some (f, s'))
    (hactive : s'.master_state ≠ master_state_t.REQUEST_STOP_PROCESSING)
    (hfinal : f ≠ fr_io_final_t.FR_IO_YIELD) :
    (f = fr_io_final_t.FR_IO_REPLY ∨ f = fr_io_final_t.FR_IO_DONE) ∧
    ((∃ unlang, find_send env (after_recv env s) = some unlang ∧
        failure_set (interpret env (rerun_nak (after_recv env s) unlang)).1 ∧
        vp.vp_uint32 = (s.packet_code + 1) % 2 ^ 32) →
      s'.reply_code = (s.packet_code + 2) % 2 ^ 32) ∧
    (¬ (∃ unlang, find_send env (after_recv env s) = some unlang ∧
        failure_set (interpret env (rerun_nak (after_recv env s) unlang)).1 ∧
        vp.vp_uint32 = (s.packet_code + 1) % 2 ^ 32) →
      s'.reply_code = vp.vp_uint32) := by
  have hfr := after_recv_frame env s
  have hcode := after_recv_override env s vp hvp
  rw [mod_process_recv env fuel s hphase hstop hyield] at hrun
  change select_send env fuel (after_recv env s) = some (f, s') at hrun
  unfold select_send at hrun
  cases hfs : find_send env (after_recv env s) with
  | none =>
    rw [hfs] at hrun
    have he : send_reply env (after_recv env s) = (f, s') := Option.some.inj hrun
    have h1 : (send_reply env (after_recv env s)).1 = f := by rw [he]
    have h2 : (send_reply env (after_recv env s)).2 = s' := by rw [he]
    refine ⟨h1 ▸ send_reply_final env _, ?_, ?_⟩
    · rintro ⟨u, hu, -⟩
      cases hu
    · intro _
      rw [← h2, (send_reply_frame env _).1, hcode]
  | some u =>
    rw [hfs] at hrun
    dsimp only at hrun
    have htf := rerun_nak_frame (after_recv env s) u
    have hi := interpret_frame env (rerun_nak (after_recv env s) u)
    have hrc1 : (interpret env (rerun_nak (after_recv env s) u)).2.reply_code
        = vp.vp_uint32 := by
      rw [hi.2.2.2.2.2.2.2, hkeep _ htf.1, htf.2.2.1, hcode]
    have hpc1 : (interpret env (rerun_nak (after_recv env s) u)).2.packet_code
        = s.packet_code := by
      rw [hi.2.1, htf.2.1, hfr.2.1]
    cases fuel with
    | zero => simp [case_REQUEST_SEND] at hrun
    | succ n =>
      by_cases hs : (interpret env (rerun_nak (after_recv env s) u)).2.master_state
          = master_state_t.REQUEST_STOP_PROCESSING
      · simp only [case_REQUEST_SEND, if_pos hs] at hrun
        have he := Option.some.inj hrun
        have h2 : (interpret env (rerun_nak (after_recv env s) u)).2 = s' := by
          rw [← (Prod.mk.inj he).2]
        exact absurd (h2 ▸ hs) hactive
      · by_cases hy : (interpret env (rerun_nak (after_recv env s) u)).1
            = rlm_rcode_t.RLM_MODULE_YIELD
        · simp only [case_REQUEST_SEND, if_neg hs, if_pos hy] at hrun
          exact absurd (Prod.mk.inj (Option.some.inj hrun)).1.symm hfinal
        · rw [case_send_step env n _ hs hy] at hrun
          by_cases hfb : failure_set (interpret env (rerun_nak (after_recv env s) u)).1 ∧
              vp.vp_uint32 = (s.packet_code + 1) % 2 ^ 32
          · have hg : (interpret env (rerun_nak (after_recv env s) u)).2.reply_code
                = ((interpret env (rerun_nak (after_recv env s) u)).2.packet_code + 1)
                  % UINT32_MOD := by
              rw [hrc1, hpc1, hfb.2, UINT32_MOD]
            have hnf := nak_fallback_frame env (interpret env (rerun_nak (after_recv env s) u)).2
            rw [send_rcode_failure env _ _ hfb.1, if_pos hg] at hrun
            have hgoal : s'.reply_code = (s.packet_code + 2) % 2 ^ 32 ∧
                (f = fr_io_final_t.FR_IO_REPLY ∨ f = fr_io_final_t.FR_IO_DONE) := by
              cases hfn : find_send env
                  (nak_fallback env (interpret env (rerun_nak (after_recv env s) u)).2) with
              | none =>
                rw [hfn] at hrun
                have he : send_reply env
                    (nak_fallback env (interpret env (rerun_nak (after_recv env s) u)).2)
                    = (f, s') := Option.some.inj hrun
                constructor
                · rw [← (show _ = s' from congrArg Prod.snd he),
                    (send_reply_frame env _).1, hnf.1, hpc1, UINT32_MOD]
                · rw [← (show _ = f from congrArg Prod.fst he)]
                  exact send_reply_final env _
              | some u2 =>
                rw [hfn] at hrun
                dsimp only at hrun
                have htf2 := rerun_nak_frame
                  (nak_fallback env (interpret env (rerun_nak (after_recv env s) u)).2) u2
                have hnak : (rerun_nak (nak_fallback env
                    (interpret env (rerun_nak (after_recv env s) u)).2) u2).reply_code
                    = ((rerun_nak (nak_fallback env
                    (interpret env (rerun_nak (after_recv env s) u)).2) u2).packet_code + 2)
                      % UINT32_MOD := by
                  rw [htf2.2.2.1, htf2.2.1, hnf.1, hnf.2.1]
                cases n with
                | zero => simp [case_REQUEST_SEND] at hrun
                | succ m =>
                  have hi2 := interpret_frame env (rerun_nak (nak_fallback env
                    (interpret env (rerun_nak (after_recv env s) u)).2) u2)
                  rw [case_send_of_nak env hkeep m _ htf2.1 hnak] at hrun
                  split_ifs at hrun with h1 h2
                  · have he := Option.some.inj hrun
                    exact absurd ((Prod.mk.inj he).2 ▸ h1) hactive
                  · exact absurd (Prod.mk.inj (Option.some.inj hrun)).1.symm hfinal
                  · have he := Option.some.inj hrun
                    constructor
                    · rw [← (show _ = s' from congrArg Prod.snd he),
                        (send_reply_frame env _).1, hi2.2.2.2.2.2.2.2, hkeep _ htf2.1,
                        htf2.2.2.1, hnf.1, hpc1, UINT32_MOD]
                    · rw [← (show _ = f from congrArg Prod.fst he)]
                      exact send_reply_final env _
            refine ⟨hgoal.2, fun _ => hgoal.1, ?_⟩
            intro hno
            exact absurd ⟨u, rfl, hfb.1, hfb.2⟩ hno
          · have hsr : send_rcode env (interpret env (rerun_nak (after_recv env s) u)).2
                (interpret env (rerun_nak (after_recv env s) u)).1
                = (send_next.goto_send_reply,
                  (interpret env (rerun_nak (after_recv env s) u)).2) := by
              by_cases hf : failure_set (interpret env (rerun_nak (after_recv env s) u)).1
              · rw [send_rcode_failure env _ _ hf, if_neg]
                rw [hrc1, hpc1, UINT32_MOD]
                exact fun hh => hfb ⟨hf, hh⟩
              · exact send_rcode_not_failure env _ _ hf
            rw [hsr] at hrun
            have he : send_reply env (interpret env (rerun_nak (after_recv env s) u)).2
                = (f, s') := Option.some.inj hrun
            refine ⟨?_, ?_, ?_⟩
            · rw [← (show _ = f from congrArg Prod.fst he)]
              exact send_reply_final env _
            · rintro ⟨u', hu', hf', hv'⟩
              cases hu'
              exact absurd ⟨hf', hv'⟩ hfb
            · intro _
              rw [← (show _ = s' from congrArg Prod.snd he),
                (send_reply_frame env _).1, hrc1]

/-! ## Lemmas on `mod_instantiate` -/

theorem mod_instantiate_common_eq (compile : compile_call → Int) (done : List compile_call) :
    mod_instantiate_common compile done =
      (first_failure compile [send_do_not_respond, send_protocol_error],
       done ++ attempted compile [send_do_not_respond, send_protocol_error]) := by
  simp only [mod_instantiate_common, first_failure, attempted, send_do_not_respond,
    send_protocol_error]
  split_ifs <;> simp

theorem mod_instantiate_disconnect_eq (compile : compile_call → Int) (done : List compile_call) :
    mod_instantiate_disconnect compile done =
      (first_failure compile
        ([recv_disconnect]
          ++ (if compile recv_disconnect = 1 then [send_disconnect_ack, send_disconnect_nak]
              else [])
          ++ [send_do_not_respond, send_protocol_error]),
       done ++ attempted compile
        ([recv_disconnect]
          ++ (if compile recv_disconnect = 1 then [send_disconnect_ack, send_disconnect_nak]
              else [])
          ++ [send_do_not_respond, send_protocol_error])) := by
  simp only [mod_instantiate_disconnect, mod_instantiate_common_eq]
  simp only [first_failure, attempted, recv_disconnect, send_disconnect_ack,
    send_disconnect_nak, send_do_not_respond, send_protocol_error]
  split_ifs <;> first | omega | simp [first_failure, attempted, *]

theorem mod_instantiate_eq (compile : compile_call → Int) :
    mod_instantiate compile =
      (first_failure compile (instantiate_plan compile),
       attempted compile (instantiate_plan compile)) := by
  simp only [mod_instantiate, mod_instantiate_disconnect_eq, instantiate_plan]
  simp only [first_failure, attempted, recv_coa, send_coa_ack, send_coa_nak]
  split_ifs <;> first | omega | simp [first_failure, attempted, *]

theorem first_failure_zero_iff (compile : compile_call → Int) (plan : List compile_call) :
    first_failure compile plan = 0 ↔ ∀ c ∈ attempted compile plan, ¬ compile c < 0 := by
  induction plan with
  | nil => simp [first_failure, attempted]
  | cons c rest ih =>
    simp only [first_failure, attempted]
    split_ifs with h
    · simp only [List.mem_singleton, forall_eq]
      constructor
      · intro h0
        omega
      · intro h0
        exact absurd h h0
    · simp only [List.mem_cons, forall_eq_or_imp]
      rw [ih]
      exact ⟨fun h1 => ⟨h, h1⟩, fun h1 => h1.2⟩

theorem first_failure_neg (compile : compile_call → Int) (plan : List compile_call) :
    first_failure compile plan ≤ 0 ∧
    (first_failure compile plan < 0 →
      ∃ before c, attempted compile plan = before ++ [c] ∧
        compile c = first_failure compile plan ∧ ∀ d ∈ before, ¬ compile d < 0) := by
  induction plan with
  | nil => simp [first_failure, attempted]
  | cons c rest ih =>
    simp only [first_failure, attempted]
    split_ifs with h
    · exact ⟨by omega, fun _ => ⟨[], c, by simp⟩⟩
    · refine ⟨ih.1, fun hneg => ?_⟩
      obtain ⟨before, d, h1, h2, h3⟩ := ih.2 hneg
      refine ⟨c :: before, d, by rw [h1]; rfl, h2, ?_⟩
      intro e he
      rcases List.mem_cons.mp he with he | he
      · rw [he]
        exact h
      · exact h3 e he

/-! ## The reply code after the receive section -/

/-- C1. When the receive section completes (RUN, state RECV, not stopped, not
YIELD) with result `r` and the reply has no Packet-Type pair, `mod_process`
goes on to the selection of the send section with a reply code that is
`packet code + 1` (unsigned 32-bit addition) for NOOP, NOTFOUND, OK and
UPDATED, the code the interpreter left for HANDLED, and `packet code + 2` for
every other result; below `2^32` the two sums are the plain sums. -/
theorem reply_code_resolver (env : Services) (fuel : Nat) (s : REQUEST)
    (hphase : s.request_state = request_state_t.REQUEST_RECV)
    (hstop : (interpret env s).2.master_state ≠ master_state_t.REQUEST_STOP_PROCESSING)
    (hyield : (interpret env s).1 ≠ rlm_rcode_t.RLM_MODULE_YIELD)
    (hnone : fr_pair_find_by_num (interpret env s).2.reply_vps 0 env.FR_PACKET_TYPE = none) :
    mod_process env fuel s fr_io_action_t.FR_IO_ACTION_RUN =
      select_send env fuel (recv_rcode (interpret env s).2 (interpret env s).1) ∧
    ((interpret env s).1 = rlm_rcode_t.RLM_MODULE_NOOP ∨
      (interpret env s).1 = rlm_rcode_t.RLM_MODULE_NOTFOUND ∨
      (interpret env s).1 = rlm_rcode_t.RLM_MODULE_OK ∨
      (interpret env s).1 = rlm_rcode_t.RLM_MODULE_UPDATED →
        (recv_rcode (interpret env s).2 (interpret env s).1).reply_code
          = (s.packet_code + 1) % 2 ^ 32) ∧
    ((interpret env s).1 = rlm_rcode_t.RLM_MODULE_HANDLED →
        (recv_rcode (interpret env s).2 (interpret env s).1).reply_code
          = (interpret env s).2.reply_code) ∧
    ((interpret env s).1 ≠ rlm_rcode_t.RLM_MODULE_NOOP →
      (interpret env s).1 ≠ rlm_rcode_t.RLM_MODULE_NOTFOUND →
      (interpret env s).1 ≠ rlm_rcode_t.RLM_MODULE_OK →
      (interpret env s).1 ≠ rlm_rcode_t.RLM_MODULE_UPDATED →
      (interpret env s).1 ≠ rlm_rcode_t.RLM_MODULE_HANDLED →
        (recv_rcode (interpret env s).2 (interpret env s).1).reply_code
          = (s.packet_code + 2) % 2 ^ 32) ∧
    (s.packet_code + 2 < 2 ^ 32 →
      (s.packet_code + 1) % 2 ^ 32 = s.packet_code + 1 ∧
      (s.packet_code + 2) % 2 ^ 32 = s.packet_code + 2) := by
  have hfr := interpret_frame env s
  have hov : reply_override env (recv_rcode (interpret env s).2 (interpret env s).1)
      = recv_rcode (interpret env s).2 (interpret env s).1 := by
    simp [reply_override, (recv_rcode_frame _ _).1, hnone]
  refine ⟨?_, ?_, ?_, ?_, ?_⟩
  · rw [mod_process_recv env fuel s hphase hstop hyield, hov]
  · rintro (h | h | h | h) <;> simp [h, recv_rcode, UINT32_MOD, hfr.2.1]
  · intro h
    simp [h, recv_rcode]
  · intro h1 h2 h3 h4 h5
    generalize (interpret env s).1 = r at h1 h2 h3 h4 h5
    have hp := hfr.2.1
    generalize (interpret env s).2 = s1 at hp
    cases r <;> simp_all [recv_rcode, UINT32_MOD]
  · intro h
    constructor <;> apply Nat.mod_eq_of_lt <;> omega

/-- The witness of `reply_code_resolver`: a CoA-Request (code 43) whose receive
section returns OK gets the reply code 44. -/
theorem reply_code_resolver_witness :
    (coa_request request_state_t.REQUEST_RECV 0 []).request_state
      = request_state_t.REQUEST_RECV ∧
    (recv_rcode
      (interpret (scripted []) (coa_request request_state_t.REQUEST_RECV 0 [])).2
      (interpret (scripted []) (coa_request request_state_t.REQUEST_RECV 0 [])).1).reply_code
      = 44 :=
  ⟨by decide,
   ((reply_code_resolver (scripted []) 2 (coa_request request_state_t.REQUEST_RECV 0 [])
      (by decide) (by decide) (by decide) (by decide)).2.1 (Or.inr (Or.inr (Or.inl (by decide))))).trans
      (by decide)⟩

/-- C3. When the receive section completes (RUN, state RECV, not stopped, not
YIELD, any result code) and the reply list holds a Packet-Type pair `vp`, the
reply code is `vp.vp_uint32` when the send section is selected, the section
looked up is `send <alias of that value>`, and when the value has no alias or
no such section is configured the call goes to `send_reply` with nothing
pushed; otherwise the section found is pushed and the SEND state entered. -/
theorem receive_override (env : Services) (fuel : Nat) (s : REQUEST) (vp : VALUE_PAIR)
    (hphase : s.request_state = request_state_t.REQUEST_RECV)
    (hstop : (interpret env s).2.master_state ≠ master_state_t.REQUEST_STOP_PROCESSING)
    (hyield : (interpret env s).1 ≠ rlm_rcode_t.RLM_MODULE_YIELD)
    (hvp : fr_pair_find_by_num (interpret env s).2.reply_vps 0 env.FR_PACKET_TYPE = some vp) :
    (after_recv env s).reply_code = vp.vp_uint32 ∧
    find_send env (after_recv env s) =
      (fr_dict_enum_by_value env.da vp.vp_uint32).bind
        (fun dv => cf_section_find s.server_cs "send" dv.alias_) ∧
    (fr_dict_enum_by_value env.da vp.vp_uint32 = none ∨
      (∃ dv, fr_dict_enum_by_value env.da vp.vp_uint32 = some dv ∧
        cf_section_find s.server_cs "send" dv.alias_ = none) →
      mod_process env fuel s fr_io_action_t.FR_IO_ACTION_RUN
        = some (send_reply env (after_recv env s)) ∧
      (send_reply env (after_recv env s)).2.unlang_calls
        = s.unlang_calls ++ [unlang_call.interpret]) ∧
    (∀ dv unlang, fr_dict_enum_by_value env.da vp.vp_uint32 = some dv →
      cf_section_find s.server_cs "send" dv.alias_ = some unlang →
      mod_process env fuel s fr_io_action_t.FR_IO_ACTION_RUN
        = case_REQUEST_SEND env fuel (rerun_nak (after_recv env s) unlang) ∧
      (rerun_nak (after_recv env s) unlang).request_state = request_state_t.REQUEST_SEND ∧
      (rerun_nak (after_recv env s) unlang).reply_code = vp.vp_uint32 ∧
      (rerun_nak (after_recv env s) unlang).unlang_calls
        = s.unlang_calls ++
          [unlang_call.interpret, unlang_call.push unlang rlm_rcode_t.RLM_MODULE_NOOP]) := by
  have hfr := after_recv_frame env s
  have hcode : (after_recv env s).reply_code = vp.vp_uint32 := by
    simp [after_recv, reply_override, (recv_rcode_frame _ _).1, hvp]
  have hrun := mod_process_recv env fuel s hphase hstop hyield
  have hfind : find_send env (after_recv env s) =
      (fr_dict_enum_by_value env.da vp.vp_uint32).bind
        (fun dv => cf_section_find s.server_cs "send" dv.alias_) := by
    unfold find_send
    rw [hcode, hfr.2.2.1]
    cases fr_dict_enum_by_value env.da vp.vp_uint32 <;> rfl
  refine ⟨hcode, hfind, ?_, ?_⟩
  · intro h
    have hnone : find_send env (after_recv env s) = none := by
      rw [hfind]
      rcases h with h | ⟨dv, h1, h2⟩
      · simp [h]
      · simp [h1, h2]
    refine ⟨?_, ?_⟩
    · rw [hrun]
      show select_send env fuel (after_recv env s) = _
      simp [select_send, hnone]
    · rw [(send_reply_frame env _).2.2.1, hfr.2.2.2.2.2]
  · intro dv unlang h1 h2
    have hsome : find_send env (after_recv env s) = some unlang := by
      rw [hfind]
      simp [h1, h2]
    refine ⟨?_, ?_, ?_, ?_⟩
    · rw [hrun]
      show select_send env fuel (after_recv env s) = _
      simp [select_send, hsome]
    · simp [rerun_nak]
    · simp [rerun_nak, unlang_push_section, hcode]
    · simp [rerun_nak, unlang_push_section, hfr.2.2.2.2.2]

/-- The witness of `receive_override`: the receive section of a CoA-Request
returns OK while the reply holds Packet-Type = 45, so the reply code is 45 and
`send CoA-NAK` is the section run. -/
theorem receive_override_witness :
    fr_pair_find_by_num
      (interpret (scripted []) (coa_request request_state_t.REQUEST_RECV 0 [⟨0, 1000, 45⟩])).2.reply_vps
      0 (scripted []).FR_PACKET_TYPE = some ⟨0, 1000, 45⟩ ∧
    (after_recv (scripted []) (coa_request request_state_t.REQUEST_RECV 0 [⟨0, 1000, 45⟩])).reply_code
      = 45 ∧
    find_send (scripted []) (after_recv (scripted [])
      (coa_request request_state_t.REQUEST_RECV 0 [⟨0, 1000, 45⟩]))
      = some ⟨"send", "CoA-NAK", "default"⟩ :=
  have h := receive_override (scripted []) 2
    (coa_request request_state_t.REQUEST_RECV 0 [⟨0, 1000, 45⟩]) ⟨0, 1000, 45⟩
    (by decide) (by decide) (by decide) (by decide)
  ⟨by decide, h.1, h.2.1.trans (by decide)⟩

/-! ## The NAK fallback -/

/-- C5. With an interpreter that does not write the reply code (neither
`unlang_interpret_continue` on a SEND-state request nor `unlang_signal`):
once the reply code is `packet code + 2` the switch on a send section's result
goes to `send_reply` whatever the result, since `c + 1` and `c + 2` differ
modulo `2^32`; every call of `mod_process` with fuel 2 or more returns, with
the result it has with fuel 2, after at most three pushes and at most one pass
through the fallback; and over any sequence of calls on a request the
fallback is passed at most once. -/
theorem single_retry (env : Services)
    (hkeep : ∀ t : REQUEST, t.request_state = request_state_t.REQUEST_SEND →
      (env.unlang_interpret_continue t).2.reply_code = t.reply_code)
    (hsig : ∀ (t : REQUEST) (a : fr_io_action_t), (env.unlang_signal t a).reply_code = t.reply_code) :
    (∀ (t : REQUEST) (r : rlm_rcode_t), t.reply_code = (t.packet_code + 2) % 2 ^ 32 →
      send_rcode env t r = (send_next.goto_send_reply, t)) ∧
    (∀ (s : REQUEST) (a : fr_io_action_t) (fuel : Nat), 2 ≤ fuel →
      ∃ f s', mod_process env fuel s a = some (f, s') ∧
        mod_process env 2 s a = some (f, s') ∧
        pushes s'.unlang_calls ≤ pushes s.unlang_calls + 3 ∧
        s'.nak_fallbacks.length ≤ s.nak_fallbacks.length + 1) ∧
    (∀ (s : REQUEST) (actions : List fr_io_action_t) (fuel : Nat), 2 ≤ fuel →
      ∃ s', drive env fuel s actions = some s' ∧
        s'.nak_fallbacks.length ≤ s.nak_fallbacks.length + 1) := by
  refine ⟨fun t r h => send_rcode_of_nak env t r h, ?_, ?_⟩
  · intro s a fuel hfuel
    obtain ⟨n, rfl⟩ : ∃ n, fuel = n + 2 := ⟨fuel - 2, by omega⟩
    obtain ⟨f, s', hrun, _, h2, h3⟩ := mod_process_total env hkeep s a
    refine ⟨f, s', hrun n, hrun 0, h2, ?_⟩
    rcases h3 with h3 | h3
    · rw [h3]
      omega
    · omega
  · intro s actions fuel hfuel
    obtain ⟨n, rfl⟩ : ∃ n, fuel = n + 2 := ⟨fuel - 2, by omega⟩
    obtain ⟨s', hd, h⟩ := drive_total env hkeep hsig actions s
    refine ⟨s', hd n, ?_⟩
    rcases h with h | h
    · rw [h]
      omega
    · omega

/-- The witness of `single_retry`: a CoA-Request taken from INIT through a
receive section returning OK, a `send CoA-ACK` returning FAIL and a
`send CoA-NAK` returning FAIL again ends with REPLY, reply code 45, three
pushes and one pass through the fallback. -/
theorem single_retry_witness :
    (mod_process
      (scripted [rlm_rcode_t.RLM_MODULE_OK, rlm_rcode_t.RLM_MODULE_FAIL,
        rlm_rcode_t.RLM_MODULE_FAIL]) 2
      (coa_request request_state_t.REQUEST_INIT 0 [])
      fr_io_action_t.FR_IO_ACTION_RUN).map
        (fun r => (r.1, r.2.reply_code, pushes r.2.unlang_calls, r.2.nak_fallbacks.length))
      = some (fr_io_final_t.FR_IO_REPLY, 45, 3, 1) ∧
    ∃ f s', mod_process
      (scripted [rlm_rcode_t.RLM_MODULE_OK, rlm_rcode_t.RLM_MODULE_FAIL,
        rlm_rcode_t.RLM_MODULE_FAIL]) 7
      (coa_request request_state_t.REQUEST_INIT 0 [])
      fr_io_action_t.FR_IO_ACTION_RUN = some (f, s') ∧
      mod_process
        (scripted [rlm_rcode_t.RLM_MODULE_OK, rlm_rcode_t.RLM_MODULE_FAIL,
          rlm_rcode_t.RLM_MODULE_FAIL]) 2
        (coa_request request_state_t.REQUEST_INIT 0 [])
        fr_io_action_t.FR_IO_ACTION_RUN = some (f, s') ∧
      pushes s'.unlang_calls
        ≤ pushes (coa_request request_state_t.REQUEST_INIT 0 []).unlang_calls + 3 ∧
      s'.nak_fallbacks.length
        ≤ (coa_request request_state_t.REQUEST_INIT 0 []).nak_fallbacks.length + 1 :=
  ⟨by decide,
   (single_retry
      (scripted [rlm_rcode_t.RLM_MODULE_OK, rlm_rcode_t.RLM_MODULE_FAIL,
        rlm_rcode_t.RLM_MODULE_FAIL])
      (fun _ _ => rfl) (fun _ _ => rfl)).2.1
      (coa_request request_state_t.REQUEST_INIT 0 []) fr_io_action_t.FR_IO_ACTION_RUN 7
      (by decide)⟩

/-! ## The compilation of the sections -/

/-- C6, as the claim states it, fails: with `recv CoA-Request` compiled
(result 1) and every other section absent (result 0), among them
`send CoA-ACK` and `send CoA-NAK`, `mod_instantiate` attempts all six
compilations that apply and returns 0, not a negative value. -/
theorem mandatory_send_sections_counterexample :
    recv_coa_only recv_coa = 1 ∧ recv_coa_only send_coa_ack = 0 ∧
    recv_coa_only send_coa_nak = 0 ∧
    mod_instantiate recv_coa_only =
      (0, [recv_coa, send_coa_ack, send_coa_nak, recv_disconnect, send_do_not_respond,
        send_protocol_error]) := by
  decide

/-- C6, amended. For each family whose recv section compiled (result 1),
`mod_instantiate` attempts the send ACK section and, unless that returns a
negative value, the send NAK section, and returns the negative value of the
one that fails to compile; an absent send section (result 0) is no error:
`mod_instantiate` returns 0 whenever no attempted compilation returned a
negative value. -/
theorem mandatory_send_sections (compile : compile_call → Int) :
    (compile recv_coa = 1 →
      send_coa_ack ∈ (mod_instantiate compile).2 ∧
      (compile send_coa_ack < 0 → (mod_instantiate compile).1 = compile send_coa_ack) ∧
      (¬ compile send_coa_ack < 0 →
        send_coa_nak ∈ (mod_instantiate compile).2 ∧
        (compile send_coa_nak < 0 → (mod_instantiate compile).1 = compile send_coa_nak))) ∧
    (¬ compile recv_coa < 0 →
      (compile recv_coa = 1 → ¬ compile send_coa_ack < 0 ∧ ¬ compile send_coa_nak < 0) →
      compile recv_disconnect = 1 →
      send_disconnect_ack ∈ (mod_instantiate compile).2 ∧
      (compile send_disconnect_ack < 0 →
        (mod_instantiate compile).1 = compile send_disconnect_ack) ∧
      (¬ compile send_disconnect_ack < 0 →
        send_disconnect_nak ∈ (mod_instantiate compile).2 ∧
        (compile send_disconnect_nak < 0 →
          (mod_instantiate compile).1 = compile send_disconnect_nak))) ∧
    ((∀ c ∈ (mod_instantiate compile).2, ¬ compile c < 0) → (mod_instantiate compile).1 = 0) := by
  refine ⟨?_, ?_, ?_⟩
  · intro h1
    have h0 : ¬ compile recv_coa < 0 := by omega
    simp only [mod_instantiate_eq, instantiate_plan, h1, if_true, List.cons_append,
      List.nil_append, List.singleton_append, first_failure, attempted, if_neg h0]
    refine ⟨?_, ?_, ?_⟩
    · split_ifs <;> first | omega | simp
    · intro h2
      simp [h2]
    · intro h2
      refine ⟨?_, ?_⟩
      · simp only [if_neg h2]
        split_ifs <;> first | omega | simp
      · intro h3
        simp [h2, h3]
  · intro h0 hcoa h1
    have hd : ¬ compile recv_disconnect < 0 := by omega
    by_cases hc : compile recv_coa = 1
    · have h2 := (hcoa hc).1
      have h3 := (hcoa hc).2
      simp only [mod_instantiate_eq, instantiate_plan, hc, h1, if_true, List.cons_append,
        List.nil_append, List.singleton_append, first_failure, attempted, if_neg h0,
        if_neg h2, if_neg h3, if_neg hd]
      refine ⟨?_, ?_, ?_⟩
      · split_ifs <;> first | omega | simp
      · intro h4
        simp [h4]
      · intro h4
        refine ⟨?_, ?_⟩
        · simp only [if_neg h4]
          split_ifs <;> first | omega | simp
        · intro h5
          simp [h4, h5]
    · simp only [mod_instantiate_eq, instantiate_plan, if_neg hc, h1, if_true, List.cons_append,
        List.nil_append, List.singleton_append, first_failure, attempted, if_neg h0,
        if_neg hd, List.append_nil]
      refine ⟨?_, ?_, ?_⟩
      · split_ifs <;> first | omega | simp
      · intro h4
        simp [h4]
      · intro h4
        refine ⟨?_, ?_⟩
        · simp only [if_neg h4]
          split_ifs <;> first | omega | simp
        · intro h5
          simp [h4, h5]
  · intro h
    rw [mod_instantiate_eq] at h ⊢
    exact (first_failure_zero_iff compile _).mpr h

/-- The witness of `mandatory_send_sections`: with only `recv CoA-Request`
configured, `send CoA-ACK` and `send CoA-NAK` are attempted and the result
is 0. -/
theorem mandatory_send_sections_witness :
    recv_coa_only recv_coa = 1 ∧
    send_coa_ack ∈ (mod_instantiate recv_coa_only).2 ∧
    send_coa_nak ∈ (mod_instantiate recv_coa_only).2 ∧
    (mod_instantiate recv_coa_only).1 = 0 :=
  ⟨by decide,
   ((mandatory_send_sections recv_coa_only).1 (by decide)).1,
   (((mandatory_send_sections recv_coa_only).1 (by decide)).2.2 (by decide)).1,
   (mandatory_send_sections recv_coa_only).2.2 (by decide)⟩

/-- C7. `mod_instantiate` goes through the plan `recv CoA-Request`, (`send
CoA-ACK`, `send CoA-NAK` if that recv returned 1), `recv Disconnect-Request`,
(`send Disconnect-ACK`, `send Disconnect-NAK` if that recv returned 1), `send
Do-Not-Respond`, `send Protocol-Error` in order, up to and including the first
compilation with a negative result, which it returns; it returns 0 exactly
when no attempted compilation returned a negative value.  An absent recv
section is no error, and when nothing fails the last two sections are
attempted. -/
theorem section_binder (compile : compile_call → Int) :
    mod_instantiate compile =
      (first_failure compile (instantiate_plan compile),
       attempted compile (instantiate_plan compile)) ∧
    ((mod_instantiate compile).1 = 0 ↔
      ∀ c ∈ (mod_instantiate compile).2, ¬ compile c < 0) ∧
    ((mod_instantiate compile).1 ≠ 0 →
      (mod_instantiate compile).1 < 0 ∧
      ∃ before c, (mod_instantiate compile).2 = before ++ [c] ∧
        compile c = (mod_instantiate compile).1 ∧ ∀ d ∈ before, ¬ compile d < 0) ∧
    (compile recv_coa = 0 → compile recv_disconnect = 0 →
      ¬ compile send_do_not_respond < 0 → ¬ compile send_protocol_error < 0 →
      mod_instantiate compile =
        (0, [recv_coa, recv_disconnect, send_do_not_respond, send_protocol_error])) ∧
    ((mod_instantiate compile).1 = 0 →
      send_do_not_respond ∈ (mod_instantiate compile).2 ∧
      send_protocol_error ∈ (mod_instantiate compile).2) := by
  have hle := (first_failure_neg compile (instantiate_plan compile)).1
  refine ⟨mod_instantiate_eq compile, ?_, ?_, ?_, ?_⟩
  · rw [mod_instantiate_eq]
    exact first_failure_zero_iff compile _
  · rw [mod_instantiate_eq]
    intro hne
    have hlt : first_failure compile (instantiate_plan compile) < 0 := by
      have : first_failure compile (instantiate_plan compile) ≠ 0 := hne
      omega
    exact ⟨hlt, (first_failure_neg compile _).2 hlt⟩
  · intro h1 h2 h3 h4
    have h1' : ¬ compile recv_coa < 0 := by omega
    have h1'' : ¬ compile recv_coa = 1 := by omega
    have h2' : ¬ compile recv_disconnect < 0 := by omega
    have h2'' : ¬ compile recv_disconnect = 1 := by omega
    simp [mod_instantiate_eq, instantiate_plan, first_failure, attempted, h1', h1'', h2',
      h2'', h3, h4]
  · rw [mod_instantiate_eq]
    intro h0
    have hall := (first_failure_zero_iff compile _).mp h0
    have hplan : ∀ plan : List compile_call,
        (∀ c ∈ attempted compile plan, ¬ compile c < 0) → attempted compile plan = plan := by
      intro plan
      induction plan with
      | nil => intro _; rfl
      | cons c rest ih =>
        intro h
        simp only [attempted] at h ⊢
        split_ifs at h ⊢ with hc
        · exact absurd hc (h c (by simp))
        · rw [ih (fun d hd => h d (List.mem_cons_of_mem _ hd))]
    show send_do_not_respond ∈ attempted compile (instantiate_plan compile) ∧
      send_protocol_error ∈ attempted compile (instantiate_plan compile)
    rw [hplan _ hall]
    simp [instantiate_plan]

/-- The witness of `section_binder`: with only `recv CoA-Request` configured the
six compilations of the plan are attempted and the result is 0. -/
theorem section_binder_witness :
    (mod_instantiate recv_coa_only).1 = 0 ∧
    send_do_not_respond ∈ (mod_instantiate recv_coa_only).2 ∧
    send_protocol_error ∈ (mod_instantiate recv_coa_only).2 :=
  ⟨by decide, (section_binder recv_coa_only).2.2.2.2 (by decide)⟩

/-! ## Errors, signals and the end of a call -/

/-- C8, as the claim states it, fails: the request is not left as it was found.
A Disconnect-Request (code 40) with an empty component name, in the INIT
state, on a server whose dictionary has no alias for 40: the RUN call returns
FAIL, and the request it leaves has the component name "radius", which line
56 writes before the lookups of lines 58 and 64, so it differs from the
request the call was given. -/
theorem init_resolution_errors_counterexample :
    ({ coa_request request_state_t.REQUEST_INIT 0 [] with packet_code := 40 } :
        REQUEST).request_state = request_state_t.REQUEST_INIT ∧
    fr_dict_enum_by_value (scripted []).da
      ({ coa_request request_state_t.REQUEST_INIT 0 [] with packet_code := 40 } :
        REQUEST).packet_code = none ∧
    mod_process (scripted []) 0
      { coa_request request_state_t.REQUEST_INIT 0 [] with packet_code := 40 }
      fr_io_action_t.FR_IO_ACTION_RUN
      = some (fr_io_final_t.FR_IO_FAIL,
          { coa_request request_state_t.REQUEST_INIT 0 [] with
            packet_code := 40, component := "radius" }) ∧
    ({ coa_request request_state_t.REQUEST_INIT 0 [] with
        packet_code := 40, component := "radius" } : REQUEST)
      ≠ { coa_request request_state_t.REQUEST_INIT 0 [] with packet_code := 40 } ∧
    ({ coa_request request_state_t.REQUEST_INIT 0 [] with packet_code := 40 } :
        REQUEST).component = "" :=
  ⟨by decide, by decide, by decide,
   fun h => absurd (congrArg REQUEST.component h) (by decide), by decide⟩

/-- C8, amended. A RUN call in the INIT state on a request whose packet code
has no alias, or whose alias has no `recv` section, returns FAIL whatever the
fuel; the request is left as it was except for the component name, which line
56 sets to "radius" before the lookups: the state is still INIT, the reply
code and the reply pairs are unchanged and no call was made to the
interpreter. -/
theorem init_resolution_errors (env : Services) (fuel : Nat) (s : REQUEST)
    (hphase : s.request_state = request_state_t.REQUEST_INIT)
    (herr : fr_dict_enum_by_value env.da s.packet_code = none ∨
      ∃ dv, fr_dict_enum_by_value env.da s.packet_code = some dv ∧
        cf_section_find s.server_cs "recv" dv.alias_ = none) :
    mod_process env fuel s fr_io_action_t.FR_IO_ACTION_RUN
      = some (fr_io_final_t.FR_IO_FAIL, { s with component := "radius" }) ∧
    ∀ f s', mod_process env fuel s fr_io_action_t.FR_IO_ACTION_RUN = some (f, s') →
      f = fr_io_final_t.FR_IO_FAIL ∧
      s'.request_state = request_state_t.REQUEST_INIT ∧
      s'.reply_code = s.reply_code ∧
      s'.reply_vps = s.reply_vps ∧
      s'.master_state = s.master_state ∧
      s'.unlang_calls = s.unlang_calls ∧
      s'.nak_fallbacks = s.nak_fallbacks := by
  have hrun : mod_process env fuel s fr_io_action_t.FR_IO_ACTION_RUN
      = some (fr_io_final_t.FR_IO_FAIL, { s with component := "radius" }) := by
    rcases herr with h | ⟨dv, h1, h2⟩
    · simp [mod_process, hphase, case_REQUEST_INIT, h]
    · simp [mod_process, hphase, case_REQUEST_INIT, h1, h2]
  refine ⟨hrun, ?_⟩
  intro f s' h
  rw [hrun] at h
  obtain ⟨rfl, rfl⟩ := Prod.mk.inj (Option.some.inj h)
  exact ⟨rfl, hphase, rfl, rfl, rfl, rfl, rfl⟩

/-- The witness of `init_resolution_errors`: a Disconnect-Request (code 40) on a
server whose dictionary has no alias for 40. -/
theorem init_resolution_errors_witness :
    fr_dict_enum_by_value (scripted []).da
      ({ coa_request request_state_t.REQUEST_INIT 0 [] with packet_code := 40 } : REQUEST).packet_code
      = none ∧
    mod_process (scripted []) 0
      { coa_request request_state_t.REQUEST_INIT 0 [] with packet_code := 40 }
      fr_io_action_t.FR_IO_ACTION_RUN
      = some (fr_io_final_t.FR_IO_FAIL,
          { coa_request request_state_t.REQUEST_INIT 0 [] with
            packet_code := 40, component := "radius" }) :=
  ⟨by decide,
   (init_resolution_errors (scripted []) 0
      { coa_request request_state_t.REQUEST_INIT 0 [] with packet_code := 40 }
      (by decide) (Or.inl (by decide))).1⟩

/-- C9. For every action other than RUN and every request state, `mod_process`
makes exactly one call to the interpreter, `unlang_signal` with that action,
and returns DONE; the request state is unchanged, the reply code is the one
`unlang_signal` left (unchanged when it does not write it), and nothing is
pushed or continued. -/
theorem signal_forwarding (env : Services) (fuel : Nat) (s : REQUEST) (action : fr_io_action_t)
    (haction : action ≠ fr_io_action_t.FR_IO_ACTION_RUN) :
    mod_process env fuel s action = some (fr_io_final_t.FR_IO_DONE, signal env s action) ∧
    (signal env s action).unlang_calls = s.unlang_calls ++ [unlang_call.signal action] ∧
    (signal env s action).request_state = s.request_state ∧
    (signal env s action).reply_code = (env.unlang_signal s action).reply_code ∧
    ((env.unlang_signal s action).reply_code = s.reply_code →
      (signal env s action).reply_code = s.reply_code) ∧
    (signal env s action).nak_fallbacks = s.nak_fallbacks ∧
    (signal env s action).component = s.component ∧
    pushes (signal env s action).unlang_calls = pushes s.unlang_calls ∧
    interprets (signal env s action).unlang_calls = interprets s.unlang_calls := by
  have hsf := signal_frame env s action
  refine ⟨by simp [mod_process, haction], hsf.2.2.2.1, hsf.1, hsf.2.2.2.2.1,
    fun h => hsf.2.2.2.2.1.trans h, hsf.2.2.1, hsf.2.2.2.2.2.2.2, ?_, ?_⟩
  · rw [hsf.2.2.2.1, pushes_signal]
  · rw [hsf.2.2.2.1]
    simp [interprets, List.countP_append]

/-- The witness of `signal_forwarding`: the action 2 on a request in a state
outside INIT, RECV and SEND. -/
theorem signal_forwarding_witness :
    (mod_process (scripted []) 0 (coa_request (request_state_t.other 9) 44 [])
      (fr_io_action_t.other 2)).map
        (fun r => (r.1, r.2.request_state, r.2.reply_code, r.2.unlang_calls))
      = some (fr_io_final_t.FR_IO_DONE, request_state_t.other 9, 44,
          [unlang_call.signal (fr_io_action_t.other 2)]) :=
  ((signal_forwarding (scripted []) 0 (coa_request (request_state_t.other 9) 44 [])
      (fr_io_action_t.other 2) (by decide)).1 ▸ (by decide))

/-- C10. At `send_reply` the outcome is DONE when the reply code is
`FR_CODE_DO_NOT_RESPOND`, else DONE when the request has a parent, else REPLY,
and neither the reply code nor the request state is changed.  `mod_process`
gets there from the RECV state when no send section is selected, and from the
SEND state when the switch on the section's result does not rerun. -/
theorem reply_finalization (env : Services) (s : REQUEST) :
    (s.reply_code = env.FR_CODE_DO_NOT_RESPOND →
      (send_reply env s).1 = fr_io_final_t.FR_IO_DONE) ∧
    (s.reply_code ≠ env.FR_CODE_DO_NOT_RESPOND → s.parent = true →
      (send_reply env s).1 = fr_io_final_t.FR_IO_DONE) ∧
    (s.reply_code ≠ env.FR_CODE_DO_NOT_RESPOND → s.parent = false →
      (send_reply env s).1 = fr_io_final_t.FR_IO_REPLY) ∧
    (send_reply env s).2.reply_code = s.reply_code ∧
    (send_reply env s).2.request_state = s.request_state ∧
    (∀ (fuel : Nat) (t : REQUEST), t.request_state = request_state_t.REQUEST_RECV →
      (interpret env t).2.master_state ≠ master_state_t.REQUEST_STOP_PROCESSING →
      (interpret env t).1 ≠ rlm_rcode_t.RLM_MODULE_YIELD →
      find_send env (after_recv env t) = none →
      mod_process env fuel t fr_io_action_t.FR_IO_ACTION_RUN
        = some (send_reply env (after_recv env t))) ∧
    (∀ (fuel : Nat) (t t2 : REQUEST), t.request_state = request_state_t.REQUEST_SEND →
      (interpret env t).2.master_state ≠ master_state_t.REQUEST_STOP_PROCESSING →
      (interpret env t).1 ≠ rlm_rcode_t.RLM_MODULE_YIELD →
      send_rcode env (interpret env t).2 (interpret env t).1
        = (send_next.goto_send_reply, t2) →
      mod_process env (fuel + 1) t fr_io_action_t.FR_IO_ACTION_RUN
        = some (send_reply env t2)) := by
  refine ⟨?_, ?_, ?_, (send_reply_frame env s).1, (send_reply_frame env s).2.1, ?_, ?_⟩
  · intro h
    simp [send_reply, h]
  · intro h1 h2
    simp [send_reply, h1, h2]
  · intro h1 h2
    unfold send_reply
    rw [if_neg h1]
    simp only [h2]
    split_ifs <;> simp_all
  · intro fuel t hphase hstop hyield hfind
    rw [mod_process_recv env fuel t hphase hstop hyield]
    show select_send env fuel (after_recv env t) = _
    simp [select_send, hfind]
  · intro fuel t t2 hphase hstop hyield hsr
    rw [mod_process_send env fuel t hphase hstop hyield, hsr]

/-- The witness of `reply_finalization`: an external request with reply code 44
gets REPLY, one with reply code 256 (Do-Not-Respond) gets DONE. -/
theorem reply_finalization_witness :
    (send_reply (scripted []) (coa_request request_state_t.REQUEST_SEND 44 [])).1
      = fr_io_final_t.FR_IO_REPLY ∧
    (send_reply (scripted []) (coa_request request_state_t.REQUEST_SEND 256 [])).1
      = fr_io_final_t.FR_IO_DONE :=
  ⟨(reply_finalization (scripted []) (coa_request request_state_t.REQUEST_SEND 44 [])).2.2.1
      (by decide) (by decide),
   (reply_finalization (scripted []) (coa_request request_state_t.REQUEST_SEND 256 [])).1
      (by decide)⟩

/-! ## Properties of every run, whatever the interpreter does -/

theorem send_reply_frame2 (env : Services) (s : REQUEST) :
    (send_reply env s).2.parent = s.parent ∧
    (send_reply env s).2.server_cs = s.server_cs ∧
    (send_reply env s).2.component = s.component ∧
    (send_reply env s).2.reply_vps = s.reply_vps := by
  unfold send_reply
  split_ifs <;> simp

theorem send_reply_reply (env : Services) (s : REQUEST)
    (h : (send_reply env s).1 = fr_io_final_t.FR_IO_REPLY) :
    s.parent = false ∧ s.reply_code ≠ env.FR_CODE_DO_NOT_RESPOND := by
  unfold send_reply at h
  split_ifs at h with h1 h2 h3
  · exact ⟨by simpa using h2, h1⟩
  · exact ⟨by simpa using h2, h1⟩

theorem send_reply_external (env : Services) (s : REQUEST)
    (h1 : s.reply_code ≠ env.FR_CODE_DO_NOT_RESPOND) (h2 : s.parent = false) :
    (send_reply env s).1 = fr_io_final_t.FR_IO_REPLY := by
  unfold send_reply
  rw [if_neg h1]
  simp only [h2]
  split_ifs <;> simp_all

theorem nak_fallback_frame2 (env : Services) (s : REQUEST) :
    (nak_fallback env s).parent = s.parent ∧
    (nak_fallback env s).server_cs = s.server_cs ∧
    (nak_fallback env s).component = s.component ∧
    (nak_fallback env s).reply_vps = s.reply_vps := by
  simp [nak_fallback]

theorem rerun_nak_frame2 (s : REQUEST) (unlang : CONF_SECTION) :
    (rerun_nak s unlang).parent = s.parent ∧
    (rerun_nak s unlang).component = s.component ∧
    (rerun_nak s unlang).master_state = s.master_state := by
  simp [rerun_nak, unlang_push_section]

theorem after_recv_frame2 (env : Services) (s : REQUEST) :
    (after_recv env s).parent = s.parent ∧
    (after_recv env s).component = s.component := by
  unfold after_recv reply_override
  split <;> cases (interpret env s).1 <;> simp [recv_rcode, interpret]

theorem recv_pushed_frame (s : REQUEST) (unlang : CONF_SECTION) :
    (recv_pushed s unlang).request_state = request_state_t.REQUEST_RECV ∧
    (recv_pushed s unlang).packet_code = s.packet_code ∧
    (recv_pushed s unlang).reply_code = s.reply_code ∧
    (recv_pushed s unlang).server_cs = s.server_cs ∧
    (recv_pushed s unlang).parent = s.parent ∧
    (recv_pushed s unlang).nak_fallbacks = s.nak_fallbacks ∧
    (recv_pushed s unlang).master_state = s.master_state ∧
    (recv_pushed s unlang).unlang_calls
      = s.unlang_calls ++ [unlang_call.push unlang rlm_rcode_t.RLM_MODULE_NOOP] := by
  simp [recv_pushed, unlang_push_section]

/-- What the switch on a send section's result leaves untouched. -/
theorem send_rcode_frame (env : Services) (s : REQUEST) (r : rlm_rcode_t) :
    (send_rcode env s r).2.parent = s.parent ∧
    (send_rcode env s r).2.packet_code = s.packet_code ∧
    (send_rcode env s r).2.server_cs = s.server_cs ∧
    (send_rcode env s r).2.request_state = s.request_state ∧
    (send_rcode env s r).2.unlang_calls = s.unlang_calls ∧
    (send_rcode env s r).2.master_state = s.master_state := by
  have h1 := nak_fallback_frame env s
  have h2 := nak_fallback_frame2 env s
  by_cases hf : failure_set r
  · rw [send_rcode_failure env s r hf]
    split_ifs
    · split <;> exact ⟨h2.1, h1.2.1, h2.2.1, h1.2.2.1, h1.2.2.2.1, h1.2.2.2.2.1⟩
    · exact ⟨rfl, rfl, rfl, rfl, rfl, rfl⟩
  · rw [send_rcode_not_failure env s r hf]
    exact ⟨rfl, rfl, rfl, rfl, rfl, rfl⟩

/-- The INIT state: the call that finds the recv section is the RECV-state call
on the request with the section pushed. -/
theorem mod_process_init_pushed (env : Services) (fuel : Nat) (s : REQUEST)
    (dv : fr_dict_enum_t) (unlang : CONF_SECTION)
    (hphase : s.request_state = request_state_t.REQUEST_INIT)
    (hdv : fr_dict_enum_by_value env.da s.packet_code = some dv)
    (hcs : cf_section_find s.server_cs "recv" dv.alias_ = some unlang) :
    mod_process env fuel s fr_io_action_t.FR_IO_ACTION_RUN
      = case_REQUEST_RECV env fuel (recv_pushed s unlang) := by
  simp [mod_process, hphase, case_REQUEST_INIT, hdv, hcs, recv_pushed]

theorem no_recv_section_iff (env : Services) (s : REQUEST) :
    no_recv_section env s = true ↔
      (fr_dict_enum_by_value env.da s.packet_code = none ∨
        ∃ dv, fr_dict_enum_by_value env.da s.packet_code = some dv ∧
          cf_section_find s.server_cs "recv" dv.alias_ = none) := by
  unfold no_recv_section
  cases h : fr_dict_enum_by_value env.da s.packet_code with
  | none => simp
  | some dv => simp [Option.isNone_iff_eq_none]

theorem no_recv_section_false (env : Services) (s : REQUEST)
    (h : no_recv_section env s = false) :
    ∃ dv unlang, fr_dict_enum_by_value env.da s.packet_code = some dv ∧
      cf_section_find s.server_cs "recv" dv.alias_ = some unlang := by
  unfold no_recv_section at h
  cases hdv : fr_dict_enum_by_value env.da s.packet_code with
  | none => simp [hdv] at h
  | some dv =>
    cases hcs : cf_section_find s.server_cs "recv" dv.alias_ with
    | none => simp [hdv, hcs] at h
    | some unlang => exact ⟨dv, unlang, rfl, hcs⟩

/-- A SEND-state run that returns, with any interpreter and any fuel: it does
not return FAIL, the request stays in the SEND state, and REPLY is returned
only for a request without parent whose reply code is not
`FR_CODE_DO_NOT_RESPOND`. -/
theorem case_send_safe (env : Services) :
    ∀ (fuel : Nat) (t : REQUEST) (f : fr_io_final_t) (s' : REQUEST),
      case_REQUEST_SEND env fuel t = some (f, s') →
      f ≠ fr_io_final_t.FR_IO_FAIL ∧ s'.parent = t.parent ∧ s'.packet_code = t.packet_code ∧
      s'.server_cs = t.server_cs ∧
      (t.request_state = request_state_t.REQUEST_SEND →
        s'.request_state = request_state_t.REQUEST_SEND) ∧
      (f = fr_io_final_t.FR_IO_REPLY →
        s'.parent = false ∧ s'.reply_code ≠ env.FR_CODE_DO_NOT_RESPOND) := by
  intro fuel
  induction fuel with
  | zero =>
    intro t f s' h
    simp [case_REQUEST_SEND] at h
  | succ n ih =>
    intro t f s' h
    have hfr := interpret_frame env t
    rw [case_REQUEST_SEND] at h
    by_cases hs : (interpret env t).2.master_state = master_state_t.REQUEST_STOP_PROCESSING
    · simp only [if_pos hs] at h
      obtain ⟨rfl, rfl⟩ := Prod.mk.inj (Option.some.inj h)
      exact ⟨by decide, hfr.2.2.2.1, hfr.2.1, hfr.2.2.1, fun ht => hfr.1.trans ht,
        fun hh => by cases hh⟩
    · by_cases hy : (interpret env t).1 = rlm_rcode_t.RLM_MODULE_YIELD
      · simp only [if_neg hs, if_pos hy] at h
        obtain ⟨rfl, rfl⟩ := Prod.mk.inj (Option.some.inj h)
        exact ⟨by decide, hfr.2.2.2.1, hfr.2.1, hfr.2.2.1, fun ht => hfr.1.trans ht,
          fun hh => by cases hh⟩
      · simp only [if_neg hs, if_neg hy] at h
        have hsf := send_rcode_frame env (interpret env t).2 (interpret env t).1
        generalize send_rcode env (interpret env t).2 (interpret env t).1 = x at h hsf
        obtain ⟨nx, s2⟩ := x
        simp only at hsf
        cases nx with
        | goto_rerun_nak unlang =>
          have htf := rerun_nak_frame s2 unlang
          have htf2 := rerun_nak_frame2 s2 unlang
          obtain ⟨q0, q1, q2, q3, q4, q5⟩ := ih _ f s' h
          exact ⟨q0, by rw [q1, htf2.1, hsf.1, hfr.2.2.2.1],
            by rw [q2, htf.2.1, hsf.2.1, hfr.2.1],
            by rw [q3, htf.2.2.2.2.1, hsf.2.2.1, hfr.2.2.1], fun _ => q4 htf.1, q5⟩
        | goto_send_reply =>
          have he : send_reply env s2 = (f, s') := Option.some.inj h
          have h1 : (send_reply env s2).1 = f := congrArg Prod.fst he
          have h2 : (send_reply env s2).2 = s' := congrArg Prod.snd he
          have hsr := send_reply_frame env s2
          have hsr2 := send_reply_frame2 env s2
          refine ⟨h1 ▸ send_reply_ne_fail env s2, ?_, ?_, ?_, ?_, ?_⟩
          · rw [← h2, hsr2.1, hsf.1, hfr.2.2.2.1]
          · rw [← h2, hsr.2.2.2.2.2, hsf.2.1, hfr.2.1]
          · rw [← h2, hsr2.2.1, hsf.2.2.1, hfr.2.2.1]
          · intro ht
            rw [← h2, hsr.2.1, hsf.2.2.2.1, hfr.1, ht]
          · intro hf
            rw [← h1] at hf
            have := send_reply_reply env s2 hf
            rw [← h2, hsr2.1, hsr.1]
            exact this

/-- The same for a run that starts in the RECV state. -/
theorem case_recv_safe (env : Services) (fuel : Nat) (s : REQUEST) (f : fr_io_final_t)
    (s' : REQUEST) (h : case_REQUEST_RECV env fuel s = some (f, s')) :
    f ≠ fr_io_final_t.FR_IO_FAIL ∧ s'.parent = s.parent ∧ s'.packet_code = s.packet_code ∧
    s'.server_cs = s.server_cs ∧
    (s.request_state = request_state_t.REQUEST_RECV →
      s'.request_state = request_state_t.REQUEST_RECV ∨
      s'.request_state = request_state_t.REQUEST_SEND) ∧
    (f = fr_io_final_t.FR_IO_REPLY →
      s'.parent = false ∧ s'.reply_code ≠ env.FR_CODE_DO_NOT_RESPOND) := by
  have hfr := interpret_frame env s
  have har := after_recv_frame env s
  have har2 := after_recv_frame2 env s
  unfold case_REQUEST_RECV at h
  by_cases hs : (interpret env s).2.master_state = master_state_t.REQUEST_STOP_PROCESSING
  · simp only [if_pos hs] at h
    obtain ⟨rfl, rfl⟩ := Prod.mk.inj (Option.some.inj h)
    exact ⟨by decide, hfr.2.2.2.1, hfr.2.1, hfr.2.2.1, fun ht => Or.inl (hfr.1.trans ht),
      fun hh => by cases hh⟩
  · by_cases hy : (interpret env s).1 = rlm_rcode_t.RLM_MODULE_YIELD
    · simp only [if_neg hs, if_pos hy] at h
      obtain ⟨rfl, rfl⟩ := Prod.mk.inj (Option.some.inj h)
      exact ⟨by decide, hfr.2.2.2.1, hfr.2.1, hfr.2.2.1, fun ht => Or.inl (hfr.1.trans ht),
        fun hh => by cases hh⟩
    · simp only [if_neg hs, if_neg hy] at h
      change select_send env fuel (after_recv env s) = some (f, s') at h
      unfold select_send at h
      cases hfs : find_send env (after_recv env s) with
      | none =>
        rw [hfs] at h
        have he : send_reply env (after_recv env s) = (f, s') := Option.some.inj h
        have h1 : (send_reply env (after_recv env s)).1 = f := congrArg Prod.fst he
        have h2 : (send_reply env (after_recv env s)).2 = s' := congrArg Prod.snd he
        have hsr := send_reply_frame env (after_recv env s)
        have hsr2 := send_reply_frame2 env (after_recv env s)
        refine ⟨h1 ▸ send_reply_ne_fail env _, ?_, ?_, ?_, ?_, ?_⟩
        · rw [← h2, hsr2.1, har2.1]
        · rw [← h2, hsr.2.2.2.2.2, har.2.1]
        · rw [← h2, hsr2.2.1, har.2.2.1]
        · intro ht
          left
          rw [← h2, hsr.2.1, har.1, ht]
        · intro hf
          rw [← h1] at hf
          have := send_reply_reply env _ hf
          rw [← h2, hsr2.1, hsr.1]
          exact this
      | some u =>
        rw [hfs] at h
        dsimp only at h
        have htf := rerun_nak_frame (after_recv env s) u
        have htf2 := rerun_nak_frame2 (after_recv env s) u
        obtain ⟨q0, q1, q2, q3, q4, q5⟩ := case_send_safe env fuel _ f s' h
        exact ⟨q0, by rw [q1, htf2.1, har2.1], by rw [q2, htf.2.1, har.2.1],
          by rw [q3, htf.2.2.2.2.1, har.2.2.1], fun _ => Or.inr (q4 htf.1), q5⟩

/-- Every call of `mod_process` that returns, with any interpreter and any
fuel: what it leaves untouched, when it may return REPLY, when it returns
FAIL, and the request state it leaves for each request state it starts in. -/
theorem mod_process_safe (env : Services) (fuel : Nat) (s : REQUEST) (a : fr_io_action_t)
    (f : fr_io_final_t) (s' : REQUEST) (h : mod_process env fuel s a = some (f, s')) :
    s'.parent = s.parent ∧ s'.packet_code = s.packet_code ∧ s'.server_cs = s.server_cs ∧
    (f = fr_io_final_t.FR_IO_REPLY →
      s'.parent = false ∧ s'.reply_code ≠ env.FR_CODE_DO_NOT_RESPOND) ∧
    (a ≠ fr_io_action_t.FR_IO_ACTION_RUN →
      f = fr_io_final_t.FR_IO_DONE ∧ s'.request_state = s.request_state) ∧
    (a = fr_io_action_t.FR_IO_ACTION_RUN → s.request_state = request_state_t.REQUEST_INIT →
      (f = fr_io_final_t.FR_IO_FAIL ∧ s'.request_state = request_state_t.REQUEST_INIT ∧
        no_recv_section env s = true) ∨
      (f ≠ fr_io_final_t.FR_IO_FAIL ∧ no_recv_section env s = false ∧
        (s'.request_state = request_state_t.REQUEST_RECV ∨
          s'.request_state = request_state_t.REQUEST_SEND))) ∧
    (a = fr_io_action_t.FR_IO_ACTION_RUN → s.request_state = request_state_t.REQUEST_RECV →
      f ≠ fr_io_final_t.FR_IO_FAIL ∧
      (s'.request_state = request_state_t.REQUEST_RECV ∨
        s'.request_state = request_state_t.REQUEST_SEND)) ∧
    (a = fr_io_action_t.FR_IO_ACTION_RUN → s.request_state = request_state_t.REQUEST_SEND →
      f ≠ fr_io_final_t.FR_IO_FAIL ∧ s'.request_state = request_state_t.REQUEST_SEND) ∧
    (a = fr_io_action_t.FR_IO_ACTION_RUN →
      ∀ k, s.request_state = request_state_t.other k → f = fr_io_final_t.FR_IO_FAIL ∧ s' = s) := by
  by_cases ha : a = fr_io_action_t.FR_IO_ACTION_RUN
  · subst ha
    cases hph : s.request_state with
    | REQUEST_INIT =>
      cases hno : no_recv_section env s with
      | true =>
        have hrun : mod_process env fuel s fr_io_action_t.FR_IO_ACTION_RUN
            = some (fr_io_final_t.FR_IO_FAIL, { s with component := "radius" }) := by
          rcases (no_recv_section_iff env s).mp hno with h1 | ⟨dv, h1, h2⟩
          · simp [mod_process, hph, case_REQUEST_INIT, h1]
          · simp [mod_process, hph, case_REQUEST_INIT, h1, h2]
        rw [hrun] at h
        obtain ⟨rfl, rfl⟩ := Prod.mk.inj (Option.some.inj h)
        refine ⟨rfl, rfl, rfl, (fun hh => by cases hh), fun hh => absurd rfl hh,
          fun _ _ => Or.inl ⟨rfl, hph, rfl⟩, (fun _ hh => by cases hh), (fun _ hh => by cases hh),
          (fun _ k hh => by cases hh)⟩
      | false =>
        obtain ⟨dv, unlang, hdv, hcs⟩ := no_recv_section_false env s hno
        rw [mod_process_init_pushed env fuel s dv unlang hph hdv hcs] at h
        have hp := recv_pushed_frame s unlang
        obtain ⟨q0, q1, q2, q3, q4, q5⟩ := case_recv_safe env fuel _ f s' h
        refine ⟨by rw [q1, hp.2.2.2.2.1], by rw [q2, hp.2.1], by rw [q3, hp.2.2.2.1], q5,
          fun hh => absurd rfl hh, fun _ _ => Or.inr ⟨q0, rfl, q4 hp.1⟩,
          (fun _ hh => by cases hh), (fun _ hh => by cases hh), (fun _ k hh => by cases hh)⟩
    | REQUEST_RECV =>
      have h' : case_REQUEST_RECV env fuel s = some (f, s') := by
        simpa [mod_process, hph] using h
      obtain ⟨q0, q1, q2, q3, q4, q5⟩ := case_recv_safe env fuel s f s' h'
      exact ⟨q1, q2, q3, q5, fun hh => absurd rfl hh, (fun _ hh => by cases hh),
        fun _ _ => ⟨q0, q4 hph⟩, (fun _ hh => by cases hh), (fun _ k hh => by cases hh)⟩
    | REQUEST_SEND =>
      have h' : case_REQUEST_SEND env fuel s = some (f, s') := by
        simpa [mod_process, hph] using h
      obtain ⟨q0, q1, q2, q3, q4, q5⟩ := case_send_safe env fuel s f s' h'
      exact ⟨q1, q2, q3, q5, fun hh => absurd rfl hh, (fun _ hh => by cases hh),
        (fun _ hh => by cases hh), fun _ _ => ⟨q0, q4 hph⟩, (fun _ k hh => by cases hh)⟩
    | other k =>
      have h' : some (fr_io_final_t.FR_IO_FAIL, s) = some (f, s') := by
        simpa [mod_process, hph] using h
      obtain ⟨rfl, rfl⟩ := Prod.mk.inj (Option.some.inj h')
      exact ⟨rfl, rfl, rfl, (fun hh => by cases hh), fun hh => absurd rfl hh,
        (fun _ hh => by cases hh), (fun _ hh => by cases hh), (fun _ hh => by cases hh),
        fun _ _ _ => ⟨rfl, rfl⟩⟩
  · have hsf := signal_frame env s a
    have h' : some (fr_io_final_t.FR_IO_DONE, signal env s a) = some (f, s') := by
      simpa [mod_process, ha] using h
    obtain ⟨rfl, rfl⟩ := Prod.mk.inj (Option.some.inj h')
    exact ⟨hsf.2.2.2.2.2.2.1, hsf.2.1, hsf.2.2.2.2.2.1, (fun hh => by cases hh),
      fun _ => ⟨rfl, hsf.1⟩, fun hh => absurd hh ha, fun hh => absurd hh ha,
      fun hh => absurd hh ha, fun hh => absurd hh ha⟩

/-- Without a condition on the interpreter the loop through `rerun_nak` need
not end: with the interpreter `contrary`, which puts the ACK code back and
fails every time, no amount of fuel suffices for a CoA-Request in the SEND
state. -/
theorem rerun_nak_may_loop :
    ∀ (fuel : Nat) (t : REQUEST), t.packet_code = 43 → t.server_cs = coa_server →
      t.master_state = master_state_t.REQUEST_ACTIVE →
      case_REQUEST_SEND contrary fuel t = none := by
  intro fuel
  induction fuel with
  | zero => intro t _ _ _; rfl
  | succ n ih =>
    intro t h1 h2 h3
    have hs : (interpret contrary t).2.master_state ≠ master_state_t.REQUEST_STOP_PROCESSING := by
      simp [interpret, contrary, h3]
    have hy : (interpret contrary t).1 ≠ rlm_rcode_t.RLM_MODULE_YIELD := by
      simp [interpret, contrary]
    have hf : failure_set (interpret contrary t).1 := by
      simp [interpret, contrary, failure_set]
    have hg : (interpret contrary t).2.reply_code
        = ((interpret contrary t).2.packet_code + 1) % UINT32_MOD := by
      simp [interpret, contrary, h1, UINT32_MOD]
    have hfind : find_send contrary (nak_fallback contrary (interpret contrary t).2)
        = some ⟨"send", "CoA-NAK", "default"⟩ := by
      simp [find_send, nak_fallback, interpret, contrary, h1, h2, UINT32_MOD]
      decide
    rw [case_send_step contrary n t hs hy, send_rcode_failure contrary _ _ hf, if_pos hg, hfind]
    apply ih
    · simp [rerun_nak, unlang_push_section, nak_fallback, interpret, h1]
    · simp [rerun_nak, unlang_push_section, nak_fallback, interpret, h2]
    · simp [rerun_nak, unlang_push_section, nak_fallback, interpret, contrary, h3]

/-- A RUN call in the RECV or SEND state during which the interpreter yields
without the request being stopped. -/
theorem mod_process_yield (env : Services) (fuel : Nat) (s : REQUEST)
    (hphase : s.request_state = request_state_t.REQUEST_RECV ∨
      s.request_state = request_state_t.REQUEST_SEND)
    (hstop : (interpret env s).2.master_state ≠ master_state_t.REQUEST_STOP_PROCESSING)
    (hyield : (interpret env s).1 = rlm_rcode_t.RLM_MODULE_YIELD) :
    mod_process env (fuel + 1) s fr_io_action_t.FR_IO_ACTION_RUN
      = some (fr_io_final_t.FR_IO_YIELD, (interpret env s).2) := by
  rcases hphase with h | h
  · simp [mod_process, h, case_REQUEST_RECV, hstop, hyield]
  · simp [mod_process, h, case_REQUEST_SEND, hstop, hyield]

theorem keeps_yielding_succ (env : Services) (n : Nat) (s : REQUEST) :
    keeps_yielding env (n + 1) s = true ↔
      (interpret env s).2.master_state ≠ master_state_t.REQUEST_STOP_PROCESSING ∧
      (interpret env s).1 = rlm_rcode_t.RLM_MODULE_YIELD ∧
      keeps_yielding env n (interpret env s).2 = true := by
  simp [keeps_yielding, and_assoc]

/-- What `n` calls of the interpreter leave untouched. -/
theorem resumed_frame (env : Services) (n : Nat) :
    ∀ s : REQUEST,
      (resumed env n s).request_state = s.request_state ∧
      (resumed env n s).packet_code = s.packet_code ∧
      (resumed env n s).nak_fallbacks = s.nak_fallbacks ∧
      pushes (resumed env n s).unlang_calls = pushes s.unlang_calls ∧
      interprets (resumed env n s).unlang_calls = interprets s.unlang_calls + n ∧
      ((∀ t : REQUEST, (env.unlang_interpret_continue t).2.reply_code = t.reply_code) →
        (resumed env n s).reply_code = s.reply_code) := by
  induction n with
  | zero => exact fun s => ⟨rfl, rfl, rfl, rfl, rfl, fun _ => rfl⟩
  | succ n ih =>
    intro s
    have hfr := interpret_frame env s
    obtain ⟨h1, h2, h3, h4, h5, h6⟩ := ih (interpret env s).2
    refine ⟨h1.trans hfr.1, h2.trans hfr.2.1, h3.trans hfr.2.2.2.2.2.1, ?_, ?_, ?_⟩
    · show pushes (resumed env n (interpret env s).2).unlang_calls = _
      rw [h4, hfr.2.2.2.2.2.2.1, pushes_interpret]
    · show interprets (resumed env n (interpret env s).2).unlang_calls = _
      rw [h5, hfr.2.2.2.2.2.2.1]
      simp [interprets, List.countP_append]
      omega
    · intro hk
      show (resumed env n (interpret env s).2).reply_code = _
      rw [h6 hk, hfr.2.2.2.2.2.2.2, hk]

/-- As long as the interpreter yields, every RUN call returns YIELD and the
request is the one the interpreter left. -/
theorem yielding_run (env : Services) (fuel : Nat) (n : Nat) :
    ∀ s : REQUEST,
      (s.request_state = request_state_t.REQUEST_RECV ∨
        s.request_state = request_state_t.REQUEST_SEND) →
      keeps_yielding env (n + 1) s = true →
      run_to_final env (fuel + 1) n s
        = some (fr_io_final_t.FR_IO_YIELD, resumed env (n + 1) s) ∧
      drive env (fuel + 1) s (List.replicate (n + 1) fr_io_action_t.FR_IO_ACTION_RUN)
        = some (resumed env (n + 1) s) := by
  induction n with
  | zero =>
    intro s hphase hk
    obtain ⟨h1, h2, _⟩ := (keeps_yielding_succ env 0 s).mp hk
    have hrun := mod_process_yield env fuel s hphase h1 h2
    refine ⟨?_, ?_⟩
    · rw [run_to_final, hrun]
      rfl
    · simp only [List.replicate, drive, hrun]
      rfl
  | succ n ih =>
    intro s hphase hk
    obtain ⟨h1, h2, h3⟩ := (keeps_yielding_succ env (n + 1) s).mp hk
    have hrun := mod_process_yield env fuel s hphase h1 h2
    have hph : (interpret env s).2.request_state = request_state_t.REQUEST_RECV ∨
        (interpret env s).2.request_state = request_state_t.REQUEST_SEND := by
      rw [(interpret_frame env s).1]
      exact hphase
    obtain ⟨q1, q2⟩ := ih (interpret env s).2 hph h3
    refine ⟨?_, ?_⟩
    · rw [run_to_final, hrun]
      exact q1
    · rw [List.replicate, drive, hrun]
      exact q2

/-- The send section looked up after the fallback: the one bound to the alias
of `packet code + 2`. -/
theorem find_send_nak_fallback (env : Services) (t : REQUEST) :
    find_send env (nak_fallback env t) =
      (fr_dict_enum_by_value env.da ((t.packet_code + 2) % UINT32_MOD)).bind
        (fun dv => cf_section_find t.server_cs "send" dv.alias_) := by
  unfold find_send
  rw [(nak_fallback_frame env t).1, (nak_fallback_frame2 env t).2.1]
  cases fr_dict_enum_by_value env.da ((t.packet_code + 2) % UINT32_MOD) <;> rfl

/-- A RUN call in the SEND state whose section completes with a result of the
failure set while the reply code is `packet code + 1`: the fallback. -/
theorem mod_process_fallback (env : Services) (fuel : Nat) (s : REQUEST)
    (hphase : s.request_state = request_state_t.REQUEST_SEND)
    (hstop : (interpret env s).2.master_state ≠ master_state_t.REQUEST_STOP_PROCESSING)
    (hyield : (interpret env s).1 ≠ rlm_rcode_t.RLM_MODULE_YIELD)
    (hfail : failure_set (interpret env s).1)
    (hack : (interpret env s).2.reply_code = (s.packet_code + 1) % UINT32_MOD) :
    mod_process env (fuel + 1) s fr_io_action_t.FR_IO_ACTION_RUN =
      match find_send env (nak_fallback env (interpret env s).2) with
      | some unlang =>
        case_REQUEST_SEND env fuel (rerun_nak (nak_fallback env (interpret env s).2) unlang)
      | none => some (send_reply env (nak_fallback env (interpret env s).2)) := by
  have hg : (interpret env s).2.reply_code
      = ((interpret env s).2.packet_code + 1) % UINT32_MOD := by
    rw [hack, (interpret_frame env s).2.1]
  rw [mod_process_send env fuel s hphase hstop hyield, send_rcode_failure env _ _ hfail,
    if_pos hg]
  cases find_send env (nak_fallback env (interpret env s).2) <;> rfl

/-! ## Lemmas on the alias of the reply code -/

theorem find_send_congr (env : Services) (s1 s2 : REQUEST)
    (h1 : s1.reply_code = s2.reply_code) (h2 : s1.server_cs = s2.server_cs) :
    find_send env s1 = find_send env s2 := by
  unfold find_send
  rw [h1, h2]

theorem find_send_some (env : Services) (s : REQUEST) (h : find_send env s ≠ none) :
    ∃ dv unlang, fr_dict_enum_by_value env.da s.reply_code = some dv ∧
      cf_section_find s.server_cs "send" dv.alias_ = some unlang := by
  unfold find_send at h
  cases hdv : fr_dict_enum_by_value env.da s.reply_code with
  | none => simp [hdv] at h
  | some dv =>
    cases hcs : cf_section_find s.server_cs "send" dv.alias_ with
    | none => simp [hdv, hcs] at h
    | some unlang => exact ⟨dv, unlang, rfl, hcs⟩

/-- The switch on a send section's result records at most one lookup, that of
`packet code + 1`. -/
theorem send_rcode_record (env : Services) (s : REQUEST) (r : rlm_rcode_t) :
    (send_rcode env s r).2.nak_fallbacks = s.nak_fallbacks ∨
    (send_rcode env s r).2.nak_fallbacks = s.nak_fallbacks ++
      [fr_dict_enum_by_value env.da ((s.packet_code + 1) % UINT32_MOD)] := by
  by_cases hf : failure_set r
  · rw [send_rcode_failure env s r hf]
    by_cases hg : s.reply_code = (s.packet_code + 1) % UINT32_MOD
    · rw [if_pos hg]
      right
      have h := (nak_fallback_frame env s).2.2.2.2.2
      rw [hg] at h
      split <;> exact h
    · rw [if_neg hg]
      exact Or.inl rfl
  · rw [send_rcode_not_failure env s r hf]
    exact Or.inl rfl

/-- Whatever the interpreter does, a SEND-state run only adds lookups of
`packet code + 1` to the fallback record. -/
theorem case_send_record (env : Services) :
    ∀ (fuel : Nat) (t : REQUEST) (f : fr_io_final_t) (s' : REQUEST),
      case_REQUEST_SEND env fuel t = some (f, s') →
      ∃ extra, s'.nak_fallbacks = t.nak_fallbacks ++ extra ∧
        ∀ e ∈ extra, e = fr_dict_enum_by_value env.da ((t.packet_code + 1) % UINT32_MOD) := by
  intro fuel
  induction fuel with
  | zero =>
    intro t f s' h
    simp [case_REQUEST_SEND] at h
  | succ n ih =>
    intro t f s' h
    have hfr := interpret_frame env t
    rw [case_REQUEST_SEND] at h
    by_cases hs : (interpret env t).2.master_state = master_state_t.REQUEST_STOP_PROCESSING
    · simp only [if_pos hs] at h
      obtain ⟨rfl, rfl⟩ := Prod.mk.inj (Option.some.inj h)
      exact ⟨[], by rw [hfr.2.2.2.2.2.1, List.append_nil], fun e he => by cases he⟩
    · by_cases hy : (interpret env t).1 = rlm_rcode_t.RLM_MODULE_YIELD
      · simp only [if_neg hs, if_pos hy] at h
        obtain ⟨rfl, rfl⟩ := Prod.mk.inj (Option.some.inj h)
        exact ⟨[], by rw [hfr.2.2.2.2.2.1, List.append_nil], fun e he => by cases he⟩
      · simp only [if_neg hs, if_neg hy] at h
        have hsf := send_rcode_frame env (interpret env t).2 (interpret env t).1
        have hrec := send_rcode_record env (interpret env t).2 (interpret env t).1
        rw [hfr.2.1, hfr.2.2.2.2.2.1] at hrec
        generalize send_rcode env (interpret env t).2 (interpret env t).1 = x at h hsf hrec
        obtain ⟨nx, s2⟩ := x
        simp only at hsf hrec
        have hrec' : ∃ first, s2.nak_fallbacks = t.nak_fallbacks ++ first ∧
            ∀ e ∈ first,
              e = fr_dict_enum_by_value env.da ((t.packet_code + 1) % UINT32_MOD) := by
          rcases hrec with h1 | h1
          · exact ⟨[], by rw [h1, List.append_nil], fun e he => by cases he⟩
          · exact ⟨_, h1, fun e he => List.mem_singleton.mp he⟩
        obtain ⟨first, hf1, hf2⟩ := hrec'
        cases nx with
        | goto_rerun_nak unlang =>
          have htf := rerun_nak_frame s2 unlang
          obtain ⟨extra, h1, h2⟩ := ih _ f s' h
          have h1' : s'.nak_fallbacks = s2.nak_fallbacks ++ extra := h1
          rw [htf.2.1, hsf.2.1, hfr.2.1] at h2
          refine ⟨first ++ extra, by rw [h1', hf1, List.append_assoc], ?_⟩
          intro e he
          rcases List.mem_append.mp he with he | he
          · exact hf2 e he
          · exact h2 e he
        | goto_send_reply =>
          have he : send_reply env s2 = (f, s') := Option.some.inj h
          have h2 : (send_reply env s2).2 = s' := congrArg Prod.snd he
          refine ⟨first, ?_, hf2⟩
          rw [← h2, (send_reply_frame env s2).2.2.2.1, hf1]

/-- A SEND-state run on a request whose reply code has an alias with a send
section, or is `packet code + 2`, with an interpreter that leaves the reply
code of SEND-state requests alone: the same holds afterwards, and every
lookup recorded by the fallback branch found an entry. -/
theorem case_send_alias (env : Services)
    (hkeep : ∀ t : REQUEST, t.request_state = request_state_t.REQUEST_SEND →
      (env.unlang_interpret_continue t).2.reply_code = t.reply_code)
    (t : REQUEST) (ht : t.request_state = request_state_t.REQUEST_SEND)
    (hinv : find_send env t ≠ none ∨ t.reply_code = (t.packet_code + 2) % UINT32_MOD) :
    ∃ f s', (∀ n, case_REQUEST_SEND env (n + 2) t = some (f, s')) ∧
      s'.request_state = request_state_t.REQUEST_SEND ∧
      (find_send env s' ≠ none ∨ s'.reply_code = (s'.packet_code + 2) % UINT32_MOD) ∧
      ∃ extra, s'.nak_fallbacks = t.nak_fallbacks ++ extra ∧ ∀ e ∈ extra, e ≠ none := by
  obtain ⟨f, s', hrun, _, h1, h2, _, h4⟩ := case_send_total env hkeep t ht
  obtain ⟨_, _, _, hcs, _, _⟩ := case_send_safe env 2 t f s' (hrun 0)
  refine ⟨f, s', hrun, h1, ?_, ?_⟩
  · rcases h4 with ⟨_, h5⟩ | ⟨_, _, h5⟩
    · rcases hinv with hi | hi
      · left
        rw [find_send_congr env s' t h5 hcs]
        exact hi
      · right
        rw [h5, h2, hi]
    · right
      rw [h5, h2]
  · rcases h4 with ⟨h5, _⟩ | ⟨_, h6, _⟩
    · exact ⟨[], by rw [h5, List.append_nil], fun e he => by cases he⟩
    · obtain ⟨extra, h7, h8⟩ := case_send_record env 2 t f s' (hrun 0)
      refine ⟨extra, h7, fun e he => ?_⟩
      rw [h8 e he, ← h6]
      rcases hinv with hi | hi
      · obtain ⟨dv, _, hdv, _⟩ := find_send_some env t hi
        rw [hdv]
        exact Option.some_ne_none dv
      · exact absurd (h6.symm.trans hi) (ack_ne_nak t.packet_code)

/-- The same for a run that starts in the RECV state. -/
theorem case_recv_alias (env : Services)
    (hkeep : ∀ t : REQUEST, t.request_state = request_state_t.REQUEST_SEND →
      (env.unlang_interpret_continue t).2.reply_code = t.reply_code)
    (s : REQUEST) (hs : s.request_state = request_state_t.REQUEST_RECV) :
    ∃ f s', (∀ n, case_REQUEST_RECV env (n + 2) s = some (f, s')) ∧
      (s'.request_state = request_state_t.REQUEST_SEND →
        find_send env s' ≠ none ∨ s'.reply_code = (s'.packet_code + 2) % UINT32_MOD) ∧
      ∃ extra, s'.nak_fallbacks = s.nak_fallbacks ++ extra ∧ ∀ e ∈ extra, e ≠ none := by
  have hfr := interpret_frame env s
  have har := after_recv_frame env s
  have hne : request_state_t.REQUEST_RECV ≠ request_state_t.REQUEST_SEND := by decide
  by_cases hst : (interpret env s).2.master_state = master_state_t.REQUEST_STOP_PROCESSING
  · refine ⟨fr_io_final_t.FR_IO_DONE, (interpret env s).2,
      fun n => by simp only [case_REQUEST_RECV, if_pos hst], ?_,
      ⟨[], by rw [hfr.2.2.2.2.2.1, List.append_nil], fun e he => by cases he⟩⟩
    intro h
    rw [hfr.1, hs] at h
    exact absurd h hne
  by_cases hy : (interpret env s).1 = rlm_rcode_t.RLM_MODULE_YIELD
  · refine ⟨fr_io_final_t.FR_IO_YIELD, (interpret env s).2,
      fun n => by simp only [case_REQUEST_RECV, if_neg hst, if_pos hy], ?_,
      ⟨[], by rw [hfr.2.2.2.2.2.1, List.append_nil], fun e he => by cases he⟩⟩
    intro h
    rw [hfr.1, hs] at h
    exact absurd h hne
  have hstep : ∀ n, case_REQUEST_RECV env n s = select_send env n (after_recv env s) := by
    intro n
    simp only [case_REQUEST_RECV, if_neg hst, if_neg hy, after_recv]
  cases hfs : find_send env (after_recv env s) with
  | none =>
    have hsr := send_reply_frame env (after_recv env s)
    refine ⟨(send_reply env (after_recv env s)).1, (send_reply env (after_recv env s)).2,
      fun n => by rw [hstep, select_send, hfs], ?_,
      ⟨[], by rw [hsr.2.2.2.1, har.2.2.2.1, List.append_nil], fun e he => by cases he⟩⟩
    intro h
    rw [hsr.2.1, har.1, hs] at h
    exact absurd h hne
  | some u =>
    have htf := rerun_nak_frame (after_recv env s) u
    have hfind : find_send env (rerun_nak (after_recv env s) u) ≠ none := by
      rw [find_send_congr env _ (after_recv env s) htf.2.2.1 htf.2.2.2.2.1, hfs]
      exact Option.some_ne_none u
    obtain ⟨f, s', hrun, _, h2, extra, h3, h4⟩ :=
      case_send_alias env hkeep (rerun_nak (after_recv env s) u) htf.1 (Or.inl hfind)
    refine ⟨f, s', fun n => ?_, fun _ => h2, extra, ?_, h4⟩
    · rw [hstep, select_send, hfs]
      exact hrun n
    · rw [h3, htf.2.2.2.1, har.2.2.2.1]

/-- One call of `mod_process` keeps the invariant of the SEND state, and every
lookup recorded by the fallback branch found an entry. -/
theorem mod_process_alias (env : Services)
    (hkeep : ∀ t : REQUEST, t.request_state = request_state_t.REQUEST_SEND →
      (env.unlang_interpret_continue t).2.reply_code = t.reply_code)
    (hsig : ∀ (t : REQUEST) (a : fr_io_action_t),
      (env.unlang_signal t a).reply_code = t.reply_code)
    (s : REQUEST) (a : fr_io_action_t)
    (hinv : s.request_state = request_state_t.REQUEST_SEND →
      find_send env s ≠ none ∨ s.reply_code = (s.packet_code + 2) % UINT32_MOD) :
    ∃ f s', (∀ n, mod_process env (n + 2) s a = some (f, s')) ∧
      (s'.request_state = request_state_t.REQUEST_SEND →
        find_send env s' ≠ none ∨ s'.reply_code = (s'.packet_code + 2) % UINT32_MOD) ∧
      ∃ extra, s'.nak_fallbacks = s.nak_fallbacks ++ extra ∧ ∀ e ∈ extra, e ≠ none := by
  by_cases ha : a = fr_io_action_t.FR_IO_ACTION_RUN
  · subst ha
    cases hph : s.request_state with
    | REQUEST_INIT =>
      cases hno : no_recv_section env s with
      | true =>
        refine ⟨fr_io_final_t.FR_IO_FAIL, { s with component := "radius" }, fun n => ?_, ?_,
          ⟨[], by simp, fun e he => by cases he⟩⟩
        · rcases (no_recv_section_iff env s).mp hno with h1 | ⟨dv, h1, h2⟩
          · simp [mod_process, hph, case_REQUEST_INIT, h1]
          · simp [mod_process, hph, case_REQUEST_INIT, h1, h2]
        · intro h
          rw [show ({ s with component := "radius" } : REQUEST).request_state
            = s.request_state from rfl, hph] at h
          cases h
      | false =>
        obtain ⟨dv, unlang, hdv, hcs⟩ := no_recv_section_false env s hno
        have hp := recv_pushed_frame s unlang
        obtain ⟨f, s', hrun, h1, extra, h2, h3⟩ :=
          case_recv_alias env hkeep (recv_pushed s unlang) hp.1
        refine ⟨f, s', fun n => ?_, h1, extra, by rw [h2, hp.2.2.2.2.2.1], h3⟩
        rw [mod_process_init_pushed env (n + 2) s dv unlang hph hdv hcs]
        exact hrun n
    | REQUEST_RECV =>
      obtain ⟨f, s', hrun, h1, h2⟩ := case_recv_alias env hkeep s hph
      refine ⟨f, s', fun n => ?_, h1, h2⟩
      simpa [mod_process, hph] using hrun n
    | REQUEST_SEND =>
      obtain ⟨f, s', hrun, _, h1, h2⟩ := case_send_alias env hkeep s hph (hinv hph)
      refine ⟨f, s', fun n => ?_, fun _ => h1, h2⟩
      simpa [mod_process, hph] using hrun n
    | other k =>
      refine ⟨fr_io_final_t.FR_IO_FAIL, s, fun n => by simp [mod_process, hph], ?_,
        ⟨[], by simp, fun e he => by cases he⟩⟩
      intro h
      rw [hph] at h
      cases h
  · have hsf := signal_frame env s a
    refine ⟨fr_io_final_t.FR_IO_DONE, signal env s a, fun n => by simp [mod_process, ha], ?_,
      ⟨[], by rw [hsf.2.2.1, List.append_nil], fun e he => by cases he⟩⟩
    intro h
    rw [hsf.1] at h
    have hrc : (signal env s a).reply_code = s.reply_code := by
      rw [hsf.2.2.2.2.1, hsig]
    rcases hinv h with hi | hi
    · left
      rw [find_send_congr env _ s hrc hsf.2.2.2.2.2.1]
      exact hi
    · right
      rw [hrc, hsf.2.1, hi]

/-- The same over every sequence of calls. -/
theorem drive_alias (env : Services)
    (hkeep : ∀ t : REQUEST, t.request_state = request_state_t.REQUEST_SEND →
      (env.unlang_interpret_continue t).2.reply_code = t.reply_code)
    (hsig : ∀ (t : REQUEST) (a : fr_io_action_t),
      (env.unlang_signal t a).reply_code = t.reply_code)
    (actions : List fr_io_action_t) :
    ∀ s : REQUEST,
      (s.request_state = request_state_t.REQUEST_SEND →
        find_send env s ≠ none ∨ s.reply_code = (s.packet_code + 2) % UINT32_MOD) →
      ∃ s', (∀ n, drive env (n + 2) s actions = some s') ∧
        (s'.request_state = request_state_t.REQUEST_SEND →
          find_send env s' ≠ none ∨ s'.reply_code = (s'.packet_code + 2) % UINT32_MOD) ∧
        ∃ extra, s'.nak_fallbacks = s.nak_fallbacks ++ extra ∧ ∀ e ∈ extra, e ≠ none := by
  induction actions with
  | nil =>
    exact fun s hinv => ⟨s, fun _ => rfl, hinv, [], by simp, fun e he => by cases he⟩
  | cons a rest ih =>
    intro s hinv
    obtain ⟨f, s1, hrun, h1, first, h2, h3⟩ := mod_process_alias env hkeep hsig s a hinv
    obtain ⟨s', hd, h4, extra, h5, h6⟩ := ih s1 h1
    refine ⟨s', fun n => ?_, h4, first ++ extra, by rw [h5, h2, List.append_assoc], ?_⟩
    · simp only [drive, hrun n]
      exact hd n
    · intro e he
      rcases List.mem_append.mp he with he | he
      · exact h3 e he
      · exact h6 e he

/-! ## Outcomes and phases -/

/-- C11. For a request whose parent is set, whatever the action, the request
state, the dictionary, the sections and the interpreter: every value that
`mod_process` returns is DONE, YIELD or FAIL, never REPLY; and with an
interpreter that leaves the reply code of SEND-state requests alone it does
return, with any fuel from 2 on. -/
theorem internal_never_reply (env : Services) (s : REQUEST) (a : fr_io_action_t)
    (hparent : s.parent = true) :
    (∀ (fuel : Nat) (f : fr_io_final_t) (s' : REQUEST),
      mod_process env fuel s a = some (f, s') →
      f ≠ fr_io_final_t.FR_IO_REPLY ∧
      (f = fr_io_final_t.FR_IO_DONE ∨ f = fr_io_final_t.FR_IO_YIELD ∨
        f = fr_io_final_t.FR_IO_FAIL)) ∧
    ((∀ t : REQUEST, t.request_state = request_state_t.REQUEST_SEND →
        (env.unlang_interpret_continue t).2.reply_code = t.reply_code) →
      ∃ f s', (∀ n, mod_process env (n + 2) s a = some (f, s')) ∧
        f ≠ fr_io_final_t.FR_IO_REPLY) := by
  have hsafe : ∀ (fuel : Nat) (f : fr_io_final_t) (s' : REQUEST),
      mod_process env fuel s a = some (f, s') → f ≠ fr_io_final_t.FR_IO_REPLY := by
    intro fuel f s' h hf
    obtain ⟨q1, _, _, q4, _⟩ := mod_process_safe env fuel s a f s' h
    have hp := (q4 hf).1
    rw [q1, hparent] at hp
    cases hp
  refine ⟨fun fuel f s' h => ⟨hsafe fuel f s' h, ?_⟩, fun hkeep => ?_⟩
  · have hne := hsafe fuel f s' h
    cases f <;> simp_all
  · obtain ⟨f, s', hrun, _⟩ := mod_process_total env hkeep s a
    exact ⟨f, s', hrun, hsafe 2 f s' (hrun 0)⟩

/-- The witness of `internal_never_reply`: an internally generated CoA-Request
goes from INIT through both sections and ends with DONE. -/
theorem internal_never_reply_witness :
    ({ coa_request request_state_t.REQUEST_INIT 0 [] with parent := true } : REQUEST).parent
      = true ∧
    (mod_process (scripted []) 2
      { coa_request request_state_t.REQUEST_INIT 0 [] with parent := true }
      fr_io_action_t.FR_IO_ACTION_RUN).map (fun r => (r.1, r.2.reply_code))
      = some (fr_io_final_t.FR_IO_DONE, 44) ∧
    ∃ f s', (∀ n, mod_process (scripted []) (n + 2)
      { coa_request request_state_t.REQUEST_INIT 0 [] with parent := true }
      fr_io_action_t.FR_IO_ACTION_RUN = some (f, s')) ∧ f ≠ fr_io_final_t.FR_IO_REPLY :=
  ⟨by decide, by decide,
   (internal_never_reply (scripted [])
      { coa_request request_state_t.REQUEST_INIT 0 [] with parent := true }
      fr_io_action_t.FR_IO_ACTION_RUN (by decide)).2 (fun _ _ => rfl)⟩

/-- C12. With the phases ordered INIT, RECEIVE, SEND: after every call of
`mod_process` that returns (any action, any interpreter, any configuration,
any fuel) on a request in one of the three phases, and after every sequence
of such calls, the phase is one of the three and not before the phase the
request was in; a request in SEND stays in SEND, and the fallback, which
keeps the state and re-enters through `rerun_nak`, leaves it at SEND.  With
an interpreter that leaves the reply code of SEND-state requests alone the
call does return, with any fuel from 2 on. -/
theorem phase_monotone (env : Services) (s : REQUEST) (a : fr_io_action_t)
    (hphase : s.request_state = request_state_t.REQUEST_INIT ∨
      s.request_state = request_state_t.REQUEST_RECV ∨
      s.request_state = request_state_t.REQUEST_SEND) :
    (∀ (fuel : Nat) (f : fr_io_final_t) (s' : REQUEST),
      mod_process env fuel s a = some (f, s') →
      (s'.request_state = request_state_t.REQUEST_INIT ∨
        s'.request_state = request_state_t.REQUEST_RECV ∨
        s'.request_state = request_state_t.REQUEST_SEND) ∧
      phase_rank s.request_state ≤ phase_rank s'.request_state ∧
      (s.request_state = request_state_t.REQUEST_SEND →
        s'.request_state = request_state_t.REQUEST_SEND)) ∧
    (∀ (fuel : Nat) (actions : List fr_io_action_t) (s' : REQUEST),
      drive env fuel s actions = some s' →
      (s'.request_state = request_state_t.REQUEST_INIT ∨
        s'.request_state = request_state_t.REQUEST_RECV ∨
        s'.request_state = request_state_t.REQUEST_SEND) ∧
      phase_rank s.request_state ≤ phase_rank s'.request_state) ∧
    (∀ (t : REQUEST) (unlang : CONF_SECTION),
      (nak_fallback env t).request_state = t.request_state ∧
      (rerun_nak (nak_fallback env t) unlang).request_state
        = request_state_t.REQUEST_SEND) ∧
    ((∀ t : REQUEST, t.request_state = request_state_t.REQUEST_SEND →
        (env.unlang_interpret_continue t).2.reply_code = t.reply_code) →
      ∃ f s', ∀ n, mod_process env (n + 2) s a = some (f, s')) := by
  have hcall : ∀ (t : REQUEST) (b : fr_io_action_t) (fuel : Nat) (f : fr_io_final_t)
      (s' : REQUEST),
      (t.request_state = request_state_t.REQUEST_INIT ∨
        t.request_state = request_state_t.REQUEST_RECV ∨
        t.request_state = request_state_t.REQUEST_SEND) →
      mod_process env fuel t b = some (f, s') →
      (s'.request_state = request_state_t.REQUEST_INIT ∨
        s'.request_state = request_state_t.REQUEST_RECV ∨
        s'.request_state = request_state_t.REQUEST_SEND) ∧
      phase_rank t.request_state ≤ phase_rank s'.request_state ∧
      (t.request_state = request_state_t.REQUEST_SEND →
        s'.request_state = request_state_t.REQUEST_SEND) := by
    intro t b fuel f s' ht h
    obtain ⟨_, _, _, _, q5, q6, q7, q8, _⟩ := mod_process_safe env fuel t b f s' h
    by_cases hb : b = fr_io_action_t.FR_IO_ACTION_RUN
    · rcases ht with ht | ht | ht
      · rcases q6 hb ht with ⟨_, h1, _⟩ | ⟨_, _, h1 | h1⟩ <;>
          simp [ht, h1, phase_rank]
      · rcases (q7 hb ht).2 with h1 | h1 <;> simp [ht, h1, phase_rank]
      · have h1 := (q8 hb ht).2
        simp [ht, h1, phase_rank]
    · have h1 := (q5 hb).2
      rw [h1]
      exact ⟨ht, le_refl _, fun hh => hh⟩
  refine ⟨fun fuel f s' h => hcall s a fuel f s' hphase h, ?_,
    fun t unlang => ⟨(nak_fallback_frame env t).2.2.1, (rerun_nak_frame _ unlang).1⟩,
    fun hkeep => ?_⟩
  · intro fuel actions
    induction actions generalizing s with
    | nil =>
      intro s' h
      obtain rfl : s = s' := Option.some.inj h
      exact ⟨hphase, le_refl _⟩
    | cons b rest ih =>
      intro s' h
      rw [drive] at h
      cases hm : mod_process env fuel s b with
      | none =>
        rw [hm] at h
        cases h
      | some r =>
        obtain ⟨f1, s1⟩ := r
        rw [hm] at h
        obtain ⟨p1, p2, _⟩ := hcall s b fuel f1 s1 hphase hm
        obtain ⟨q1, q2⟩ := ih s1 p1 s' h
        exact ⟨q1, le_trans p2 q2⟩
  · obtain ⟨f, s', hrun, _⟩ := mod_process_total env hkeep s a
    exact ⟨f, s', hrun⟩

/-- The witness of `phase_monotone`: a CoA-Request in INIT whose two sections
return OK is in SEND after the call. -/
theorem phase_monotone_witness :
    (mod_process (scripted []) 2 (coa_request request_state_t.REQUEST_INIT 0 [])
      fr_io_action_t.FR_IO_ACTION_RUN).map (fun r => r.2.request_state)
      = some request_state_t.REQUEST_SEND ∧
    ∃ f s', ∀ n, mod_process (scripted []) (n + 2)
      (coa_request request_state_t.REQUEST_INIT 0 [])
      fr_io_action_t.FR_IO_ACTION_RUN = some (f, s') :=
  ⟨by decide,
   (phase_monotone (scripted []) (coa_request request_state_t.REQUEST_INIT 0 [])
      fr_io_action_t.FR_IO_ACTION_RUN (Or.inl (by decide))).2.2.2 (fun _ _ => rfl)⟩

/-- C13. A RUN call in the RECEIVE or SEND state during which the
interpreter yields, the request not being stopped, returns YIELD; the request
is the one `unlang_interpret_continue` left: the phase is unchanged, nothing
was pushed, and the reply code is the one the interpreter left, unchanged
when it did not write it.  Hence as long as the interpreter keeps yielding,
any number of RUN calls in a row all return YIELD, and leave the phase as it
was and, with an interpreter that does not write the reply code, the reply
code too. -/
theorem suspension_transparent (env : Services) (fuel : Nat) (s : REQUEST)
    (hphase : s.request_state = request_state_t.REQUEST_RECV ∨
      s.request_state = request_state_t.REQUEST_SEND)
    (hstop : (interpret env s).2.master_state ≠ master_state_t.REQUEST_STOP_PROCESSING)
    (hyield : (interpret env s).1 = rlm_rcode_t.RLM_MODULE_YIELD) :
    mod_process env (fuel + 1) s fr_io_action_t.FR_IO_ACTION_RUN
      = some (fr_io_final_t.FR_IO_YIELD, (interpret env s).2) ∧
    (interpret env s).2.request_state = s.request_state ∧
    (interpret env s).2.unlang_calls = s.unlang_calls ++ [unlang_call.interpret] ∧
    pushes (interpret env s).2.unlang_calls = pushes s.unlang_calls ∧
    (interpret env s).2.nak_fallbacks = s.nak_fallbacks ∧
    (interpret env s).2.reply_code = (env.unlang_interpret_continue s).2.reply_code ∧
    ((env.unlang_interpret_continue s).2.reply_code = s.reply_code →
      (interpret env s).2.reply_code = s.reply_code) ∧
    (∀ n : Nat, keeps_yielding env (n + 1) s = true →
      run_to_final env (fuel + 1) n s
        = some (fr_io_final_t.FR_IO_YIELD, resumed env (n + 1) s) ∧
      drive env (fuel + 1) s (List.replicate (n + 1) fr_io_action_t.FR_IO_ACTION_RUN)
        = some (resumed env (n + 1) s) ∧
      (resumed env (n + 1) s).request_state = s.request_state ∧
      pushes (resumed env (n + 1) s).unlang_calls = pushes s.unlang_calls ∧
      ((∀ t : REQUEST, (env.unlang_interpret_continue t).2.reply_code = t.reply_code) →
        (resumed env (n + 1) s).reply_code = s.reply_code)) := by
  have hfr := interpret_frame env s
  refine ⟨mod_process_yield env fuel s hphase hstop hyield, hfr.1, hfr.2.2.2.2.2.2.1, ?_,
    hfr.2.2.2.2.2.1, hfr.2.2.2.2.2.2.2, fun h => hfr.2.2.2.2.2.2.2.trans h, ?_⟩
  · rw [hfr.2.2.2.2.2.2.1, pushes_interpret]
  · intro n hk
    obtain ⟨q1, q2⟩ := yielding_run env fuel n s hphase hk
    obtain ⟨r1, _, _, r4, _, r6⟩ := resumed_frame env (n + 1) s
    exact ⟨q1, q2, r1, r4, r6⟩

/-- The witness of `suspension_transparent`: a CoA-Request in SEND with reply
code 44 whose send section yields three times in a row. -/
theorem suspension_transparent_witness :
    keeps_yielding
      (scripted [rlm_rcode_t.RLM_MODULE_YIELD, rlm_rcode_t.RLM_MODULE_YIELD,
        rlm_rcode_t.RLM_MODULE_YIELD]) 3
      (coa_request request_state_t.REQUEST_SEND 44 []) = true ∧
    (run_to_final
      (scripted [rlm_rcode_t.RLM_MODULE_YIELD, rlm_rcode_t.RLM_MODULE_YIELD,
        rlm_rcode_t.RLM_MODULE_YIELD]) 1 2
      (coa_request request_state_t.REQUEST_SEND 44 [])).map
        (fun r => (r.1, r.2.request_state, r.2.reply_code))
      = some (fr_io_final_t.FR_IO_YIELD, request_state_t.REQUEST_SEND, 44) :=
  ⟨by decide,
   (congrArg (Option.map (fun r => (r.1, r.2.request_state, r.2.reply_code)))
      ((suspension_transparent
        (scripted [rlm_rcode_t.RLM_MODULE_YIELD, rlm_rcode_t.RLM_MODULE_YIELD,
          rlm_rcode_t.RLM_MODULE_YIELD]) 0
        (coa_request request_state_t.REQUEST_SEND 44 [])
        (Or.inr (by decide)) (by decide) (by decide)).2.2.2.2.2.2.2 2 (by decide)).1).trans
      (by decide)⟩

/-- C14. When the master state is `REQUEST_STOP_PROCESSING` after the
interpreter's continue, `mod_process` returns DONE, whatever result code the
continue returned, in the RECEIVE state, in the RECEIVE state entered from
INIT in the same call, and in the SEND state, also after `rerun_nak`; the
request is the one `unlang_interpret_continue` left: no reply code was
computed, no section pushed, and `send_reply` was not reached. -/
theorem stopped_done (env : Services) (fuel : Nat) (s : REQUEST) :
    (s.request_state = request_state_t.REQUEST_RECV →
      (interpret env s).2.master_state = master_state_t.REQUEST_STOP_PROCESSING →
      mod_process env fuel s fr_io_action_t.FR_IO_ACTION_RUN
        = some (fr_io_final_t.FR_IO_DONE, (interpret env s).2)) ∧
    (s.request_state = request_state_t.REQUEST_SEND →
      (interpret env s).2.master_state = master_state_t.REQUEST_STOP_PROCESSING →
      mod_process env (fuel + 1) s fr_io_action_t.FR_IO_ACTION_RUN
        = some (fr_io_final_t.FR_IO_DONE, (interpret env s).2)) ∧
    (∀ (dv : fr_dict_enum_t) (unlang : CONF_SECTION),
      s.request_state = request_state_t.REQUEST_INIT →
      fr_dict_enum_by_value env.da s.packet_code = some dv →
      cf_section_find s.server_cs "recv" dv.alias_ = some unlang →
      (interpret env (recv_pushed s unlang)).2.master_state
        = master_state_t.REQUEST_STOP_PROCESSING →
      mod_process env fuel s fr_io_action_t.FR_IO_ACTION_RUN
        = some (fr_io_final_t.FR_IO_DONE, (interpret env (recv_pushed s unlang)).2)) ∧
    ((interpret env s).2.master_state = master_state_t.REQUEST_STOP_PROCESSING →
      case_REQUEST_SEND env (fuel + 1) s
        = some (fr_io_final_t.FR_IO_DONE, (interpret env s).2)) ∧
    (∀ t : REQUEST,
      (interpret env t).2.reply_code = (env.unlang_interpret_continue t).2.reply_code ∧
      (interpret env t).2.unlang_calls = t.unlang_calls ++ [unlang_call.interpret] ∧
      pushes (interpret env t).2.unlang_calls = pushes t.unlang_calls ∧
      (interpret env t).2.request_state = t.request_state ∧
      (interpret env t).2.reply_src_ipaddr = t.reply_src_ipaddr ∧
      (interpret env t).2.nak_fallbacks = t.nak_fallbacks) := by
  refine ⟨?_, ?_, ?_, ?_, ?_⟩
  · intro hphase hstop
    simp [mod_process, hphase, case_REQUEST_RECV, hstop]
  · intro hphase hstop
    simp [mod_process, hphase, case_REQUEST_SEND, hstop]
  · intro dv unlang hphase hdv hcs hstop
    rw [mod_process_init_pushed env fuel s dv unlang hphase hdv hcs]
    simp [case_REQUEST_RECV, hstop]
  · intro hstop
    simp [case_REQUEST_SEND, hstop]
  · intro t
    have hfr := interpret_frame env t
    refine ⟨hfr.2.2.2.2.2.2.2, hfr.2.2.2.2.2.2.1, ?_, hfr.1, ?_, hfr.2.2.2.2.2.1⟩
    · rw [hfr.2.2.2.2.2.2.1, pushes_interpret]
    · simp [interpret]

/-- The witness of `stopped_done`: a CoA-Request in INIT whose receive section
is stopped while it reports YIELD ends with DONE, the reply code untouched and
only the recv section pushed. -/
theorem stopped_done_witness :
    (mod_process (stopping rlm_rcode_t.RLM_MODULE_YIELD) 0
      (coa_request request_state_t.REQUEST_INIT 7 [])
      fr_io_action_t.FR_IO_ACTION_RUN).map
        (fun r => (r.1, r.2.request_state, r.2.reply_code, pushes r.2.unlang_calls))
      = some (fr_io_final_t.FR_IO_DONE, request_state_t.REQUEST_RECV, 7, 1) :=
  (congrArg (Option.map (fun r => (r.1, r.2.request_state, r.2.reply_code,
      pushes r.2.unlang_calls)))
    ((stopped_done (stopping rlm_rcode_t.RLM_MODULE_YIELD) 0
      (coa_request request_state_t.REQUEST_INIT 7 [])).2.2.1
      ⟨"CoA-Request", 43⟩ ⟨"recv", "CoA-Request", "default"⟩
      (by decide) (by decide) (by decide) (by decide))).trans (by decide)

/-! ## The paths through one call -/

/-- C15. An externally received request in INIT whose packet code has an alias
with a recv section, and whose `packet code + 1` (unsigned 32-bit sum, not
`FR_CODE_DO_NOT_RESPOND`) has an alias with a send section: if the recv
section completes, the request not stopped, with NOOP, NOTFOUND, OK or UPDATED
and no Packet-Type pair in the reply, and the send section completes, the
request not stopped and the reply code not written, with HANDLED, NOOP,
NOTFOUND, OK or UPDATED, then one RUN call returns REPLY with reply code
`packet code + 1` in the SEND state, after two pushes and two calls of the
interpreter. -/
theorem ack_path (env : Services) (fuel : Nat) (s : REQUEST) (dv dv1 : fr_dict_enum_t)
    (unlang unlang1 : CONF_SECTION)
    (hphase : s.request_state = request_state_t.REQUEST_INIT)
    (hexternal : s.parent = false)
    (hdv : fr_dict_enum_by_value env.da s.packet_code = some dv)
    (hrecv : cf_section_find s.server_cs "recv" dv.alias_ = some unlang)
    (hdv1 : fr_dict_enum_by_value env.da ((s.packet_code + 1) % 2 ^ 32) = some dv1)
    (hsend : cf_section_find s.server_cs "send" dv1.alias_ = some unlang1)
    (hrespond : (s.packet_code + 1) % 2 ^ 32 ≠ env.FR_CODE_DO_NOT_RESPOND)
    (hstop1 : (interpret env (recv_pushed s unlang)).2.master_state
      ≠ master_state_t.REQUEST_STOP_PROCESSING)
    (hrcode1 : (interpret env (recv_pushed s unlang)).1 = rlm_rcode_t.RLM_MODULE_NOOP ∨
      (interpret env (recv_pushed s unlang)).1 = rlm_rcode_t.RLM_MODULE_NOTFOUND ∨
      (interpret env (recv_pushed s unlang)).1 = rlm_rcode_t.RLM_MODULE_OK ∨
      (interpret env (recv_pushed s unlang)).1 = rlm_rcode_t.RLM_MODULE_UPDATED)
    (hvp : fr_pair_find_by_num (interpret env (recv_pushed s unlang)).2.reply_vps 0
      env.FR_PACKET_TYPE = none)
    (hstop2 : (interpret env (rerun_nak (after_recv env (recv_pushed s unlang)) unlang1)).2.master_state
      ≠ master_state_t.REQUEST_STOP_PROCESSING)
    (hrcode2 :
      (interpret env (rerun_nak (after_recv env (recv_pushed s unlang)) unlang1)).1
        = rlm_rcode_t.RLM_MODULE_HANDLED ∨
      (interpret env (rerun_nak (after_recv env (recv_pushed s unlang)) unlang1)).1
        = rlm_rcode_t.RLM_MODULE_NOOP ∨
      (interpret env (rerun_nak (after_recv env (recv_pushed s unlang)) unlang1)).1
        = rlm_rcode_t.RLM_MODULE_NOTFOUND ∨
      (interpret env (rerun_nak (after_recv env (recv_pushed s unlang)) unlang1)).1
        = rlm_rcode_t.RLM_MODULE_OK ∨
      (interpret env (rerun_nak (after_recv env (recv_pushed s unlang)) unlang1)).1
        = rlm_rcode_t.RLM_MODULE_UPDATED)
    (hkeep : (interpret env (rerun_nak (after_recv env (recv_pushed s unlang)) unlang1)).2.reply_code
      = (rerun_nak (after_recv env (recv_pushed s unlang)) unlang1).reply_code) :
    ∃ s', mod_process env (fuel + 1) s fr_io_action_t.FR_IO_ACTION_RUN
        = some (fr_io_final_t.FR_IO_REPLY, s') ∧
      s'.reply_code = (s.packet_code + 1) % 2 ^ 32 ∧
      (s.packet_code + 1 < 2 ^ 32 → s'.reply_code = s.packet_code + 1) ∧
      s'.request_state = request_state_t.REQUEST_SEND ∧
      s'.unlang_calls = s.unlang_calls ++
        [unlang_call.push unlang rlm_rcode_t.RLM_MODULE_NOOP, unlang_call.interpret,
         unlang_call.push unlang1 rlm_rcode_t.RLM_MODULE_NOOP, unlang_call.interpret] ∧
      s'.nak_fallbacks = s.nak_fallbacks := by
  have hp := recv_pushed_frame s unlang
  have hfr1 := interpret_frame env (recv_pushed s unlang)
  have har := after_recv_frame env (recv_pushed s unlang)
  have har2 := after_recv_frame2 env (recv_pushed s unlang)
  have hyield1 : (interpret env (recv_pushed s unlang)).1 ≠ rlm_rcode_t.RLM_MODULE_YIELD := by
    rcases hrcode1 with h | h | h | h <;> rw [h] <;> decide
  -- the reply code after the receive section
  have hcode : (after_recv env (recv_pushed s unlang)).reply_code
      = (s.packet_code + 1) % 2 ^ 32 := by
    have hov : after_recv env (recv_pushed s unlang)
        = recv_rcode (interpret env (recv_pushed s unlang)).2
            (interpret env (recv_pushed s unlang)).1 := by
      simp [after_recv, reply_override, (recv_rcode_frame _ _).1, hvp]
    rw [hov]
    rcases hrcode1 with h | h | h | h <;>
      simp [h, recv_rcode, UINT32_MOD, hfr1.2.1, hp.2.1]
  have hfind : find_send env (after_recv env (recv_pushed s unlang)) = some unlang1 := by
    unfold find_send
    rw [hcode, hdv1]
    dsimp only
    rw [har.2.2.1, hp.2.2.2.1, hsend]
  have htf := rerun_nak_frame (after_recv env (recv_pushed s unlang)) unlang1
  have htf2 := rerun_nak_frame2 (after_recv env (recv_pushed s unlang)) unlang1
  have hfr2 := interpret_frame env (rerun_nak (after_recv env (recv_pushed s unlang)) unlang1)
  have hsr := send_reply_frame env
    (interpret env (rerun_nak (after_recv env (recv_pushed s unlang)) unlang1)).2
  have hnf : ¬ failure_set
      (interpret env (rerun_nak (after_recv env (recv_pushed s unlang)) unlang1)).1 := by
    rcases hrcode2 with h | h | h | h | h <;> rw [h] <;> decide
  have hyield2 : (interpret env (rerun_nak (after_recv env (recv_pushed s unlang)) unlang1)).1
      ≠ rlm_rcode_t.RLM_MODULE_YIELD := by
    rcases hrcode2 with h | h | h | h | h <;> rw [h] <;> decide
  have hrc : (interpret env (rerun_nak (after_recv env (recv_pushed s unlang)) unlang1)).2.reply_code
      = (s.packet_code + 1) % 2 ^ 32 := by
    rw [hkeep, htf.2.2.1, hcode]
  have hrun : mod_process env (fuel + 1) s fr_io_action_t.FR_IO_ACTION_RUN
      = some (send_reply env
          (interpret env (rerun_nak (after_recv env (recv_pushed s unlang)) unlang1)).2) := by
    rw [mod_process_init_pushed env (fuel + 1) s dv unlang hphase hdv hrecv]
    simp only [case_REQUEST_RECV, if_neg hstop1, if_neg hyield1]
    change select_send env (fuel + 1) (after_recv env (recv_pushed s unlang)) = _
    rw [select_send, hfind]
    dsimp only
    rw [case_send_step env fuel _ hstop2 hyield2, send_rcode_not_failure env _ _ hnf]
  have hrep : (send_reply env
      (interpret env (rerun_nak (after_recv env (recv_pushed s unlang)) unlang1)).2).1
      = fr_io_final_t.FR_IO_REPLY := by
    apply send_reply_external
    · rw [hrc]
      exact hrespond
    · rw [hfr2.2.2.2.1, htf2.1, har2.1, hp.2.2.2.2.1, hexternal]
  refine ⟨(send_reply env
      (interpret env (rerun_nak (after_recv env (recv_pushed s unlang)) unlang1)).2).2,
    ?_, ?_, ?_, ?_, ?_, ?_⟩
  · rw [hrun, ← hrep]
  · rw [hsr.1, hrc]
  · intro hlt
    rw [hsr.1, hrc, Nat.mod_eq_of_lt hlt]
  · rw [hsr.2.1, hfr2.1, htf.1]
  · rw [hsr.2.2.1, hfr2.2.2.2.2.2.2.1, htf.2.2.2.2.2, har.2.2.2.2.2, hp.2.2.2.2.2.2.2]
    simp
  · rw [hsr.2.2.2.1, hfr2.2.2.2.2.2.1, htf.2.2.2.1, har.2.2.2.1, hp.2.2.2.2.2.1]

/-- The witness of `ack_path`: an external CoA-Request (code 43) whose two
sections return OK gets REPLY with reply code 44 in one call. -/
theorem ack_path_witness :
    (mod_process (scripted [rlm_rcode_t.RLM_MODULE_OK, rlm_rcode_t.RLM_MODULE_OK]) 1
      (coa_request request_state_t.REQUEST_INIT 0 [])
      fr_io_action_t.FR_IO_ACTION_RUN).map
        (fun r => (r.1, r.2.reply_code, r.2.request_state))
      = some (fr_io_final_t.FR_IO_REPLY, 44, request_state_t.REQUEST_SEND) ∧
    ∃ s', mod_process (scripted [rlm_rcode_t.RLM_MODULE_OK, rlm_rcode_t.RLM_MODULE_OK]) 1
        (coa_request request_state_t.REQUEST_INIT 0 [])
        fr_io_action_t.FR_IO_ACTION_RUN = some (fr_io_final_t.FR_IO_REPLY, s') ∧
      s'.reply_code = (43 + 1) % 2 ^ 32 :=
  ⟨by decide,
   (ack_path (scripted [rlm_rcode_t.RLM_MODULE_OK, rlm_rcode_t.RLM_MODULE_OK]) 0
      (coa_request request_state_t.REQUEST_INIT 0 [])
      ⟨"CoA-Request", 43⟩ ⟨"CoA-ACK", 44⟩
      ⟨"recv", "CoA-Request", "default"⟩ ⟨"send", "CoA-ACK", "default"⟩
      (by decide) (by decide) (by decide) (by decide) (by decide) (by decide) (by decide)
      (by decide) (by decide) (by decide) (by decide) (by decide) (by decide)).imp
      (fun _ h => ⟨h.1, h.2.1⟩)⟩

/-- C16, as the claim states it, fails when the interpreter writes the reply
code while it runs the NAK section.  With the interpreter `contrary`, the
section `send CoA-ACK` of a CoA-Request (code 43, reply code 44) returns FAIL;
the fallback sets the reply code to 45, pushes `send CoA-NAK` and continues
the interpreter, which is not stopped, does not yield, puts 44 back into the
reply and returns FAIL.  The switch of lines 149-195 then does not go to
`send_reply`: the guard of line 165 holds again, so it goes back to
`rerun_nak`, and so on; no amount of fuel makes the call return. -/
theorem nak_rerun_counterexample :
    (coa_request request_state_t.REQUEST_SEND 44 []).request_state
      = request_state_t.REQUEST_SEND ∧
    (interpret contrary (coa_request request_state_t.REQUEST_SEND 44 [])).2.master_state
      ≠ master_state_t.REQUEST_STOP_PROCESSING ∧
    (interpret contrary (coa_request request_state_t.REQUEST_SEND 44 [])).1
      = rlm_rcode_t.RLM_MODULE_FAIL ∧
    (interpret contrary (coa_request request_state_t.REQUEST_SEND 44 [])).2.reply_code
      = (43 + 1) % 2 ^ 32 ∧
    fr_dict_enum_by_value contrary.da ((43 + 2) % 2 ^ 32) = some ⟨"CoA-NAK", 45⟩ ∧
    cf_section_find (coa_request request_state_t.REQUEST_SEND 44 []).server_cs "send" "CoA-NAK"
      = some ⟨"send", "CoA-NAK", "default"⟩ ∧
    (rerun_nak
      (nak_fallback contrary (interpret contrary (coa_request request_state_t.REQUEST_SEND 44 [])).2)
      ⟨"send", "CoA-NAK", "default"⟩).reply_code = 45 ∧
    (interpret contrary (rerun_nak
      (nak_fallback contrary (interpret contrary (coa_request request_state_t.REQUEST_SEND 44 [])).2)
      ⟨"send", "CoA-NAK", "default"⟩)).2.master_state
      ≠ master_state_t.REQUEST_STOP_PROCESSING ∧
    (interpret contrary (rerun_nak
      (nak_fallback contrary (interpret contrary (coa_request request_state_t.REQUEST_SEND 44 [])).2)
      ⟨"send", "CoA-NAK", "default"⟩)).1 = rlm_rcode_t.RLM_MODULE_FAIL ∧
    (interpret contrary (rerun_nak
      (nak_fallback contrary (interpret contrary (coa_request request_state_t.REQUEST_SEND 44 [])).2)
      ⟨"send", "CoA-NAK", "default"⟩)).2.reply_code = 44 ∧
    (send_rcode contrary
      (interpret contrary (rerun_nak
        (nak_fallback contrary
          (interpret contrary (coa_request request_state_t.REQUEST_SEND 44 [])).2)
        ⟨"send", "CoA-NAK", "default"⟩)).2
      (interpret contrary (rerun_nak
        (nak_fallback contrary
          (interpret contrary (coa_request request_state_t.REQUEST_SEND 44 [])).2)
        ⟨"send", "CoA-NAK", "default"⟩)).1).1
      = send_next.goto_rerun_nak ⟨"send", "CoA-NAK", "default"⟩ ∧
    ∀ fuel : Nat,
      mod_process contrary fuel (coa_request request_state_t.REQUEST_SEND 44 [])
        fr_io_action_t.FR_IO_ACTION_RUN = none := by
  refine ⟨by decide, by decide, by decide, by decide, by decide, by decide, by decide,
    by decide, by decide, by decide, by decide, ?_⟩
  intro fuel
  have h := rerun_nak_may_loop fuel (coa_request request_state_t.REQUEST_SEND 44 []) rfl rfl rfl
  simpa [mod_process, coa_request] using h

/-- C16, amended. A RUN call in the SEND state whose send section completes
(not stopped, not YIELD) with a result of the failure set while the reply code
is `packet code + 1`, a send section being bound to the alias of
`packet code + 2`: `mod_process` sets the reply code to `packet code + 2`,
pushes that section and continues the interpreter again in the same call, the
state still SEND.  That continuation decides the outcome: DONE if the request
was stopped, YIELD if it yields, and otherwise the switch of lines 149-195 is
applied to the result of the NAK section and the reply code the interpreter
left.  When the interpreter left the reply code at `packet code + 2`, that is
`send_reply` with that reply code whatever the result of the NAK section;
when it wrote another code, it is `send_reply` with the code it wrote, unless
that code is `packet code + 1` and the result is in the failure set: then the
fallback is taken again, the reply code set to `packet code + 2` and the NAK
section pushed and continued once more. -/
theorem nak_rerun (env : Services) (fuel : Nat) (s : REQUEST) (dv2 : fr_dict_enum_t)
    (unlang : CONF_SECTION)
    (hphase : s.request_state = request_state_t.REQUEST_SEND)
    (hstop : (interpret env s).2.master_state ≠ master_state_t.REQUEST_STOP_PROCESSING)
    (hyield : (interpret env s).1 ≠ rlm_rcode_t.RLM_MODULE_YIELD)
    (hfail : failure_set (interpret env s).1)
    (hack : (interpret env s).2.reply_code = (s.packet_code + 1) % 2 ^ 32)
    (hdv2 : fr_dict_enum_by_value env.da ((s.packet_code + 2) % 2 ^ 32) = some dv2)
    (hnak : cf_section_find s.server_cs "send" dv2.alias_ = some unlang) :
    mod_process env (fuel + 1) s fr_io_action_t.FR_IO_ACTION_RUN
      = case_REQUEST_SEND env fuel (rerun_nak (nak_fallback env (interpret env s).2) unlang) ∧
    (rerun_nak (nak_fallback env (interpret env s).2) unlang).reply_code
      = (s.packet_code + 2) % 2 ^ 32 ∧
    (rerun_nak (nak_fallback env (interpret env s).2) unlang).request_state
      = request_state_t.REQUEST_SEND ∧
    (rerun_nak (nak_fallback env (interpret env s).2) unlang).unlang_calls
      = s.unlang_calls ++
        [unlang_call.interpret, unlang_call.push unlang rlm_rcode_t.RLM_MODULE_NOOP] ∧
    ((interpret env (rerun_nak (nak_fallback env (interpret env s).2) unlang)).2.master_state
        = master_state_t.REQUEST_STOP_PROCESSING →
      mod_process env (fuel + 2) s fr_io_action_t.FR_IO_ACTION_RUN
        = some (fr_io_final_t.FR_IO_DONE,
            (interpret env (rerun_nak (nak_fallback env (interpret env s).2) unlang)).2)) ∧
    ((interpret env (rerun_nak (nak_fallback env (interpret env s).2) unlang)).2.master_state
        ≠ master_state_t.REQUEST_STOP_PROCESSING →
      (interpret env (rerun_nak (nak_fallback env (interpret env s).2) unlang)).1
        = rlm_rcode_t.RLM_MODULE_YIELD →
      mod_process env (fuel + 2) s fr_io_action_t.FR_IO_ACTION_RUN
        = some (fr_io_final_t.FR_IO_YIELD,
            (interpret env (rerun_nak (nak_fallback env (interpret env s).2) unlang)).2) ∧
      (interpret env
        (rerun_nak (nak_fallback env (interpret env s).2) unlang)).2.request_state
        = request_state_t.REQUEST_SEND) ∧
    ((interpret env (rerun_nak (nak_fallback env (interpret env s).2) unlang)).2.master_state
        ≠ master_state_t.REQUEST_STOP_PROCESSING →
      (interpret env (rerun_nak (nak_fallback env (interpret env s).2) unlang)).1
        ≠ rlm_rcode_t.RLM_MODULE_YIELD →
      (interpret env (rerun_nak (nak_fallback env (interpret env s).2) unlang)).2.reply_code
        = (rerun_nak (nak_fallback env (interpret env s).2) unlang).reply_code →
      mod_process env (fuel + 2) s fr_io_action_t.FR_IO_ACTION_RUN
        = some (send_reply env
            (interpret env (rerun_nak (nak_fallback env (interpret env s).2) unlang)).2) ∧
      (send_reply env
        (interpret env (rerun_nak (nak_fallback env (interpret env s).2) unlang)).2).2.reply_code
        = (s.packet_code + 2) % 2 ^ 32 ∧
      (send_reply env
        (interpret env
          (rerun_nak (nak_fallback env (interpret env s).2) unlang)).2).2.request_state
        = request_state_t.REQUEST_SEND) ∧
    ((interpret env (rerun_nak (nak_fallback env (interpret env s).2) unlang)).2.master_state
        ≠ master_state_t.REQUEST_STOP_PROCESSING →
      (interpret env (rerun_nak (nak_fallback env (interpret env s).2) unlang)).1
        ≠ rlm_rcode_t.RLM_MODULE_YIELD →
      mod_process env (fuel + 2) s fr_io_action_t.FR_IO_ACTION_RUN
        = match send_rcode env
            (interpret env (rerun_nak (nak_fallback env (interpret env s).2) unlang)).2
            (interpret env (rerun_nak (nak_fallback env (interpret env s).2) unlang)).1 with
          | (send_next.goto_rerun_nak u, s2) => case_REQUEST_SEND env fuel (rerun_nak s2 u)
          | (send_next.goto_send_reply, s2) => some (send_reply env s2)) ∧
    ((interpret env (rerun_nak (nak_fallback env (interpret env s).2) unlang)).2.master_state
        ≠ master_state_t.REQUEST_STOP_PROCESSING →
      (interpret env (rerun_nak (nak_fallback env (interpret env s).2) unlang)).1
        ≠ rlm_rcode_t.RLM_MODULE_YIELD →
      ¬ (failure_set (interpret env (rerun_nak (nak_fallback env (interpret env s).2) unlang)).1 ∧
        (interpret env (rerun_nak (nak_fallback env (interpret env s).2) unlang)).2.reply_code
          = (s.packet_code + 1) % 2 ^ 32) →
      mod_process env (fuel + 2) s fr_io_action_t.FR_IO_ACTION_RUN
        = some (send_reply env
            (interpret env (rerun_nak (nak_fallback env (interpret env s).2) unlang)).2) ∧
      (send_reply env
        (interpret env (rerun_nak (nak_fallback env (interpret env s).2) unlang)).2).2.reply_code
        = (interpret env (rerun_nak (nak_fallback env (interpret env s).2) unlang)).2.reply_code) ∧
    ((interpret env (rerun_nak (nak_fallback env (interpret env s).2) unlang)).2.master_state
        ≠ master_state_t.REQUEST_STOP_PROCESSING →
      (interpret env (rerun_nak (nak_fallback env (interpret env s).2) unlang)).1
        ≠ rlm_rcode_t.RLM_MODULE_YIELD →
      failure_set (interpret env (rerun_nak (nak_fallback env (interpret env s).2) unlang)).1 →
      (interpret env (rerun_nak (nak_fallback env (interpret env s).2) unlang)).2.reply_code
        = (s.packet_code + 1) % 2 ^ 32 →
      mod_process env (fuel + 2) s fr_io_action_t.FR_IO_ACTION_RUN
        = case_REQUEST_SEND env fuel
            (rerun_nak
              (nak_fallback env
                (interpret env (rerun_nak (nak_fallback env (interpret env s).2) unlang)).2)
              unlang) ∧
      (rerun_nak
        (nak_fallback env
          (interpret env (rerun_nak (nak_fallback env (interpret env s).2) unlang)).2)
        unlang).reply_code = (s.packet_code + 2) % 2 ^ 32 ∧
      (rerun_nak
        (nak_fallback env
          (interpret env (rerun_nak (nak_fallback env (interpret env s).2) unlang)).2)
        unlang).unlang_calls
        = s.unlang_calls ++
          [unlang_call.interpret, unlang_call.push unlang rlm_rcode_t.RLM_MODULE_NOOP,
           unlang_call.interpret, unlang_call.push unlang rlm_rcode_t.RLM_MODULE_NOOP]) := by
  have hfr := interpret_frame env s
  have hnf := nak_fallback_frame env (interpret env s).2
  have htf := rerun_nak_frame (nak_fallback env (interpret env s).2) unlang
  have hfr3 := interpret_frame env (rerun_nak (nak_fallback env (interpret env s).2) unlang)
  have hfind : find_send env (nak_fallback env (interpret env s).2) = some unlang := by
    rw [find_send_nak_fallback, hfr.2.1, hfr.2.2.1]
    show (fr_dict_enum_by_value env.da ((s.packet_code + 2) % 2 ^ 32)).bind _ = _
    rw [hdv2]
    exact hnak
  have hrun : ∀ n, mod_process env (n + 1) s fr_io_action_t.FR_IO_ACTION_RUN
      = case_REQUEST_SEND env n (rerun_nak (nak_fallback env (interpret env s).2) unlang) := by
    intro n
    rw [mod_process_fallback env n s hphase hstop hyield hfail hack, hfind]
  have hcode : (rerun_nak (nak_fallback env (interpret env s).2) unlang).reply_code
      = (s.packet_code + 2) % 2 ^ 32 := by
    rw [htf.2.2.1, hnf.1, hfr.2.1]
    rfl
  have hpc3 : (interpret env
      (rerun_nak (nak_fallback env (interpret env s).2) unlang)).2.packet_code
      = s.packet_code := by
    rw [hfr3.2.1, htf.2.1, hnf.2.1, hfr.2.1]
  have hcs3 : (interpret env
      (rerun_nak (nak_fallback env (interpret env s).2) unlang)).2.server_cs
      = s.server_cs := by
    rw [hfr3.2.2.1, htf.2.2.2.2.1, (nak_fallback_frame2 env _).2.1, hfr.2.2.1]
  have hcalls : (rerun_nak (nak_fallback env (interpret env s).2) unlang).unlang_calls
      = s.unlang_calls ++
        [unlang_call.interpret, unlang_call.push unlang rlm_rcode_t.RLM_MODULE_NOOP] := by
    rw [htf.2.2.2.2.2, hnf.2.2.2.1, hfr.2.2.2.2.2.2.1]
    simp
  refine ⟨hrun fuel, hcode, htf.1, hcalls, ?_, ?_, ?_, ?_, ?_, ?_⟩
  · intro hs
    rw [hrun (fuel + 1)]
    simp [case_REQUEST_SEND, hs]
  · intro hs hy
    refine ⟨?_, hfr3.1.trans htf.1⟩
    rw [hrun (fuel + 1)]
    simp [case_REQUEST_SEND, hs, hy]
  · intro hs hy hk
    have hnak2 : (interpret env
        (rerun_nak (nak_fallback env (interpret env s).2) unlang)).2.reply_code
        = ((interpret env
          (rerun_nak (nak_fallback env (interpret env s).2) unlang)).2.packet_code + 2)
            % UINT32_MOD := by
      rw [hk, hfr3.2.1, htf.2.2.1, htf.2.1, hnf.1, hnf.2.1]
    have hsr := send_reply_frame env
      (interpret env (rerun_nak (nak_fallback env (interpret env s).2) unlang)).2
    refine ⟨?_, ?_, ?_⟩
    · rw [hrun (fuel + 1), case_send_step env fuel _ hs hy, send_rcode_of_nak env _ _ hnak2]
    · rw [hsr.1, hk, hcode]
    · rw [hsr.2.1, hfr3.1, htf.1]
  · intro hs hy
    rw [hrun (fuel + 1), case_send_step env fuel _ hs hy]
  · intro hs hy hno
    have hsr : send_rcode env
        (interpret env (rerun_nak (nak_fallback env (interpret env s).2) unlang)).2
        (interpret env (rerun_nak (nak_fallback env (interpret env s).2) unlang)).1
        = (send_next.goto_send_reply,
          (interpret env (rerun_nak (nak_fallback env (interpret env s).2) unlang)).2) := by
      by_cases hf : failure_set
          (interpret env (rerun_nak (nak_fallback env (interpret env s).2) unlang)).1
      · rw [send_rcode_failure env _ _ hf, if_neg]
        rw [hpc3]
        exact fun hh => hno ⟨hf, hh⟩
      · exact send_rcode_not_failure env _ _ hf
    refine ⟨?_, (send_reply_frame env _).1⟩
    rw [hrun (fuel + 1), case_send_step env fuel _ hs hy, hsr]
  · intro hs hy hf hback
    have hg : (interpret env
        (rerun_nak (nak_fallback env (interpret env s).2) unlang)).2.reply_code
        = ((interpret env
          (rerun_nak (nak_fallback env (interpret env s).2) unlang)).2.packet_code + 1)
            % UINT32_MOD := by
      rw [hback, hpc3]
      rfl
    have hfind2 : find_send env (nak_fallback env
        (interpret env (rerun_nak (nak_fallback env (interpret env s).2) unlang)).2)
        = some unlang := by
      rw [find_send_nak_fallback, hpc3, hcs3]
      show (fr_dict_enum_by_value env.da ((s.packet_code + 2) % 2 ^ 32)).bind _ = _
      rw [hdv2]
      exact hnak
    have hnf3 := nak_fallback_frame env
      (interpret env (rerun_nak (nak_fallback env (interpret env s).2) unlang)).2
    have htf3 := rerun_nak_frame (nak_fallback env
      (interpret env (rerun_nak (nak_fallback env (interpret env s).2) unlang)).2) unlang
    refine ⟨?_, ?_, ?_⟩
    · rw [hrun (fuel + 1), case_send_step env fuel _ hs hy, send_rcode_failure env _ _ hf,
        if_pos hg, hfind2]
    · rw [htf3.2.2.1, hnf3.1, hpc3]
      rfl
    · rw [htf3.2.2.2.2.2, hnf3.2.2.2.1, hfr3.2.2.2.2.2.2.1, hcalls]
      simp

/-- The witness of `nak_rerun`: `send CoA-ACK` of a CoA-Request (code 43, reply
code 44) returns REJECT, `send CoA-NAK` is run and returns FAIL, and the call
returns REPLY with reply code 45. -/
theorem nak_rerun_witness :
    (mod_process (scripted [rlm_rcode_t.RLM_MODULE_REJECT, rlm_rcode_t.RLM_MODULE_FAIL]) 2
      (coa_request request_state_t.REQUEST_SEND 44 [])
      fr_io_action_t.FR_IO_ACTION_RUN).map
        (fun r => (r.1, r.2.reply_code, r.2.request_state, r.2.unlang_calls))
      = some (fr_io_final_t.FR_IO_REPLY, 45, request_state_t.REQUEST_SEND,
          [unlang_call.interpret,
           unlang_call.push ⟨"send", "CoA-NAK", "default"⟩ rlm_rcode_t.RLM_MODULE_NOOP,
           unlang_call.interpret]) ∧
    (rerun_nak
      (nak_fallback (scripted [rlm_rcode_t.RLM_MODULE_REJECT, rlm_rcode_t.RLM_MODULE_FAIL])
        (interpret (scripted [rlm_rcode_t.RLM_MODULE_REJECT, rlm_rcode_t.RLM_MODULE_FAIL])
          (coa_request request_state_t.REQUEST_SEND 44 [])).2)
      ⟨"send", "CoA-NAK", "default"⟩).reply_code = (43 + 2) % 2 ^ 32 :=
  ⟨by decide,
   (nak_rerun (scripted [rlm_rcode_t.RLM_MODULE_REJECT, rlm_rcode_t.RLM_MODULE_FAIL]) 0
      (coa_request request_state_t.REQUEST_SEND 44 [])
      ⟨"CoA-NAK", 45⟩ ⟨"send", "CoA-NAK", "default"⟩
      (by decide) (by decide) (by decide) (by decide) (by decide) (by decide)
      (by decide)).2.1⟩

/-- C17. A RUN call in the SEND state whose send section completes (not
stopped, not YIELD) with a result of the failure set while the reply code is
`packet code + 1`, when `packet code + 2` has no alias or no send section is
bound to its alias: `mod_process` still sets the reply code to
`packet code + 2`, pushes and continues nothing more, and ends in `send_reply`
in the same call; an external request whose `packet code + 2` is not
`FR_CODE_DO_NOT_RESPOND` gets REPLY with that reply code. -/
theorem nak_without_section (env : Services) (fuel : Nat) (s : REQUEST)
    (hphase : s.request_state = request_state_t.REQUEST_SEND)
    (hstop : (interpret env s).2.master_state ≠ master_state_t.REQUEST_STOP_PROCESSING)
    (hyield : (interpret env s).1 ≠ rlm_rcode_t.RLM_MODULE_YIELD)
    (hfail : failure_set (interpret env s).1)
    (hack : (interpret env s).2.reply_code = (s.packet_code + 1) % 2 ^ 32)
    (hnone : fr_dict_enum_by_value env.da ((s.packet_code + 2) % 2 ^ 32) = none ∨
      ∃ dv2, fr_dict_enum_by_value env.da ((s.packet_code + 2) % 2 ^ 32) = some dv2 ∧
        cf_section_find s.server_cs "send" dv2.alias_ = none) :
    mod_process env (fuel + 1) s fr_io_action_t.FR_IO_ACTION_RUN
      = some (send_reply env (nak_fallback env (interpret env s).2)) ∧
    (send_reply env (nak_fallback env (interpret env s).2)).2.reply_code
      = (s.packet_code + 2) % 2 ^ 32 ∧
    (send_reply env (nak_fallback env (interpret env s).2)).2.request_state
      = request_state_t.REQUEST_SEND ∧
    (send_reply env (nak_fallback env (interpret env s).2)).2.unlang_calls
      = s.unlang_calls ++ [unlang_call.interpret] ∧
    (s.parent = false → (s.packet_code + 2) % 2 ^ 32 ≠ env.FR_CODE_DO_NOT_RESPOND →
      (send_reply env (nak_fallback env (interpret env s).2)).1
        = fr_io_final_t.FR_IO_REPLY) := by
  have hfr := interpret_frame env s
  have hnf := nak_fallback_frame env (interpret env s).2
  have hnf2 := nak_fallback_frame2 env (interpret env s).2
  have hsr := send_reply_frame env (nak_fallback env (interpret env s).2)
  have hfind : find_send env (nak_fallback env (interpret env s).2) = none := by
    rw [find_send_nak_fallback, hfr.2.1, hfr.2.2.1]
    show (fr_dict_enum_by_value env.da ((s.packet_code + 2) % 2 ^ 32)).bind _ = _
    rcases hnone with h | ⟨dv2, h1, h2⟩
    · rw [h]
      rfl
    · rw [h1]
      exact h2
  have hcode : (nak_fallback env (interpret env s).2).reply_code
      = (s.packet_code + 2) % 2 ^ 32 := by
    rw [hnf.1, hfr.2.1]
    rfl
  refine ⟨?_, ?_, ?_, ?_, ?_⟩
  · rw [mod_process_fallback env fuel s hphase hstop hyield hfail hack, hfind]
  · rw [hsr.1, hcode]
  · rw [hsr.2.1, hnf.2.2.1, hfr.1, hphase]
  · rw [hsr.2.2.1, hnf.2.2.2.1, hfr.2.2.2.2.2.2.1]
  · intro hext hdnr
    apply send_reply_external
    · rw [hcode]
      exact hdnr
    · rw [hnf2.1, hfr.2.2.2.1, hext]

/-- The witness of `nak_without_section`: `send CoA-ACK` of a CoA-Request fails
on a server without `send CoA-NAK`; the call returns REPLY with reply code 45
and nothing pushed. -/
theorem nak_without_section_witness :
    (mod_process (scripted [rlm_rcode_t.RLM_MODULE_REJECT]) 1
      { coa_request request_state_t.REQUEST_SEND 44 [] with
        server_cs := [⟨"recv", "CoA-Request", "default"⟩, ⟨"send", "CoA-ACK", "default"⟩] }
      fr_io_action_t.FR_IO_ACTION_RUN).map
        (fun r => (r.1, r.2.reply_code, r.2.unlang_calls))
      = some (fr_io_final_t.FR_IO_REPLY, 45, [unlang_call.interpret]) :=
  (congrArg (Option.map (fun r => (r.1, r.2.reply_code, r.2.unlang_calls)))
    (nak_without_section (scripted [rlm_rcode_t.RLM_MODULE_REJECT]) 0
      { coa_request request_state_t.REQUEST_SEND 44 [] with
        server_cs := [⟨"recv", "CoA-Request", "default"⟩, ⟨"send", "CoA-ACK", "default"⟩] }
      (by decide) (by decide) (by decide) (by decide) (by decide)
      (Or.inr ⟨⟨"CoA-NAK", 45⟩, by decide, by decide⟩)).1).trans (by decide)

/-! ## FAIL, and the alias of the reply code in the SEND state -/

/-- C18. A value returned by `mod_process` is FAIL if and only if the action is
RUN and either the state is INIT and the packet code has no alias or no recv
section is bound to its alias, or the state is outside INIT, RECEIVE and
SEND; in those cases FAIL is returned whatever the fuel.  A RUN call in
RECEIVE or SEND never returns FAIL, whatever the interpreter does, and with
an interpreter that leaves the reply code of SEND-state requests alone every
call returns, with any fuel from 2 on. -/
theorem fail_characterisation (env : Services) (s : REQUEST) (a : fr_io_action_t) :
    (∀ (fuel : Nat) (f : fr_io_final_t) (s' : REQUEST),
      mod_process env fuel s a = some (f, s') →
      (f = fr_io_final_t.FR_IO_FAIL ↔
        a = fr_io_action_t.FR_IO_ACTION_RUN ∧
        ((s.request_state = request_state_t.REQUEST_INIT ∧
            (fr_dict_enum_by_value env.da s.packet_code = none ∨
              ∃ dv, fr_dict_enum_by_value env.da s.packet_code = some dv ∧
                cf_section_find s.server_cs "recv" dv.alias_ = none)) ∨
          ∃ k, s.request_state = request_state_t.other k))) ∧
    (a = fr_io_action_t.FR_IO_ACTION_RUN →
      ((s.request_state = request_state_t.REQUEST_INIT ∧
          (fr_dict_enum_by_value env.da s.packet_code = none ∨
            ∃ dv, fr_dict_enum_by_value env.da s.packet_code = some dv ∧
              cf_section_find s.server_cs "recv" dv.alias_ = none)) ∨
        ∃ k, s.request_state = request_state_t.other k) →
      ∀ fuel : Nat, ∃ s', mod_process env fuel s a = some (fr_io_final_t.FR_IO_FAIL, s')) ∧
    (a = fr_io_action_t.FR_IO_ACTION_RUN →
      s.request_state = request_state_t.REQUEST_RECV ∨
        s.request_state = request_state_t.REQUEST_SEND →
      ∀ (fuel : Nat) (f : fr_io_final_t) (s' : REQUEST),
        mod_process env fuel s a = some (f, s') → f ≠ fr_io_final_t.FR_IO_FAIL) ∧
    ((∀ t : REQUEST, t.request_state = request_state_t.REQUEST_SEND →
        (env.unlang_interpret_continue t).2.reply_code = t.reply_code) →
      ∃ f s', ∀ n, mod_process env (n + 2) s a = some (f, s')) := by
  refine ⟨?_, ?_, ?_, ?_⟩
  · intro fuel f s' h
    obtain ⟨_, _, _, _, q5, q6, q7, q8, q9⟩ := mod_process_safe env fuel s a f s' h
    constructor
    · intro hf
      have ha : a = fr_io_action_t.FR_IO_ACTION_RUN := by
        by_contra hne
        rw [(q5 hne).1] at hf
        cases hf
      refine ⟨ha, ?_⟩
      cases hph : s.request_state with
      | REQUEST_INIT =>
        left
        rcases q6 ha hph with ⟨_, _, h3⟩ | ⟨h1, _, _⟩
        · exact ⟨rfl, (no_recv_section_iff env s).mp h3⟩
        · exact absurd hf h1
      | REQUEST_RECV => exact absurd hf (q7 ha hph).1
      | REQUEST_SEND => exact absurd hf (q8 ha hph).1
      | other k => exact Or.inr ⟨k, rfl⟩
    · rintro ⟨ha, ⟨hph, hno⟩ | ⟨k, hk⟩⟩
      · rcases q6 ha hph with ⟨h1, _, _⟩ | ⟨_, h2, _⟩
        · exact h1
        · rw [(no_recv_section_iff env s).mpr hno] at h2
          cases h2
      · exact (q9 ha k hk).1
  · intro ha hcond fuel
    subst ha
    rcases hcond with ⟨hph, h1 | ⟨dv, h1, h2⟩⟩ | ⟨k, hk⟩
    · exact ⟨{ s with component := "radius" },
        by simp [mod_process, hph, case_REQUEST_INIT, h1]⟩
    · exact ⟨{ s with component := "radius" },
        by simp [mod_process, hph, case_REQUEST_INIT, h1, h2]⟩
    · exact ⟨s, by simp [mod_process, hk]⟩
  · intro ha hph fuel f s' h
    obtain ⟨_, _, _, _, _, _, q7, q8, _⟩ := mod_process_safe env fuel s a f s' h
    rcases hph with hph | hph
    · exact (q7 ha hph).1
    · exact (q8 ha hph).1
  · intro hkeep
    obtain ⟨f, s', hrun, _⟩ := mod_process_total env hkeep s a
    exact ⟨f, s', hrun⟩

/-- The witness of `fail_characterisation`: a RUN call on a request in a state
outside the three returns FAIL; a RUN call in SEND whose section returns
REJECT does not. -/
theorem fail_characterisation_witness :
    (∃ s', mod_process (scripted []) 0 (coa_request (request_state_t.other 5) 0 [])
      fr_io_action_t.FR_IO_ACTION_RUN = some (fr_io_final_t.FR_IO_FAIL, s')) ∧
    (mod_process (scripted [rlm_rcode_t.RLM_MODULE_REJECT]) 2
      (coa_request request_state_t.REQUEST_SEND 45 [])
      fr_io_action_t.FR_IO_ACTION_RUN).map (fun r => (r.1, r.2.reply_code))
      = some (fr_io_final_t.FR_IO_REPLY, 45) :=
  ⟨(fail_characterisation (scripted []) (coa_request (request_state_t.other 5) 0 [])
      fr_io_action_t.FR_IO_ACTION_RUN).2.1 rfl (Or.inr ⟨5, rfl⟩) 0,
   by decide⟩

/-- C19, as the claim states it, fails: on a server with `recv CoA-Request` and
`send CoA-ACK` but no `send CoA-NAK`, with an interpreter that never writes
the reply code, a CoA-Request (code 43) starts in INIT; the receive section
returns OK, `send CoA-ACK` returns REJECT, the fallback sets the reply code
to 45 and, finding no section, goes to `send_reply`.  The request is then in
the SEND state with reply code 45, whose alias CoA-NAK has no send section. -/
theorem send_alias_invariant_counterexample :
    (∀ t : REQUEST,
      ((scripted [rlm_rcode_t.RLM_MODULE_OK,
        rlm_rcode_t.RLM_MODULE_REJECT]).unlang_interpret_continue t).2.reply_code
        = t.reply_code) ∧
    (drive (scripted [rlm_rcode_t.RLM_MODULE_OK, rlm_rcode_t.RLM_MODULE_REJECT]) 2
      { coa_request request_state_t.REQUEST_INIT 0 [] with
        server_cs := [⟨"recv", "CoA-Request", "default"⟩, ⟨"send", "CoA-ACK", "default"⟩] }
      [fr_io_action_t.FR_IO_ACTION_RUN]).map
        (fun r => (r.request_state, r.reply_code,
          fr_dict_enum_by_value coa_dict r.reply_code,
          cf_section_find r.server_cs "send" "CoA-NAK",
          r.nak_fallbacks))
      = some (request_state_t.REQUEST_SEND, 45, some ⟨"CoA-NAK", 45⟩, none,
          [some ⟨"CoA-ACK", 44⟩]) :=
  ⟨fun _ => rfl, by rfl⟩

/-- C19, amended. With a fixed dictionary and configuration and an interpreter
that does not write the reply code (`unlang_interpret_continue` on SEND-state
requests, `unlang_signal`), after every sequence of calls of `mod_process`
on a request that starts in INIT: if the state is SEND, the reply code has
an alias with a send section bound to it, or it is `packet code + 2`, where
the fallback left it; so whenever the reply code is `packet code + 1` in the
SEND state its enumeration entry exists, and every lookup that the fallback
branch made for its warning found an entry. -/
theorem send_alias_invariant (env : Services)
    (hkeep : ∀ t : REQUEST, t.request_state = request_state_t.REQUEST_SEND →
      (env.unlang_interpret_continue t).2.reply_code = t.reply_code)
    (hsig : ∀ (t : REQUEST) (a : fr_io_action_t),
      (env.unlang_signal t a).reply_code = t.reply_code)
    (s : REQUEST) (hphase : s.request_state = request_state_t.REQUEST_INIT)
    (actions : List fr_io_action_t) :
    ∃ s', (∀ n, drive env (n + 2) s actions = some s') ∧
      (s'.request_state = request_state_t.REQUEST_SEND →
        (∃ dv unlang, fr_dict_enum_by_value env.da s'.reply_code = some dv ∧
          cf_section_find s'.server_cs "send" dv.alias_ = some unlang) ∨
        s'.reply_code = (s'.packet_code + 2) % 2 ^ 32) ∧
      (s'.request_state = request_state_t.REQUEST_SEND →
        s'.reply_code = (s'.packet_code + 1) % 2 ^ 32 →
        ∃ dv, fr_dict_enum_by_value env.da s'.reply_code = some dv) ∧
      ∃ extra, s'.nak_fallbacks = s.nak_fallbacks ++ extra ∧ ∀ e ∈ extra, e ≠ none := by
  have hinv : s.request_state = request_state_t.REQUEST_SEND →
      find_send env s ≠ none ∨ s.reply_code = (s.packet_code + 2) % UINT32_MOD := by
    intro h
    rw [hphase] at h
    cases h
  obtain ⟨s', hd, h1, h2⟩ := drive_alias env hkeep hsig actions s hinv
  refine ⟨s', hd, ?_, ?_, h2⟩
  · intro h
    rcases h1 h with hi | hi
    · exact Or.inl (find_send_some env s' hi)
    · exact Or.inr hi
  · intro h hack
    rcases h1 h with hi | hi
    · obtain ⟨dv, _, hdv, _⟩ := find_send_some env s' hi
      exact ⟨dv, hdv⟩
    · exact absurd (hack.symm.trans hi) (ack_ne_nak s'.packet_code)

/-- The witness of `send_alias_invariant`: the CoA-Request of the
counterexample, on the server with all three sections. -/
theorem send_alias_invariant_witness :
    (drive (scripted [rlm_rcode_t.RLM_MODULE_OK, rlm_rcode_t.RLM_MODULE_REJECT]) 2
      (coa_request request_state_t.REQUEST_INIT 0 [])
      [fr_io_action_t.FR_IO_ACTION_RUN]).map
        (fun r => (r.request_state, r.reply_code, r.nak_fallbacks))
      = some (request_state_t.REQUEST_SEND, 45, [some ⟨"CoA-ACK", 44⟩]) ∧
    ∃ s', (∀ n, drive (scripted [rlm_rcode_t.RLM_MODULE_OK, rlm_rcode_t.RLM_MODULE_REJECT])
        (n + 2) (coa_request request_state_t.REQUEST_INIT 0 [])
        [fr_io_action_t.FR_IO_ACTION_RUN] = some s') ∧
      ∃ extra, s'.nak_fallbacks
        = (coa_request request_state_t.REQUEST_INIT 0 []).nak_fallbacks ++ extra ∧
        ∀ e ∈ extra, e ≠ none :=
  ⟨by decide,
   (send_alias_invariant (scripted [rlm_rcode_t.RLM_MODULE_OK, rlm_rcode_t.RLM_MODULE_REJECT])
      (fun _ _ => rfl) (fun _ _ => rfl) (coa_request request_state_t.REQUEST_INIT 0 [])
      (by decide) [fr_io_action_t.FR_IO_ACTION_RUN]).imp
      (fun _ h => ⟨h.1, h.2.2.2⟩)⟩

/-! ## A send section that completes, in one call and across resumed calls -/

theorem send_phase_post_nak (fb : List (Option fr_dict_enum_t)) (c : Nat) (s' : REQUEST)
    (h : send_phase_post fb c ((c + 2) % UINT32_MOD) s') :
    s'.reply_code = (c + 2) % UINT32_MOD := by
  rcases h with ⟨_, h⟩ | ⟨_, h, _⟩
  · exact h
  · exact absurd h.symm (ack_ne_nak c)

/-- A SEND-state run whose first `unlang_interpret_continue` completes (not
stopped, not YIELD), with an interpreter that leaves the reply code of
SEND-state requests alone: the reply code of the result is `packet code + 2`
when the result code is in the failure set and the reply code was
`packet code + 1`; otherwise the run is `send_reply` on the request the
interpreter left, the reply code as it was. -/
theorem case_send_completed (env : Services)
    (hkeep : ∀ t : REQUEST, t.request_state = request_state_t.REQUEST_SEND →
      (env.unlang_interpret_continue t).2.reply_code = t.reply_code)
    (t : REQUEST) (ht : t.request_state = request_state_t.REQUEST_SEND)
    (hs : (interpret env t).2.master_state ≠ master_state_t.REQUEST_STOP_PROCESSING)
    (hy : (interpret env t).1 ≠ rlm_rcode_t.RLM_MODULE_YIELD)
    (fuel : Nat) (f : fr_io_final_t) (s' : REQUEST)
    (h : case_REQUEST_SEND env fuel t = some (f, s')) :
    (failure_set (interpret env t).1 ∧ t.reply_code = (t.packet_code + 1) % UINT32_MOD →
      s'.reply_code = (t.packet_code + 2) % UINT32_MOD ∧
      s'.request_state = request_state_t.REQUEST_SEND ∧ s'.packet_code = t.packet_code) ∧
    (¬ (failure_set (interpret env t).1 ∧ t.reply_code = (t.packet_code + 1) % UINT32_MOD) →
      send_reply env (interpret env t).2 = (f, s') ∧ s'.reply_code = t.reply_code) := by
  have hfr := interpret_frame env t
  have hrc : (interpret env t).2.reply_code = t.reply_code := by
    rw [hfr.2.2.2.2.2.2.2, hkeep t ht]
  obtain ⟨_, hst, hpc, _⟩ := case_send_post env hkeep t ht fuel f s' h
  cases fuel with
  | zero => simp [case_REQUEST_SEND] at h
  | succ n =>
    rw [case_send_step env n t hs hy] at h
    constructor
    · rintro ⟨hf, hg⟩
      have hg' : (interpret env t).2.reply_code
          = ((interpret env t).2.packet_code + 1) % UINT32_MOD := by
        rw [hrc, hfr.2.1, hg]
      have hnf := nak_fallback_frame env (interpret env t).2
      rw [send_rcode_failure env _ _ hf, if_pos hg'] at h
      refine ⟨?_, hst, hpc⟩
      cases hfn : find_send env (nak_fallback env (interpret env t).2) with
      | none =>
        rw [hfn] at h
        have he : send_reply env (nak_fallback env (interpret env t).2) = (f, s') :=
          Option.some.inj h
        rw [← (show _ = s' from congrArg Prod.snd he), (send_reply_frame env _).1, hnf.1,
          hfr.2.1]
      | some u2 =>
        rw [hfn] at h
        dsimp only at h
        have htf := rerun_nak_frame (nak_fallback env (interpret env t).2) u2
        have hp2 : (rerun_nak (nak_fallback env (interpret env t).2) u2).packet_code
            = t.packet_code := by
          rw [htf.2.1, hnf.2.1, hfr.2.1]
        have hr2 : (rerun_nak (nak_fallback env (interpret env t).2) u2).reply_code
            = (t.packet_code + 2) % UINT32_MOD := by
          rw [htf.2.2.1, hnf.1, hfr.2.1]
        obtain ⟨_, _, _, p3⟩ := case_send_post env hkeep _ htf.1 n f s' h
        rw [hp2, hr2] at p3
        exact send_phase_post_nak _ _ _ p3
    · intro hno
      have hsr : send_rcode env (interpret env t).2 (interpret env t).1
          = (send_next.goto_send_reply, (interpret env t).2) := by
        by_cases hf : failure_set (interpret env t).1
        · rw [send_rcode_failure env _ _ hf, if_neg]
          rw [hrc, hfr.2.1]
          exact fun hh => hno ⟨hf, hh⟩
        · exact send_rcode_not_failure env _ _ hf
      rw [hsr] at h
      have he : send_reply env (interpret env t).2 = (f, s') := Option.some.inj h
      refine ⟨he, ?_⟩
      rw [← (show _ = s' from congrArg Prod.snd he), (send_reply_frame env _).1, hrc]

/-- Once the reply code of a SEND-state request is `packet code + 2` it stays
so over the calls that resume the request. -/
theorem run_send_nak (env : Services)
    (hkeep : ∀ t : REQUEST, t.request_state = request_state_t.REQUEST_SEND →
      (env.unlang_interpret_continue t).2.reply_code = t.reply_code)
    (fuel k : Nat) (t : REQUEST) (f : fr_io_final_t) (s' : REQUEST)
    (ht : t.request_state = request_state_t.REQUEST_SEND)
    (hnak : t.reply_code = (t.packet_code + 2) % UINT32_MOD)
    (h : run_to_final env fuel k t = some (f, s')) :
    s'.reply_code = (t.packet_code + 2) % UINT32_MOD := by
  obtain ⟨_, _, _, p3⟩ := send_run_post env hkeep fuel k t f s' ht h
  rw [hnak] at p3
  exact send_phase_post_nak _ _ _ p3

/-- The same as `case_send_completed` for the end of the calls that resume the
request: a NAK section that yields does not change the reply code. -/
theorem run_send_completed (env : Services)
    (hkeep : ∀ t : REQUEST, t.request_state = request_state_t.REQUEST_SEND →
      (env.unlang_interpret_continue t).2.reply_code = t.reply_code)
    (t : REQUEST) (ht : t.request_state = request_state_t.REQUEST_SEND)
    (hs : (interpret env t).2.master_state ≠ master_state_t.REQUEST_STOP_PROCESSING)
    (hy : (interpret env t).1 ≠ rlm_rcode_t.RLM_MODULE_YIELD)
    (fuel k : Nat) (f : fr_io_final_t) (s' : REQUEST)
    (h : run_to_final env fuel k t = some (f, s')) :
    (failure_set (interpret env t).1 ∧ t.reply_code = (t.packet_code + 1) % UINT32_MOD →
      s'.reply_code = (t.packet_code + 2) % UINT32_MOD) ∧
    (¬ (failure_set (interpret env t).1 ∧ t.reply_code = (t.packet_code + 1) % UINT32_MOD) →
      send_reply env (interpret env t).2 = (f, s') ∧ s'.reply_code = t.reply_code) := by
  have hcall : mod_process env fuel t fr_io_action_t.FR_IO_ACTION_RUN
      = case_REQUEST_SEND env fuel t := by
    simp [mod_process, ht]
  cases k with
  | zero =>
    rw [run_to_final, hcall] at h
    have hc := case_send_completed env hkeep t ht hs hy fuel f s' h
    exact ⟨fun hcond => (hc.1 hcond).1, hc.2⟩
  | succ k =>
    rw [run_to_final, hcall] at h
    cases hm : case_REQUEST_SEND env fuel t with
    | none =>
      rw [hm] at h
      cases h
    | some r =>
      obtain ⟨f1, s1⟩ := r
      have hc := case_send_completed env hkeep t ht hs hy fuel f1 s1 hm
      rw [hm] at h
      by_cases hyf : f1 = fr_io_final_t.FR_IO_YIELD
      · subst hyf
        have h' : run_to_final env fuel k s1 = some (f, s') := h
        constructor
        · intro hcond
          obtain ⟨a1, a2, a3⟩ := hc.1 hcond
          have hn := run_send_nak env hkeep fuel k s1 f s' a2 (by rw [a1, a3]) h'
          rw [hn, a3]
        · intro hno
          have he := (hc.2 hno).1
          have h1 : (send_reply env (interpret env t).2).1 = fr_io_final_t.FR_IO_YIELD := by
            rw [he]
          rcases send_reply_final env (interpret env t).2 with hh | hh <;>
            rw [h1] at hh <;> cases hh
      · have h' : some (f1, s1) = some (f, s') := by
          cases f1 <;> first | exact absurd rfl hyf | exact h
        obtain ⟨rfl, rfl⟩ := Prod.mk.inj (Option.some.inj h')
        exact ⟨fun hcond => (hc.1 hcond).1, hc.2⟩

/-- An interpreter that leaves the reply code of SEND-state requests alone
leaves it alone over `n` continuations of such a request. -/
theorem resumed_keep (env : Services)
    (hkeep : ∀ t : REQUEST, t.request_state = request_state_t.REQUEST_SEND →
      (env.unlang_interpret_continue t).2.reply_code = t.reply_code)
    (n : Nat) :
    ∀ s : REQUEST, s.request_state = request_state_t.REQUEST_SEND →
      (resumed env n s).reply_code = s.reply_code := by
  induction n with
  | zero => exact fun s _ => rfl
  | succ n ih =>
    intro s hs
    have hfr := interpret_frame env s
    show (resumed env n (interpret env s).2).reply_code = _
    rw [ih _ (hfr.1.trans hs), hfr.2.2.2.2.2.2.2, hkeep s hs]

/-- A SEND-state request whose section yields `n` times: a run that reaches an
outcome other than YIELD made those `n` calls first, and goes on from the
request the interpreter left after them. -/
theorem run_after_yields (env : Services) (fuel : Nat) (n : Nat) :
    ∀ (t : REQUEST) (k : Nat) (f : fr_io_final_t) (s' : REQUEST),
      t.request_state = request_state_t.REQUEST_SEND →
      keeps_yielding env n t = true →
      run_to_final env fuel k t = some (f, s') → f ≠ fr_io_final_t.FR_IO_YIELD →
      n ≤ k ∧ run_to_final env fuel (k - n) (resumed env n t) = some (f, s') := by
  induction n with
  | zero =>
    intro t k f s' _ _ h _
    exact ⟨Nat.zero_le _, h⟩
  | succ n ih =>
    intro t k f s' ht hk h hf
    obtain ⟨h1, h2, h3⟩ := (keeps_yielding_succ env n t).mp hk
    cases fuel with
    | zero =>
      have hnone : mod_process env 0 t fr_io_action_t.FR_IO_ACTION_RUN = none := by
        simp [mod_process, ht, case_REQUEST_SEND]
      cases k <;> simp [run_to_final, hnone] at h
    | succ m =>
      have hrun := mod_process_yield env m t (Or.inr ht) h1 h2
      cases k with
      | zero =>
        rw [run_to_final, hrun] at h
        exact absurd (Prod.mk.inj (Option.some.inj h)).1.symm hf
      | succ k =>
        rw [run_to_final, hrun] at h
        obtain ⟨q1, q2⟩ :=
          ih (interpret env t).2 k f s' ((interpret_frame env t).1.trans ht) h3 h hf
        refine ⟨Nat.succ_le_succ q1, ?_⟩
        rw [Nat.add_sub_add_right]
        exact q2

/-- The call in which the receive section completes and a send section is
found goes on as the SEND-state call on the request with that section
pushed; so do the calls that resume the request. -/
theorem run_recv_completed (env : Services) (s : REQUEST) (unlang : CONF_SECTION)
    (hphase : s.request_state = request_state_t.REQUEST_RECV)
    (hstop : (interpret env s).2.master_state ≠ master_state_t.REQUEST_STOP_PROCESSING)
    (hyield : (interpret env s).1 ≠ rlm_rcode_t.RLM_MODULE_YIELD)
    (hfs : find_send env (after_recv env s) = some unlang) (fuel k : Nat) :
    run_to_final env fuel k s
      = run_to_final env fuel k (rerun_nak (after_recv env s) unlang) := by
  have hm : mod_process env fuel s fr_io_action_t.FR_IO_ACTION_RUN
      = mod_process env fuel (rerun_nak (after_recv env s) unlang)
          fr_io_action_t.FR_IO_ACTION_RUN := by
    rw [mod_process_recv env fuel s hphase hstop hyield]
    change select_send env fuel (after_recv env s) = _
    simp [select_send, hfs, mod_process, (rerun_nak_frame (after_recv env s) unlang).1]
  cases k <;> simp only [run_to_final, hm]

/-- With an interpreter that leaves the reply code of SEND-state requests
alone, every run of resumed calls returns when each call has fuel 2. -/
theorem run_to_final_total (env : Services)
    (hkeep : ∀ t : REQUEST, t.request_state = request_state_t.REQUEST_SEND →
      (env.unlang_interpret_continue t).2.reply_code = t.reply_code)
    (n k : Nat) :
    ∀ s : REQUEST, ∃ r, run_to_final env (n + 2) k s = some r := by
  induction k with
  | zero =>
    intro s
    obtain ⟨f, s', h, _⟩ := mod_process_total env hkeep s fr_io_action_t.FR_IO_ACTION_RUN
    exact ⟨(f, s'), by rw [run_to_final, h n]⟩
  | succ k ih =>
    intro s
    obtain ⟨f, s', h, _⟩ := mod_process_total env hkeep s fr_io_action_t.FR_IO_ACTION_RUN
    rw [run_to_final, h n]
    by_cases hy : f = fr_io_final_t.FR_IO_YIELD
    · subst hy
      exact ih s'
    · exact ⟨(f, s'), by cases f <;> first | exact absurd rfl hy | rfl⟩

/-! ## The fallback guard and the override, on the results of `mod_process` -/

/-- C4. When a send section completes (RUN, state SEND, not stopped, not YIELD)
with result `r`, `mod_process` changes the reply code exactly when it equals
`packet code + 1` and `r` is in the failure set, and then to
`packet code + 2`.  In that case the call goes on with the request whose reply
code is `packet code + 2`: to `send_reply` when no send section is bound to
the alias of that code, and the call returns that reply code; otherwise to
the interpreter again, in the same call, with that section pushed.  The pass
through the fallback branch is recorded in the request the call returns
exactly in that case; and with an interpreter that leaves the reply code
alone, the reply code in the request the call returns differs from the one
the send section left exactly in that case, and is `packet code + 2`.  In
every other case the request is left as the interpreter returned it, nothing
is pushed and the call ends in `send_reply`. -/
theorem nak_fallback_guard (env : Services) (fuel : Nat) (s : REQUEST)
    (hphase : s.request_state = request_state_t.REQUEST_SEND)
    (hstop : (interpret env s).2.master_state ≠ master_state_t.REQUEST_STOP_PROCESSING)
    (hyield : (interpret env s).1 ≠ rlm_rcode_t.RLM_MODULE_YIELD) :
    ((send_rcode env (interpret env s).2 (interpret env s).1).2.reply_code
        ≠ (interpret env s).2.reply_code ↔
      (interpret env s).2.reply_code = (s.packet_code + 1) % 2 ^ 32 ∧
        failure_set (interpret env s).1) ∧
    ((interpret env s).2.reply_code = (s.packet_code + 1) % 2 ^ 32 ∧
        failure_set (interpret env s).1 →
      (send_rcode env (interpret env s).2 (interpret env s).1).2.reply_code
        = (s.packet_code + 2) % 2 ^ 32) ∧
    (¬ ((interpret env s).2.reply_code = (s.packet_code + 1) % 2 ^ 32 ∧
        failure_set (interpret env s).1) →
      send_rcode env (interpret env s).2 (interpret env s).1
        = (send_next.goto_send_reply, (interpret env s).2) ∧
      mod_process env (fuel + 1) s fr_io_action_t.FR_IO_ACTION_RUN
        = some (send_reply env (interpret env s).2) ∧
      (send_reply env (interpret env s).2).2.reply_code = (interpret env s).2.reply_code ∧
      (send_reply env (interpret env s).2).2.unlang_calls
        = s.unlang_calls ++ [unlang_call.interpret]) ∧
    ((interpret env s).2.reply_code = (s.packet_code + 1) % 2 ^ 32 ∧
        failure_set (interpret env s).1 →
      (mod_process env (fuel + 1) s fr_io_action_t.FR_IO_ACTION_RUN
        = match find_send env (nak_fallback env (interpret env s).2) with
          | some unlang =>
            case_REQUEST_SEND env fuel (rerun_nak (nak_fallback env (interpret env s).2) unlang)
          | none => some (send_reply env (nak_fallback env (interpret env s).2))) ∧
      (nak_fallback env (interpret env s).2).reply_code = (s.packet_code + 2) % 2 ^ 32 ∧
      (find_send env (nak_fallback env (interpret env s).2) = none →
        mod_process env (fuel + 1) s fr_io_action_t.FR_IO_ACTION_RUN
          = some (send_reply env (nak_fallback env (interpret env s).2)) ∧
        (send_reply env (nak_fallback env (interpret env s).2)).2.reply_code
          = (s.packet_code + 2) % 2 ^ 32 ∧
        (send_reply env (nak_fallback env (interpret env s).2)).2.unlang_calls
          = s.unlang_calls ++ [unlang_call.interpret]) ∧
      (∀ unlang, find_send env (nak_fallback env (interpret env s).2) = some unlang →
        mod_process env (fuel + 1) s fr_io_action_t.FR_IO_ACTION_RUN
          = case_REQUEST_SEND env fuel
              (rerun_nak (nak_fallback env (interpret env s).2) unlang) ∧
        (rerun_nak (nak_fallback env (interpret env s).2) unlang).reply_code
          = (s.packet_code + 2) % 2 ^ 32 ∧
        (rerun_nak (nak_fallback env (interpret env s).2) unlang).unlang_calls
          = s.unlang_calls ++
            [unlang_call.interpret, unlang_call.push unlang rlm_rcode_t.RLM_MODULE_NOOP])) ∧
    (∀ (f : fr_io_final_t) (s' : REQUEST),
      mod_process env (fuel + 1) s fr_io_action_t.FR_IO_ACTION_RUN = some (f, s') →
      (s'.nak_fallbacks ≠ s.nak_fallbacks ↔
        (interpret env s).2.reply_code = (s.packet_code + 1) % 2 ^ 32 ∧
          failure_set (interpret env s).1)) ∧
    ((∀ t : REQUEST, t.request_state = request_state_t.REQUEST_SEND →
        (env.unlang_interpret_continue t).2.reply_code = t.reply_code) →
      (∀ (f : fr_io_final_t) (s' : REQUEST),
        mod_process env (fuel + 1) s fr_io_action_t.FR_IO_ACTION_RUN = some (f, s') →
        (s'.reply_code ≠ (interpret env s).2.reply_code ↔
          (interpret env s).2.reply_code = (s.packet_code + 1) % 2 ^ 32 ∧
            failure_set (interpret env s).1) ∧
        ((interpret env s).2.reply_code = (s.packet_code + 1) % 2 ^ 32 ∧
            failure_set (interpret env s).1 →
          s'.reply_code = (s.packet_code + 2) % 2 ^ 32)) ∧
      ∃ f s', ∀ n, mod_process env (n + 2) s fr_io_action_t.FR_IO_ACTION_RUN = some (f, s')) := by
  have hfr := interpret_frame env s
  have hrc := send_rcode_reply_code env (interpret env s).2 (interpret env s).1
  rw [hfr.2.1] at hrc
  have hne := ack_ne_nak s.packet_code
  simp only [UINT32_MOD] at hrc hne
  have hnf := nak_fallback_frame env (interpret env s).2
  have hcode : (nak_fallback env (interpret env s).2).reply_code
      = (s.packet_code + 2) % 2 ^ 32 := by
    rw [hnf.1, hfr.2.1]
    rfl
  have hplain : ¬ ((interpret env s).2.reply_code = (s.packet_code + 1) % 2 ^ 32 ∧
      failure_set (interpret env s).1) →
      mod_process env (fuel + 1) s fr_io_action_t.FR_IO_ACTION_RUN
        = some (send_reply env (interpret env s).2) := by
    intro h
    have hsr : send_rcode env (interpret env s).2 (interpret env s).1
        = (send_next.goto_send_reply, (interpret env s).2) := by
      by_cases hf : failure_set (interpret env s).1
      · rw [send_rcode_failure env _ _ hf, if_neg]
        rw [hfr.2.1]
        exact fun hh => h ⟨hh, hf⟩
      · exact send_rcode_not_failure env _ _ hf
    rw [mod_process_send env fuel s hphase hstop hyield, hsr]
  refine ⟨?_, ?_, ?_, ?_, ?_, ?_⟩
  · rw [hrc]
    constructor
    · intro h
      by_contra hc
      rw [if_neg (fun hh => hc ⟨hh.2, hh.1⟩)] at h
      exact h rfl
    · intro h
      rw [if_pos ⟨h.2, h.1⟩, h.1]
      exact fun hh => hne hh.symm
  · intro h
    rw [hrc, if_pos ⟨h.2, h.1⟩]
  · intro h
    have hsr : send_rcode env (interpret env s).2 (interpret env s).1
        = (send_next.goto_send_reply, (interpret env s).2) := by
      by_cases hf : failure_set (interpret env s).1
      · rw [send_rcode_failure env _ _ hf, if_neg]
        rw [hfr.2.1]
        exact fun hh => h ⟨hh, hf⟩
      · exact send_rcode_not_failure env _ _ hf
    refine ⟨hsr, hplain h, (send_reply_frame env _).1, ?_⟩
    rw [(send_reply_frame env _).2.2.1, hfr.2.2.2.2.2.2.1]
  · intro h
    have hfb := mod_process_fallback env fuel s hphase hstop hyield h.2 h.1
    refine ⟨hfb, hcode, ?_, ?_⟩
    · intro hnone
      rw [hnone] at hfb
      refine ⟨hfb, ?_, ?_⟩
      · rw [(send_reply_frame env _).1, hcode]
      · rw [(send_reply_frame env _).2.2.1, hnf.2.2.2.1, hfr.2.2.2.2.2.2.1]
    · intro unlang hsome
      rw [hsome] at hfb
      have htf := rerun_nak_frame (nak_fallback env (interpret env s).2) unlang
      refine ⟨hfb, ?_, ?_⟩
      · rw [htf.2.2.1, hcode]
      · rw [htf.2.2.2.2.2, hnf.2.2.2.1, hfr.2.2.2.2.2.2.1]
        simp
  · intro f s' hrun
    by_cases h : (interpret env s).2.reply_code = (s.packet_code + 1) % 2 ^ 32 ∧
        failure_set (interpret env s).1
    · refine ⟨fun _ => h, fun _ => ?_⟩
      have hfb := mod_process_fallback env fuel s hphase hstop hyield h.2 h.1
      rw [hfb] at hrun
      have hlen : ∀ extra : List (Option fr_dict_enum_t),
          s'.nak_fallbacks = (nak_fallback env (interpret env s).2).nak_fallbacks ++ extra →
          s'.nak_fallbacks ≠ s.nak_fallbacks := by
        intro extra he hh
        have hl := congrArg List.length (he.symm.trans hh)
        rw [hnf.2.2.2.2.2, hfr.2.2.2.2.2.1] at hl
        simp at hl
      cases hfn : find_send env (nak_fallback env (interpret env s).2) with
      | none =>
        rw [hfn] at hrun
        have he : send_reply env (nak_fallback env (interpret env s).2) = (f, s') :=
          Option.some.inj hrun
        apply hlen []
        rw [← (show _ = s' from congrArg Prod.snd he), (send_reply_frame env _).2.2.2.1,
          List.append_nil]
      | some unlang =>
        rw [hfn] at hrun
        dsimp only at hrun
        obtain ⟨extra, he, _⟩ := case_send_record env fuel _ f s' hrun
        exact hlen extra (by rw [he, (rerun_nak_frame _ unlang).2.2.2.1])
    · refine ⟨fun hh => ?_, fun hh => absurd hh h⟩
      rw [hplain h] at hrun
      have he : send_reply env (interpret env s).2 = (f, s') := Option.some.inj hrun
      exact absurd (by rw [← (show _ = s' from congrArg Prod.snd he),
        (send_reply_frame env _).2.2.2.1, hfr.2.2.2.2.2.1]) hh
  · intro hkeep
    have hk : (interpret env s).2.reply_code = s.reply_code := by
      rw [hfr.2.2.2.2.2.2.2, hkeep s hphase]
    refine ⟨?_, ?_⟩
    · intro f s' hrun
      have hcall : mod_process env (fuel + 1) s fr_io_action_t.FR_IO_ACTION_RUN
          = case_REQUEST_SEND env (fuel + 1) s := by
        simp [mod_process, hphase]
      rw [hcall] at hrun
      have hc := case_send_completed env hkeep s hphase hstop hyield (fuel + 1) f s' hrun
      simp only [UINT32_MOD] at hc
      rw [← hk] at hc
      by_cases h : (interpret env s).2.reply_code = (s.packet_code + 1) % 2 ^ 32 ∧
          failure_set (interpret env s).1
      · have h2 := (hc.1 ⟨h.2, h.1⟩).1
        refine ⟨⟨fun _ => h, fun _ => ?_⟩, fun _ => h2⟩
        rw [h2, h.1]
        exact fun hh => hne hh.symm
      · have h2 := (hc.2 (fun hh => h ⟨hh.2, hh.1⟩)).2
        exact ⟨⟨fun hh => absurd h2 hh, fun hh => absurd hh h⟩, fun hh => absurd hh h⟩
    · obtain ⟨f, s', h, _⟩ := mod_process_total env hkeep s fr_io_action_t.FR_IO_ACTION_RUN
      exact ⟨f, s', h⟩

/-- The witness of `nak_fallback_guard`: the section `send CoA-ACK` of a
CoA-Request with reply code 44 returns FAIL; the call runs `send CoA-NAK` and
returns REPLY, the reply code in the request it returns being 45. -/
theorem nak_fallback_guard_witness :
    (coa_request request_state_t.REQUEST_SEND 44 []).request_state
      = request_state_t.REQUEST_SEND ∧
    mod_process (scripted [rlm_rcode_t.RLM_MODULE_FAIL]) 2
      (coa_request request_state_t.REQUEST_SEND 44 []) fr_io_action_t.FR_IO_ACTION_RUN
      = some (fr_io_final_t.FR_IO_REPLY,
          { coa_request request_state_t.REQUEST_SEND 45 [] with
            unlang_calls := [unlang_call.interpret,
              unlang_call.push ⟨"send", "CoA-NAK", "default"⟩ rlm_rcode_t.RLM_MODULE_NOOP,
              unlang_call.interpret]
            nak_fallbacks := [some ⟨"CoA-ACK", 44⟩] }) ∧
    ({ coa_request request_state_t.REQUEST_SEND 45 [] with
        unlang_calls := [unlang_call.interpret,
          unlang_call.push ⟨"send", "CoA-NAK", "default"⟩ rlm_rcode_t.RLM_MODULE_NOOP,
          unlang_call.interpret]
        nak_fallbacks := [some ⟨"CoA-ACK", 44⟩] } : REQUEST).reply_code = (43 + 2) % 2 ^ 32 :=
  ⟨by decide, by decide,
   ((((nak_fallback_guard (scripted [rlm_rcode_t.RLM_MODULE_FAIL]) 1
      (coa_request request_state_t.REQUEST_SEND 44 [])
      (by decide) (by decide) (by decide)).2.2.2.2.2 (fun _ _ => rfl)).1
      fr_io_final_t.FR_IO_REPLY
      { coa_request request_state_t.REQUEST_SEND 45 [] with
        unlang_calls := [unlang_call.interpret,
          unlang_call.push ⟨"send", "CoA-NAK", "default"⟩ rlm_rcode_t.RLM_MODULE_NOOP,
          unlang_call.interpret]
        nak_fallbacks := [some ⟨"CoA-ACK", 44⟩] }
      (by decide)).2 (by decide))⟩

/-- C2, as the claim states it, fails: a CoA-Request (code 43) whose reply holds
Packet-Type = 44 while the receive section returns REJECT gets the reply code
44; the section `send CoA-ACK` then returns FAIL, the fallback of lines 165-182
sets the reply code to 45 and runs `send CoA-NAK`, and the call returns REPLY
with reply code 45, the pair Packet-Type = 44 still in the reply. -/
theorem final_override_counterexample :
    fr_pair_find_by_num
      (coa_request request_state_t.REQUEST_RECV 0 [⟨0, 1000, 44⟩]).reply_vps 0 1000
      = some ⟨0, 1000, 44⟩ ∧
    (mod_process
      (scripted [rlm_rcode_t.RLM_MODULE_REJECT, rlm_rcode_t.RLM_MODULE_FAIL,
        rlm_rcode_t.RLM_MODULE_OK]) 2
      (coa_request request_state_t.REQUEST_RECV 0 [⟨0, 1000, 44⟩])
      fr_io_action_t.FR_IO_ACTION_RUN).map
        (fun r => (r.1, r.2.reply_code, r.2.reply_vps, r.2.master_state))
      = some (fr_io_final_t.FR_IO_REPLY, 45, [⟨0, 1000, 44⟩],
          master_state_t.REQUEST_ACTIVE) := by
  decide

/-- C2, amended. The receive section of a request completes (RUN, state RECV,
not stopped, not YIELD) with a Packet-Type pair `vp` in the reply, and the
interpreter leaves the reply code alone while it runs send sections.  Then,
whatever the result of the receive section, when the request reaches the end
of its processing, in that call or in a later one after any number of YIELDs,
the outcome is REPLY or DONE and the reply code is `vp.vp_uint32`, unless the
fallback branch was passed: that happens at most once, only if `vp.vp_uint32`
is `packet code + 1`, and leaves the reply code `packet code + 2`.  The
fallback is tied to the result of the send section bound to the alias of
`vp.vp_uint32`: when that section, after yielding any number `n` of times,
completes with a result `r`, the reply code at the end of the processing is
`packet code + 2` if `vp.vp_uint32` is `packet code + 1` and `r` is in the
failure set, and `vp.vp_uint32` otherwise; it is `vp.vp_uint32` too when the
request is stopped while that section runs, and when no send section is bound
to the alias of `vp.vp_uint32`.  With fuel 2 for each call every such run
returns. -/
theorem final_override (env : Services) (s : REQUEST) (vp : VALUE_PAIR)
    (hphase : s.request_state = request_state_t.REQUEST_RECV)
    (hstop : (interpret env s).2.master_state ≠ master_state_t.REQUEST_STOP_PROCESSING)
    (hyield : (interpret env s).1 ≠ rlm_rcode_t.RLM_MODULE_YIELD)
    (hvp : fr_pair_find_by_num (interpret env s).2.reply_vps 0 env.FR_PACKET_TYPE = some vp)
    (hkeep : ∀ t : REQUEST, t.request_state = request_state_t.REQUEST_SEND →
      (env.unlang_interpret_continue t).2.reply_code = t.reply_code) :
    (∀ (k fuel : Nat) (f : fr_io_final_t) (s' : REQUEST),
      run_to_final env fuel k s = some (f, s') → f ≠ fr_io_final_t.FR_IO_YIELD →
      (f = fr_io_final_t.FR_IO_REPLY ∨ f = fr_io_final_t.FR_IO_DONE) ∧
      ((s'.nak_fallbacks = s.nak_fallbacks ∧ s'.reply_code = vp.vp_uint32) ∨
        (s'.nak_fallbacks.length = s.nak_fallbacks.length + 1 ∧
          vp.vp_uint32 = (s.packet_code + 1) % 2 ^ 32 ∧
          s'.reply_code = (s.packet_code + 2) % 2 ^ 32))) ∧
    (∀ (fuel : Nat) (f : fr_io_final_t) (s' : REQUEST),
      mod_process env fuel s fr_io_action_t.FR_IO_ACTION_RUN = some (f, s') →
      s'.master_state ≠ master_state_t.REQUEST_STOP_PROCESSING →
      f ≠ fr_io_final_t.FR_IO_YIELD →
      ((∃ unlang, find_send env (after_recv env s) = some unlang ∧
          failure_set (interpret env (rerun_nak (after_recv env s) unlang)).1 ∧
          vp.vp_uint32 = (s.packet_code + 1) % 2 ^ 32) →
        s'.reply_code = (s.packet_code + 2) % 2 ^ 32) ∧
      (¬ (∃ unlang, find_send env (after_recv env s) = some unlang ∧
          failure_set (interpret env (rerun_nak (after_recv env s) unlang)).1 ∧
          vp.vp_uint32 = (s.packet_code + 1) % 2 ^ 32) →
        s'.reply_code = vp.vp_uint32)) ∧
    (∀ (unlang : CONF_SECTION) (n : Nat),
      find_send env (after_recv env s) = some unlang →
      keeps_yielding env n (rerun_nak (after_recv env s) unlang) = true →
      (interpret env (resumed env n (rerun_nak (after_recv env s) unlang))).2.master_state
        ≠ master_state_t.REQUEST_STOP_PROCESSING →
      (interpret env (resumed env n (rerun_nak (after_recv env s) unlang))).1
        ≠ rlm_rcode_t.RLM_MODULE_YIELD →
      ∀ (k fuel : Nat) (f : fr_io_final_t) (s' : REQUEST),
        run_to_final env fuel k s = some (f, s') → f ≠ fr_io_final_t.FR_IO_YIELD →
        (f = fr_io_final_t.FR_IO_REPLY ∨ f = fr_io_final_t.FR_IO_DONE) ∧
        (failure_set (interpret env (resumed env n (rerun_nak (after_recv env s) unlang))).1 ∧
            vp.vp_uint32 = (s.packet_code + 1) % 2 ^ 32 →
          s'.reply_code = (s.packet_code + 2) % 2 ^ 32) ∧
        (¬ (failure_set (interpret env (resumed env n (rerun_nak (after_recv env s) unlang))).1 ∧
            vp.vp_uint32 = (s.packet_code + 1) % 2 ^ 32) →
          send_reply env (interpret env (resumed env n (rerun_nak (after_recv env s) unlang))).2 = (f, s') ∧
          s'.reply_code = vp.vp_uint32)) ∧
    (∀ (unlang : CONF_SECTION) (n : Nat),
      find_send env (after_recv env s) = some unlang →
      keeps_yielding env n (rerun_nak (after_recv env s) unlang) = true →
      (interpret env (resumed env n (rerun_nak (after_recv env s) unlang))).2.master_state
        = master_state_t.REQUEST_STOP_PROCESSING →
      ∀ (k fuel : Nat) (f : fr_io_final_t) (s' : REQUEST),
        run_to_final env fuel k s = some (f, s') → f ≠ fr_io_final_t.FR_IO_YIELD →
        f = fr_io_final_t.FR_IO_DONE ∧ s'.reply_code = vp.vp_uint32) ∧
    (find_send env (after_recv env s) = none →
      ∀ k fuel : Nat,
        run_to_final env fuel k s = some (send_reply env (after_recv env s)) ∧
        (send_reply env (after_recv env s)).2.reply_code = vp.vp_uint32) ∧
    (∀ k n : Nat, ∃ r, run_to_final env (n + 2) k s = some r) := by
  have hfinal : ∀ f : fr_io_final_t, f ≠ fr_io_final_t.FR_IO_FAIL →
      f ≠ fr_io_final_t.FR_IO_YIELD →
      f = fr_io_final_t.FR_IO_REPLY ∨ f = fr_io_final_t.FR_IO_DONE := by
    intro f h1 h2
    cases f <;> simp_all
  have hp1 : ∀ (k fuel : Nat) (f : fr_io_final_t) (s' : REQUEST),
      run_to_final env fuel k s = some (f, s') → f ≠ fr_io_final_t.FR_IO_YIELD →
      (f = fr_io_final_t.FR_IO_REPLY ∨ f = fr_io_final_t.FR_IO_DONE) ∧
      ((s'.nak_fallbacks = s.nak_fallbacks ∧ s'.reply_code = vp.vp_uint32) ∨
        (s'.nak_fallbacks.length = s.nak_fallbacks.length + 1 ∧
          vp.vp_uint32 = (s.packet_code + 1) % 2 ^ 32 ∧
          s'.reply_code = (s.packet_code + 2) % 2 ^ 32)) := by
    intro k fuel f s' hrun hf
    cases k with
    | zero =>
      rw [run_to_final] at hrun
      obtain ⟨p0, _, _, p3⟩ :=
        recv_call_post env s vp hphase hstop hyield hvp hkeep fuel f s' hrun
      exact ⟨hfinal f p0 hf, p3⟩
    | succ k =>
      rw [run_to_final] at hrun
      cases hm : mod_process env fuel s fr_io_action_t.FR_IO_ACTION_RUN with
      | none =>
        rw [hm] at hrun
        cases hrun
      | some r =>
        obtain ⟨f1, s1⟩ := r
        obtain ⟨p0, p1, p2, p3⟩ :=
          recv_call_post env s vp hphase hstop hyield hvp hkeep fuel f1 s1 hm
        rw [hm] at hrun
        by_cases hy : f1 = fr_io_final_t.FR_IO_YIELD
        · subst hy
          obtain ⟨q0, _, _, q3⟩ := send_run_post env hkeep fuel k s1 f s' (p2 rfl) hrun
          rw [p1] at q3
          exact ⟨hfinal f q0 hf, send_phase_post_trans _ _ _ s1 s' p3 q3⟩
        · have h' : some (f1, s1) = some (f, s') := by
            cases f1 <;> first | exact absurd rfl hy | exact hrun
          obtain ⟨rfl, rfl⟩ := Prod.mk.inj (Option.some.inj h')
          exact ⟨hfinal _ p0 hf, p3⟩
  refine ⟨hp1, ?_, ?_, ?_, ?_, ?_⟩
  · intro fuel f s' hrun hactive hf
    exact (recv_call_final_code env fuel s s' vp f hphase hstop hyield hvp hkeep hrun
      hactive hf).2
  · intro unlang n hfs hk hs hy k fuel f s' hrun hf
    have hfin := (hp1 k fuel f s' hrun hf).1
    rw [run_recv_completed env s unlang hphase hstop hyield hfs fuel k] at hrun
    have htf := rerun_nak_frame (after_recv env s) unlang
    obtain ⟨_, hrun2⟩ := run_after_yields env fuel n _ k f s' htf.1 hk hrun hf
    have hrf := resumed_frame env n (rerun_nak (after_recv env s) unlang)
    have hrc : (resumed env n (rerun_nak (after_recv env s) unlang)).reply_code
        = vp.vp_uint32 := by
      rw [resumed_keep env hkeep n _ htf.1, htf.2.2.1, after_recv_override env s vp hvp]
    have hpc : (resumed env n (rerun_nak (after_recv env s) unlang)).packet_code
        = s.packet_code := by
      rw [hrf.2.1, htf.2.1, (after_recv_frame env s).2.1]
    have hc := run_send_completed env hkeep _ (hrf.1.trans htf.1) hs hy fuel (k - n) f s' hrun2
    rw [hrc, hpc] at hc
    simp only [UINT32_MOD] at hc
    exact ⟨hfin, hc.1, hc.2⟩
  · intro unlang n hfs hk hs k fuel f s' hrun hf
    rw [run_recv_completed env s unlang hphase hstop hyield hfs fuel k] at hrun
    have htf := rerun_nak_frame (after_recv env s) unlang
    obtain ⟨_, hrun2⟩ := run_after_yields env fuel n _ k f s' htf.1 hk hrun hf
    have hrf := resumed_frame env n (rerun_nak (after_recv env s) unlang)
    have hst : (resumed env n (rerun_nak (after_recv env s) unlang)).request_state
        = request_state_t.REQUEST_SEND := hrf.1.trans htf.1
    have hrc : (resumed env n (rerun_nak (after_recv env s) unlang)).reply_code
        = vp.vp_uint32 := by
      rw [resumed_keep env hkeep n _ htf.1, htf.2.2.1, after_recv_override env s vp hvp]
    have hres : some (fr_io_final_t.FR_IO_DONE,
        (interpret env (resumed env n (rerun_nak (after_recv env s) unlang))).2)
        = some (f, s') := by
      cases fuel with
      | zero =>
        have hd : mod_process env 0 (resumed env n (rerun_nak (after_recv env s) unlang))
            fr_io_action_t.FR_IO_ACTION_RUN = none := by
          simp [mod_process, hst, case_REQUEST_SEND]
        generalize k - n = j at hrun2
        cases j <;> simp [run_to_final, hd] at hrun2
      | succ m =>
        have hd : mod_process env (m + 1) (resumed env n (rerun_nak (after_recv env s) unlang))
            fr_io_action_t.FR_IO_ACTION_RUN
            = some (fr_io_final_t.FR_IO_DONE,
                (interpret env (resumed env n (rerun_nak (after_recv env s) unlang))).2) := by
          simp [mod_process, hst, case_REQUEST_SEND, hs]
        generalize k - n = j at hrun2
        cases j <;> simp only [run_to_final, hd] at hrun2 <;> exact hrun2
    obtain ⟨rfl, rfl⟩ := Prod.mk.inj (Option.some.inj hres)
    refine ⟨rfl, ?_⟩
    rw [(interpret_frame env _).2.2.2.2.2.2.2, hkeep _ hst, hrc]
  · intro hfs k fuel
    have hm : mod_process env fuel s fr_io_action_t.FR_IO_ACTION_RUN
        = some (send_reply env (after_recv env s)) := by
      rw [mod_process_recv env fuel s hphase hstop hyield]
      change select_send env fuel (after_recv env s) = _
      simp [select_send, hfs]
    refine ⟨?_, by rw [(send_reply_frame env _).1, after_recv_override env s vp hvp]⟩
    cases k with
    | zero => rw [run_to_final, hm]
    | succ k =>
      rw [run_to_final, hm]
      have hfin := send_reply_final env (after_recv env s)
      generalize send_reply env (after_recv env s) = r at hfin
      obtain ⟨f1, s1⟩ := r
      rcases hfin with h | h <;> simp only at h <;> subst h <;> rfl
  · intro k n
    exact run_to_final_total env hkeep n k s

/-- The witness of `final_override`: the receive section of a CoA-Request
returns OK while the reply holds Packet-Type = 44; `send CoA-ACK` yields once
and, resumed, returns FAIL; the fallback runs `send CoA-NAK`, and the second
call ends with REPLY and reply code 45. -/
theorem final_override_witness :
    run_to_final
      (scripted [rlm_rcode_t.RLM_MODULE_OK, rlm_rcode_t.RLM_MODULE_YIELD,
        rlm_rcode_t.RLM_MODULE_FAIL]) 2 1
      (coa_request request_state_t.REQUEST_RECV 0 [⟨0, 1000, 44⟩])
      = some (fr_io_final_t.FR_IO_REPLY,
          { coa_request request_state_t.REQUEST_SEND 45 [⟨0, 1000, 44⟩] with
            unlang_calls := [unlang_call.interpret,
              unlang_call.push ⟨"send", "CoA-ACK", "default"⟩ rlm_rcode_t.RLM_MODULE_NOOP,
              unlang_call.interpret, unlang_call.interpret,
              unlang_call.push ⟨"send", "CoA-NAK", "default"⟩ rlm_rcode_t.RLM_MODULE_NOOP,
              unlang_call.interpret]
            nak_fallbacks := [some ⟨"CoA-ACK", 44⟩] }) ∧
    ({ coa_request request_state_t.REQUEST_SEND 45 [⟨0, 1000, 44⟩] with
        unlang_calls := [unlang_call.interpret,
          unlang_call.push ⟨"send", "CoA-ACK", "default"⟩ rlm_rcode_t.RLM_MODULE_NOOP,
          unlang_call.interpret, unlang_call.interpret,
          unlang_call.push ⟨"send", "CoA-NAK", "default"⟩ rlm_rcode_t.RLM_MODULE_NOOP,
          unlang_call.interpret]
        nak_fallbacks := [some ⟨"CoA-ACK", 44⟩] } : REQUEST).reply_code
      = (43 + 2) % 2 ^ 32 :=
  ⟨by decide,
   (((final_override
      (scripted [rlm_rcode_t.RLM_MODULE_OK, rlm_rcode_t.RLM_MODULE_YIELD,
        rlm_rcode_t.RLM_MODULE_FAIL])
      (coa_request request_state_t.REQUEST_RECV 0 [⟨0, 1000, 44⟩])
      ⟨0, 1000, 44⟩ (by decide) (by decide) (by decide) (by decide) (fun _ _ => rfl)).2.2.1
      ⟨"send", "CoA-ACK", "default"⟩ 1 (by decide) (by decide) (by decide) (by decide)
      1 2 fr_io_final_t.FR_IO_REPLY
      { coa_request request_state_t.REQUEST_SEND 45 [⟨0, 1000, 44⟩] with
        unlang_calls := [unlang_call.interpret,
          unlang_call.push ⟨"send", "CoA-ACK", "default"⟩ rlm_rcode_t.RLM_MODULE_NOOP,
          unlang_call.interpret, unlang_call.interpret,
          unlang_call.push ⟨"send", "CoA-NAK", "default"⟩ rlm_rcode_t.RLM_MODULE_NOOP,
          unlang_call.interpret]
        nak_fallbacks := [some ⟨"CoA-ACK", 44⟩] }
      (by decide) (by decide)).2.1 ⟨by decide, by decide⟩)⟩

end ProtoRadiusCoa
